import Mathlib

/-!
Verification of the SWIFT MT (FIN) message codec of the `n8n-nodes-swift`
repository: the parser (`parseMtMessage`), validator (`validateMtMessage`)
and generator (`generateMtMessage`) from
`src/nodes/Swift/utils/mtParser.ts` / `mtGenerator.ts`, together with the
field-specification tables from `data/mtTemplates.ts` and the BIC checker
from `utils/bicValidator.ts`.

Shallow embedding conventions:
* a JavaScript string is a `List Char` (`Str`); `length`, `jsSlice`, `charAt`
  are modelled on code points, which coincides with UTF-16 units on the
  ASCII inputs the codec manipulates;
* JavaScript objects used as string-keyed records become association lists
  with in-place overwrite (`setKey`), preserving the insertion-order
  semantics of object property enumeration;
* code that can throw (`generateMtMessage`, and the two validator spots
  that dereference `value[0].replace` on a possibly-empty array) returns
  `Except Str`; all other functions are total, as in the source;
* the regular expressions of the source are transcribed as explicit
  character scanners with the same backtracking/restart behaviour.
-/

set_option maxHeartbeats 2000000

abbrev Str := List Char

deriving instance DecidableEq for Except

/-- Shorthand for turning a Lean string literal into the `List Char`
representation used throughout the development. -/
def str (s : String) : Str := s.data

/-- The apostrophe character, used in field display names. -/
def apos : Char := Char.ofNat 39

/-- Builds a display name containing an apostrophe, e.g. `Sender's Reference`. -/
def withApos (a b : String) : Str := str a ++ apos :: str b

/-- Whitespace as removed by JavaScript `trim` / `\s` (ASCII portion). -/
def jsWs (c : Char) : Bool :=
  c = ' ' || c = '\t' || c = '\n' || c = '\r' || c = '\x0b' || c = '\x0c'

/-- JavaScript `String.prototype.trim`. -/
def jsTrim (s : Str) : Str :=
  ((s.dropWhile jsWs).reverse.dropWhile jsWs).reverse

/-- JavaScript `s.jsSlice(a, b)` for `0 ≤ a ≤ b` (clamping at the ends). -/
def jsSlice (s : Str) (a b : Nat) : Str := (s.drop a).take (b - a)

/-- The regex class `\d`. -/
def isDigitC (c : Char) : Bool := '0' ≤ c && c ≤ '9'

/-- The regex class `[A-Z]`. -/
def isUpperAZ (c : Char) : Bool := 'A' ≤ c && c ≤ 'Z'

/-- The regex class `[A-Z0-9]`. -/
def isUpperOrDigit (c : Char) : Bool := isUpperAZ c || isDigitC c

/-- Decimal rendering of a natural number (JavaScript template interpolation). -/
def natStr (n : Nat) : Str := (Nat.repr n).data

/-- A block-4 field value: a scalar for a single-line field, an ordered line
sequence for a multi-line (continuation) field — `string | string[]`. -/
inductive FieldVal where
  | scalar (s : Str)
  | seq (lines : List Str)
  deriving DecidableEq, Repr

/-- Property read on a string-keyed object (association list). -/
def lookupKey {α : Type} : List (Str × α) → Str → Option α
  | [], _ => none
  | (k₁, v) :: rest, k => if k₁ = k then some v else lookupKey rest k

/-- Property assignment on a string-keyed object: an existing key keeps its
position (JavaScript insertion-order semantics), a new key is appended. -/
def setKey {α : Type} : List (Str × α) → Str → α → List (Str × α)
  | [], k, v => [(k, v)]
  | (k₁, v₁) :: rest, k, v =>
    if k₁ = k then (k, v) :: rest else (k₁, v₁) :: setKey rest k v

/-- Removal of a key (used to state the mandatory-tag-removal property). -/
def removeKey {α : Type} : List (Str × α) → Str → List (Str × α)
  | [], _ => []
  | (k₁, v) :: rest, k =>
    if k₁ = k then removeKey rest k else (k₁, v) :: removeKey rest k

/-- `split(/\r?\n/)`. -/
def splitLines : Str → List Str
  | [] => [[]]
  | '\r' :: '\n' :: rest => [] :: splitLines rest
  | '\n' :: rest => [] :: splitLines rest
  | c :: rest =>
    match splitLines rest with
    | [] => [[c]]
    | l :: ls => (c :: l) :: ls

/-- `Array.prototype.join(sep)`. -/
def joinWith (sep : Str) : List Str → Str
  | [] => []
  | [l] => l
  | l :: ls => l ++ sep ++ joinWith sep ls

/-- `lines.join('\n')`. -/
def joinNL (ls : List Str) : Str := joinWith ['\n'] ls

/-- `lines.join('\r\n')`. -/
def joinCRLF (ls : List Str) : Str := joinWith (str "\r\n") ls

/-! ## Block extractor (`extractBlocks`)

The source matches the global regex `\{(\d):([^{}]*(?:\{[^{}]*\}[^{}]*)*)\}`
in a loop.  The scanner below reproduces it exactly: block content is a
sequence of non-brace characters and single-level `{...}` groups, ended by
the first unnested closing brace; a candidate that cannot be completed makes
the scan resume at the character after the opening brace, as the regex
engine bumps the match start by one position. -/

/-- Reads regex content `[^{}]*(?:\{[^{}]*\}[^{}]*)*` followed by `\}`;
`depth` is 0 outside a nested group, 1 inside. -/
def readContent : Str → Nat → Option (Str × Str)
  | [], _ => none
  | c :: rest, depth =>
    if c = '}' then
      if depth = 0 then some ([], rest)
      else (readContent rest 0).map (fun p => ('}' :: p.1, p.2))
    else if c = '{' then
      if depth = 0 then (readContent rest 1).map (fun p => ('{' :: p.1, p.2))
      else none
    else (readContent rest depth).map (fun p => (c :: p.1, p.2))

/-- After an opening brace: a digit, a colon, then the block content. -/
def tryBlock : Str → Option (Nat × Str × Str)
  | d :: ':' :: rest =>
    if isDigitC d then
      (readContent rest 0).map (fun p => (d.toNat - '0'.toNat, p.1, p.2))
    else none
  | _ => none

/-- The regex-exec loop; fuel bounds the number of scan positions, so any
fuel `≥` the input length computes the full scan. -/
def scanBlocks : Nat → Str → List (Nat × Str)
  | 0, _ => []
  | _ + 1, [] => []
  | fuel + 1, c :: rest =>
    if c = '{' then
      match tryBlock rest with
      | some (n, content, rest₂) => (n, content) :: scanBlocks fuel rest₂
      | none => scanBlocks fuel rest
    else scanBlocks fuel rest

/-- `extractBlocks`: on an input with no block match at all, the whole input
is stored as block 4.  (The source's fallback branch also computes a
line-based field map that it then discards; that dead computation has no
effect on the result and is not modelled.) -/
def extractBlocks (message : Str) : List (Nat × Str) :=
  let bs := scanBlocks message.length message
  if bs = [] then [(4, message)] else bs

/-- `blocks[n]` where later regex matches overwrite earlier ones. -/
def getBlock : List (Nat × Str) → Nat → Option Str
  | [], _ => none
  | (m, c) :: rest, n =>
    match getBlock rest n with
    | some c₂ => some c₂
    | none => if m = n then some c else none

/-- `if (blocks[n])`: a present-but-empty block string is falsy. -/
def getBlockT (bs : List (Nat × Str)) (n : Nat) : Option Str :=
  match getBlock bs n with
  | some c => if c = [] then none else some c
  | none => none

/-! ## Header decoders -/

structure BasicHeader where
  applicationId : Str
  serviceId : Str
  ltAddress : Str
  sessionNumber : Str
  sequenceNumber : Str
  deriving DecidableEq, Repr

def emptyBasicHeader : BasicHeader := ⟨[], [], [], [], []⟩

/-- `parseBasicHeader` (fixed-width slices; out-of-range slices are empty). -/
def parseBasicHeader (block : Str) : BasicHeader :=
  ⟨jsSlice block 0 1, jsSlice block 1 3, jsSlice block 3 15,
   jsSlice block 15 19, jsSlice block 19 25⟩

structure ApplicationHeader where
  inputOutput : Str
  messageType : Str
  receiverAddress : Option Str
  priority : Option Str
  deliveryMonitor : Option Str
  obsolescencePeriod : Option Str
  inputTime : Option Str
  inputDate : Option Str
  mir : Option Str
  outputDate : Option Str
  outputTime : Option Str
  deriving DecidableEq, Repr

def emptyApplicationHeader : ApplicationHeader :=
  ⟨[], [], none, none, none, none, none, none, none, none, none⟩

/-- `parseApplicationHeader`: the first character selects the input or
output variant; any other first character leaves only `inputOutput` set. -/
def parseApplicationHeader (block : Str) : ApplicationHeader :=
  if block = [] then emptyApplicationHeader
  else
    let io := jsSlice block 0 1
    if io = str "I" then
      { emptyApplicationHeader with
        inputOutput := io
        messageType := str "MT" ++ jsSlice block 1 4
        receiverAddress := some (jsSlice block 4 16)
        priority := some (jsSlice block 16 17)
        deliveryMonitor := some (jsSlice block 17 18)
        obsolescencePeriod := some (jsSlice block 18 21) }
    else if io = str "O" then
      { emptyApplicationHeader with
        inputOutput := io
        messageType := str "MT" ++ jsSlice block 1 4
        inputTime := some (jsSlice block 4 8)
        inputDate := some (jsSlice block 8 14)
        mir := some (jsSlice block 14 42)
        outputDate := some (jsSlice block 42 48)
        outputTime := some (jsSlice block 48 52)
        priority := some (jsSlice block 52 53) }
    else { emptyApplicationHeader with inputOutput := io }

/-- Content scan for `[^}]*` followed by `\}`. -/
def readToCloseBrace : Str → Option (Str × Str)
  | [] => none
  | c :: rest =>
    if c = '}' then some ([], rest)
    else (readToCloseBrace rest).map (fun p => (c :: p.1, p.2))

/-- One candidate of `\{(\d{3}):([^}]*)\}` (after the opening brace). -/
def tryUserField : Str → Option (Str × Str × Str)
  | d₁ :: d₂ :: d₃ :: c :: rest =>
    if isDigitC d₁ && isDigitC d₂ && isDigitC d₃ && c = ':' then
      (readToCloseBrace rest).map (fun p => ([d₁, d₂, d₃], p.1, p.2))
    else none
  | _ => none

def scanUserHeader : Nat → Str → List (Str × Str)
  | 0, _ => []
  | _ + 1, [] => []
  | fuel + 1, c :: rest =>
    if c = '{' then
      match tryUserField rest with
      | some (k, v, rest₂) => (k, v) :: scanUserHeader fuel rest₂
      | none => scanUserHeader fuel rest
    else scanUserHeader fuel rest

/-- One candidate of `\{([A-Z]{3}):([^}]*)\}` (after the opening brace). -/
def tryTrailerField : Str → Option (Str × Str × Str)
  | a :: b :: c :: d :: rest =>
    if isUpperAZ a && isUpperAZ b && isUpperAZ c && d = ':' then
      (readToCloseBrace rest).map (fun p => ([a, b, c], p.1, p.2))
    else none
  | _ => none

def scanTrailers : Nat → Str → List (Str × Str)
  | 0, _ => []
  | _ + 1, [] => []
  | fuel + 1, c :: rest =>
    if c = '{' then
      match tryTrailerField rest with
      | some (k, v, rest₂) => (k, v) :: scanTrailers fuel rest₂
      | none => scanTrailers fuel rest
    else scanTrailers fuel rest

/-- Folds matched key/value pairs into a record (overwrite-in-place). -/
def assocFromPairs (ps : List (Str × Str)) : List (Str × Str) :=
  ps.foldl (fun m p => setKey m p.1 p.2) []

/-- `parseUserHeader` (block 3). -/
def parseUserHeader (block : Str) : List (Str × Str) :=
  assocFromPairs (scanUserHeader block.length block)

/-- `parseTrailers` (block 5). -/
def parseTrailers (block : Str) : List (Str × Str) :=
  assocFromPairs (scanTrailers block.length block)

/-! ## Text-block tokenizer (`parseTextBlock`) -/

def isRN (c : Char) : Bool := c = '\r' || c = '\n'

/-- `block.replace(/^[\r\n]+|[\r\n]+$/g, '')`. -/
def stripRN (s : Str) : Str :=
  ((s.dropWhile isRN).reverse.dropWhile isRN).reverse

/-- JavaScript line terminators: the characters the regex wildcard `.`
cannot match. -/
def isTermC (c : Char) : Bool :=
  c = '\r' || c = '\n' || c = '\u2028' || c = '\u2029'

/-- Matches `^:(\d{2}[A-Z]?):(.*)$` against a whole line, returning the
tag and the rest of the line.  Since the regex has no `m` flag, `$` only
matches at the end of the input, and `.` matches no line terminator, so a
rest containing a bare carriage return (or any other line terminator) is
not a tag line. -/
def tagSplit : Str → Option (Str × Str)
  | ':' :: d₁ :: d₂ :: rest =>
    if isDigitC d₁ && isDigitC d₂ then
      match rest with
      | ':' :: v =>
        if v.all (fun c => !isTermC c) then some ([d₁, d₂], v) else none
      | l :: ':' :: v =>
        if isUpperAZ l && v.all (fun c => !isTermC c) then
          some ([d₁, d₂, l], v)
        else none
      | _ => none
    else none
  | _ => none

/-- A collapsed field value: two or more collected lines stay a sequence,
zero or one line collapses to the newline-joined scalar. -/
def mkVal (lines : List Str) : FieldVal :=
  if lines.length > 1 then .seq lines else .scalar (joinNL lines)

/-- Saves the field being accumulated (no-op when no field is open). -/
def saveField (acc : List (Str × FieldVal)) (ct : Str) (cl : List Str) :
    List (Str × FieldVal) :=
  if ct = [] then acc else setKey acc ct (mkVal cl)

/-- The line loop of `parseTextBlock`: a tag line opens a new field (an
empty rest-of-line contributes no value line); any other line except the
single-dash terminator is a continuation of the open field. -/
def ptbLoop : List Str → Str → List Str → List (Str × FieldVal) →
    List (Str × FieldVal)
  | [], ct, cl, acc => saveField acc ct cl
  | line :: rest, ct, cl, acc =>
    match tagSplit line with
    | some (t, v) =>
      ptbLoop rest t (if v = [] then [] else [v]) (saveField acc ct cl)
    | none =>
      if ct ≠ [] ∧ line ≠ ['-'] then ptbLoop rest ct (cl ++ [line]) acc
      else ptbLoop rest ct cl acc

/-- `parseTextBlock` (block 4). -/
def parseTextBlock (block : Str) : List (Str × FieldVal) :=
  ptbLoop (splitLines (stripRN block)) [] [] []

/-! ## Parsed message record and `parseMtMessage` -/

structure ParsedMtMessage where
  messageType : Str
  basicHeader : BasicHeader
  applicationHeader : ApplicationHeader
  userHeader : Option (List (Str × Str))
  textBlock : List (Str × FieldVal)
  trailers : Option (List (Str × Str))
  rawMessage : Str
  deriving DecidableEq, Repr

/-- `parseMtMessage`: total on every input; missing blocks leave the empty
header structures in place (the message type is copied from the
application header exactly when block 2 is present and non-empty). -/
def parseMtMessage (rawMessage : Str) : ParsedMtMessage :=
  { messageType :=
      match getBlockT (extractBlocks (jsTrim rawMessage)) 2 with
      | some b => (parseApplicationHeader b).messageType
      | none => []
    basicHeader :=
      match getBlockT (extractBlocks (jsTrim rawMessage)) 1 with
      | some b => parseBasicHeader b
      | none => emptyBasicHeader
    applicationHeader :=
      match getBlockT (extractBlocks (jsTrim rawMessage)) 2 with
      | some b => parseApplicationHeader b
      | none => emptyApplicationHeader
    userHeader := (getBlockT (extractBlocks (jsTrim rawMessage)) 3).map
      parseUserHeader
    textBlock :=
      match getBlockT (extractBlocks (jsTrim rawMessage)) 4 with
      | some b => parseTextBlock b
      | none => []
    trailers := (getBlockT (extractBlocks (jsTrim rawMessage)) 5).map
      parseTrailers
    rawMessage := jsTrim rawMessage }

/-! ## Field specification registry (`data/mtTemplates.ts`)

Only the components the codec reads are transcribed: per field the tag,
display name, mandatory flag and optional maximum length (the `format` and
`description` strings are never consulted by the parser, validator or
generator), and per message type its key and field list. -/

structure MtFieldSpec where
  tag : Str
  name : Str
  mandatory : Bool
  maxLength : Option Nat
  deriving DecidableEq, Repr

structure MtMessageSpec where
  type : Str
  fields : List MtFieldSpec
  deriving DecidableEq, Repr

/-- Entry helper mirroring one line of the specification tables. -/
def mkFS (tag name : String) (mandatory : Bool) (maxLength : Option Nat) :
    MtFieldSpec :=
  ⟨str tag, str name, mandatory, maxLength⟩

/-- Entry helper for display names containing an apostrophe. -/
def mkFSA (tag na nb : String) (mandatory : Bool) (maxLength : Option Nat) :
    MtFieldSpec :=
  ⟨str tag, withApos na nb, mandatory, maxLength⟩

/-- `MT103_SPEC` — Single Customer Credit Transfer. -/
def mt103Spec : MtMessageSpec :=
  ⟨str "MT103",
   [mkFSA "20" "Sender" "s Reference" true (some 16),
    mkFS "13C" "Time Indication" false none,
    mkFS "23B" "Bank Operation Code" true none,
    mkFS "23E" "Instruction Code" false none,
    mkFS "26T" "Transaction Type Code" false none,
    mkFS "32A" "Value Date/Currency/Amount" true none,
    mkFS "33B" "Currency/Instructed Amount" false none,
    mkFS "36" "Exchange Rate" false none,
    mkFS "50A" "Ordering Customer (BIC)" false none,
    mkFS "50F" "Ordering Customer (Party)" false none,
    mkFS "50K" "Ordering Customer (Name/Address)" false none,
    mkFS "51A" "Sending Institution" false none,
    mkFS "52A" "Ordering Institution (BIC)" false none,
    mkFS "52D" "Ordering Institution (Name/Address)" false none,
    mkFSA "53A" "Sender" "s Correspondent (BIC)" false none,
    mkFSA "53B" "Sender" "s Correspondent (Location)" false none,
    mkFSA "53D" "Sender" "s Correspondent (Name/Address)" false none,
    mkFSA "54A" "Receiver" "s Correspondent (BIC)" false none,
    mkFSA "54B" "Receiver" "s Correspondent (Location)" false none,
    mkFSA "54D" "Receiver" "s Correspondent (Name/Address)" false none,
    mkFS "55A" "Third Reimbursement Institution (BIC)" false none,
    mkFS "55B" "Third Reimbursement Institution (Location)" false none,
    mkFS "55D" "Third Reimbursement Institution (Name/Address)" false none,
    mkFS "56A" "Intermediary Institution (BIC)" false none,
    mkFS "56C" "Intermediary Institution (Account)" false none,
    mkFS "56D" "Intermediary Institution (Name/Address)" false none,
    mkFS "57A" "Account With Institution (BIC)" false none,
    mkFS "57B" "Account With Institution (Location)" false none,
    mkFS "57C" "Account With Institution (Account)" false none,
    mkFS "57D" "Account With Institution (Name/Address)" false none,
    mkFS "59" "Beneficiary Customer (Account)" true none,
    mkFS "59A" "Beneficiary Customer (BIC)" false none,
    mkFS "59F" "Beneficiary Customer (Party)" false none,
    mkFS "70" "Remittance Information" false (some 140),
    mkFS "71A" "Details of Charges" true none,
    mkFSA "71F" "Sender" "s Charges" false none,
    mkFSA "71G" "Receiver" "s Charges" false none,
    mkFS "72" "Sender to Receiver Information" false (some 210),
    mkFS "77B" "Regulatory Reporting" false (some 105),
    mkFS "77T" "Envelope Contents" false none]⟩

/-- `MT202_SPEC` — General Financial Institution Transfer. -/
def mt202Spec : MtMessageSpec :=
  ⟨str "MT202",
   [mkFS "20" "Transaction Reference Number" true (some 16),
    mkFS "21" "Related Reference" true (some 16),
    mkFS "13C" "Time Indication" false none,
    mkFS "32A" "Value Date/Currency/Amount" true none,
    mkFS "52A" "Ordering Institution (BIC)" false none,
    mkFS "52D" "Ordering Institution (Name/Address)" false none,
    mkFSA "53A" "Sender" "s Correspondent (BIC)" false none,
    mkFSA "53B" "Sender" "s Correspondent (Location)" false none,
    mkFSA "53D" "Sender" "s Correspondent (Name/Address)" false none,
    mkFSA "54A" "Receiver" "s Correspondent (BIC)" false none,
    mkFSA "54B" "Receiver" "s Correspondent (Location)" false none,
    mkFSA "54D" "Receiver" "s Correspondent (Name/Address)" false none,
    mkFS "56A" "Intermediary (BIC)" false none,
    mkFS "56D" "Intermediary (Name/Address)" false none,
    mkFS "57A" "Account With Institution (BIC)" false none,
    mkFS "57B" "Account With Institution (Location)" false none,
    mkFS "57D" "Account With Institution (Name/Address)" false none,
    mkFS "58A" "Beneficiary Institution (BIC)" true none,
    mkFS "58D" "Beneficiary Institution (Name/Address)" false none,
    mkFS "72" "Sender to Receiver Information" false (some 210)]⟩

/-- `MT940_SPEC` — Customer Statement Message. -/
def mt940Spec : MtMessageSpec :=
  ⟨str "MT940",
   [mkFS "20" "Transaction Reference Number" true (some 16),
    mkFS "21" "Related Reference" false (some 16),
    mkFS "25" "Account Identification" true (some 35),
    mkFS "25P" "Account Identification (Party)" false none,
    mkFS "28C" "Statement Number/Sequence Number" true none,
    mkFS "60F" "Opening Balance (First)" true none,
    mkFS "60M" "Opening Balance (Intermediate)" false none,
    mkFS "61" "Statement Line" false none,
    mkFS "62F" "Closing Balance (Final)" true none,
    mkFS "62M" "Closing Balance (Intermediate)" false none,
    mkFS "64" "Closing Available Balance" false none,
    mkFS "65" "Forward Available Balance" false none,
    mkFS "86" "Information to Account Owner" false (some 390)]⟩

/-- `MT950_SPEC` — Statement Message. -/
def mt950Spec : MtMessageSpec :=
  ⟨str "MT950",
   [mkFS "20" "Transaction Reference Number" true (some 16),
    mkFS "25" "Account Identification" true (some 35),
    mkFS "28C" "Statement Number/Sequence Number" true none,
    mkFS "60F" "Opening Balance (First)" true none,
    mkFS "60M" "Opening Balance (Intermediate)" false none,
    mkFS "61" "Statement Line" false none,
    mkFS "62F" "Closing Balance (Final)" true none,
    mkFS "62M" "Closing Balance (Intermediate)" false none,
    mkFS "64" "Closing Available Balance" false none]⟩

/-- `MT_SPECS`. -/
def mtSpecs : List (Str × MtMessageSpec) :=
  [(str "MT103", mt103Spec), (str "MT202", mt202Spec),
   (str "MT940", mt940Spec), (str "MT950", mt950Spec)]

/-- `BANK_OPERATION_CODES` (keys; the code only tests membership). -/
def bankOperationCodes : List Str :=
  [str "CRED", str "CRTS", str "SPAY", str "SPRI", str "SSTD"]

/-- `CHARGE_CODES` (keys; the code only tests membership). -/
def chargeCodes : List Str := [str "BEN", str "OUR", str "SHA"]

/-! ## Validator (`validateMtMessage` and helpers) -/

structure ValidationError where
  field : Str
  code : Str
  message : Str
  value : Option Str
  deriving DecidableEq, Repr

structure ValidationWarning where
  field : Str
  code : Str
  message : Str
  value : Option Str
  deriving DecidableEq, Repr

structure MtValidationResult where
  valid : Bool
  messageType : Str
  errors : List ValidationError
  warnings : List ValidationWarning
  parsedFields : List (Str × FieldVal)
  deriving DecidableEq, Repr

/-- `parsed.messageType.replace('MT', '')` (first occurrence only). -/
def stripFirstMT : Str → Str
  | 'M' :: 'T' :: rest => rest
  | c :: rest => c :: stripFirstMT rest
  | [] => []

/-- `MT_SPECS[key]`. -/
def specFor (key : Str) : Option MtMessageSpec := lookupKey mtSpecs key

/-- Mandatory-field check on one looked-up value:
`!fieldValue || (Array.isArray(fieldValue) && fieldValue.length === 0)`. -/
def isMissing : Option FieldVal → Bool
  | none => true
  | some (.scalar s) => s.isEmpty
  | some (.seq l) => l.isEmpty

/-- JavaScript truthiness of a field value: an empty scalar string is
falsy, any array (even empty) is truthy. -/
def truthy : Option FieldVal → Bool
  | none => false
  | some (.scalar s) => !s.isEmpty
  | some (.seq _) => true

/-- `Array.isArray(v) ? v[0] : v` — `none` models `undefined`. -/
def headOfField : Option FieldVal → Option Str
  | some (.scalar s) => some s
  | some (.seq l) => l.head?
  | none => none

/-- `Array.isArray(value) ? value.join('\n') : value`. -/
def joinVal : FieldVal → Str
  | .scalar s => s
  | .seq l => joinNL l

/-- `value.replace(/\s/g, '')`. -/
def stripJsWs (s : Str) : Str := s.filter (fun c => !jsWs c)

/-- The regex `^\d{6}[A-Z]{3}[\d,]+$` of the 32A check. -/
def valid32A (s : Str) : Bool :=
  decide (10 ≤ s.length) && (s.take 6).all isDigitC &&
    ((s.drop 6).take 3).all isUpperAZ &&
    (s.drop 9).all (fun c => isDigitC c || c = ',')

/-- The regex `^[CD]\d{6}[A-Z]{3}[\d,]+$` of the balance checks. -/
def validBalance : Str → Bool
  | c :: rest => (c = 'C' || c = 'D') && valid32A rest
  | [] => false

def missingFieldError (f : MtFieldSpec) : ValidationError :=
  ⟨f.tag, str "MISSING_FIELD",
   str "Mandatory field " ++ f.tag ++ str " (" ++ f.name ++
     str ") is missing", none⟩

def unknownTypeError (mt : Str) : ValidationError :=
  ⟨str "messageType", str "UNKNOWN_TYPE",
   str "Unknown message type: " ++ mt, some mt⟩

def tooLongError (tag : Str) (m : Nat) (valueStr : Str) : ValidationError :=
  ⟨tag, str "FIELD_TOO_LONG",
   str "Field " ++ tag ++ str " exceeds maximum length of " ++ natStr m,
   some valueStr⟩

def unknownFieldWarning (tag : Str) (v : FieldVal) : ValidationWarning :=
  ⟨tag, str "UNKNOWN_FIELD", str "Unknown field tag: " ++ tag,
   some (joinVal v)⟩

def err32A (v : Option Str) : ValidationError :=
  ⟨str "32A", str "INVALID_FORMAT",
   str "Field 32A format is invalid. Expected: YYMMDDCCCNNNN,NN", v⟩

def err71A (v : Option Str) : ValidationError :=
  ⟨str "71A", str "INVALID_VALUE",
   str "Field 71A must be BEN, OUR, or SHA", v⟩

def err59 : ValidationError :=
  ⟨str "59", str "MISSING_FIELD",
   str "Beneficiary customer (field 59, 59A, or 59F) is required", none⟩

def warn50 : ValidationWarning :=
  ⟨str "50", str "MISSING_FIELD",
   str "Ordering customer (field 50A, 50F, or 50K) is recommended", none⟩

def err60 : ValidationError :=
  ⟨str "60F", str "MISSING_FIELD",
   str "Opening balance (field 60F or 60M) is required", none⟩

def err62 : ValidationError :=
  ⟨str "62F", str "MISSING_FIELD",
   str "Closing balance (field 62F or 62M) is required", none⟩

def warnBalance (tag : Str) (v : Str) : ValidationWarning :=
  ⟨tag, str "INVALID_FORMAT",
   str "Field " ++ tag ++ str " format may be invalid. Expected: D/CYYMMDDCCCNNNN,NN",
   some v⟩

/-- The mandatory-field loop. -/
def mandatoryErrors : List MtFieldSpec → List (Str × FieldVal) →
    List ValidationError
  | [], _ => []
  | f :: rest, tb =>
    (if f.mandatory && isMissing (lookupKey tb f.tag) then
       [missingFieldError f]
     else []) ++ mandatoryErrors rest tb

/-- `spec.fields.find(f => f.tag === tag)`. -/
def findFieldSpec : List MtFieldSpec → Str → Option MtFieldSpec
  | [], _ => none
  | f :: rest, tag => if f.tag = tag then some f else findFieldSpec rest tag

/-- The field-format loop: unmatched tags warn, matched over-length values
error (`fieldSpec.maxLength && valueStr.length > fieldSpec.maxLength`). -/
def formatChecks (specFields : List MtFieldSpec) :
    List (Str × FieldVal) → List ValidationError × List ValidationWarning
  | [] => ([], [])
  | (tag, v) :: rest =>
    let p := formatChecks specFields rest
    match findFieldSpec specFields tag with
    | none => (p.1, unknownFieldWarning tag v :: p.2)
    | some f =>
      match f.maxLength with
      | some m =>
        if 0 < m ∧ m < (joinVal v).length then
          (tooLongError tag m (joinVal v) :: p.1, p.2)
        else p
      | none => p

/-- 32A structural check of `validateMt103Specifics`; dereferencing the
first element of an empty array value throws. -/
def check32A (tb : List (Str × FieldVal)) : Except Str (List ValidationError) :=
  let f := lookupKey tb (str "32A")
  if truthy f then
    match headOfField f with
    | none => .error (str "TypeError")
    | some s => .ok (if valid32A (stripJsWs s) then [] else [err32A (some s)])
  else .ok []

/-- `['BEN', 'OUR', 'SHA'].includes(value)`; `includes` of `undefined` is
simply `false`. -/
def chargeMember : Option Str → Bool
  | none => false
  | some v => decide (v ∈ chargeCodes)

/-- 71A membership check. -/
def check71A (tb : List (Str × FieldVal)) : List ValidationError :=
  let f := lookupKey tb (str "71A")
  if truthy f then
    let s := headOfField f
    if chargeMember s then [] else [err71A s]
  else []

/-- One-of beneficiary check (59 / 59A / 59F). -/
def checkBeneficiary (tb : List (Str × FieldVal)) : List ValidationError :=
  if !truthy (lookupKey tb (str "59")) &&
     !truthy (lookupKey tb (str "59A")) &&
     !truthy (lookupKey tb (str "59F")) then [err59] else []

/-- One-of ordering-customer recommendation (50A / 50F / 50K). -/
def checkOrdering (tb : List (Str × FieldVal)) : List ValidationWarning :=
  if !truthy (lookupKey tb (str "50A")) &&
     !truthy (lookupKey tb (str "50F")) &&
     !truthy (lookupKey tb (str "50K")) then [warn50] else []

/-- `validateMt103Specifics`. -/
def validateMt103Specifics (tb : List (Str × FieldVal)) :
    Except Str (List ValidationError × List ValidationWarning) :=
  match check32A tb with
  | .error e => .error e
  | .ok e32 => .ok (e32 ++ check71A tb ++ checkBeneficiary tb, checkOrdering tb)

/-- One tag of the balance-format loop. -/
def checkBalanceTag (tb : List (Str × FieldVal)) (tag : Str) :
    Except Str (List ValidationWarning) :=
  let f := lookupKey tb tag
  if truthy f then
    match headOfField f with
    | none => .error (str "TypeError")
    | some s =>
      .ok (if validBalance (stripJsWs s) then [] else [warnBalance tag s])
  else .ok []

def checkBalances (tb : List (Str × FieldVal)) :
    List Str → Except Str (List ValidationWarning)
  | [] => .ok []
  | tag :: rest =>
    match checkBalanceTag tb tag with
    | .error e => .error e
    | .ok w => (checkBalances tb rest).map (fun ws => w ++ ws)

def balanceTags : List Str :=
  [str "60F", str "60M", str "62F", str "62M", str "64", str "65"]

/-- `validateStatementSpecifics` (MT940/MT950). -/
def validateStatementSpecifics (tb : List (Str × FieldVal)) :
    Except Str (List ValidationError × List ValidationWarning) :=
  let e₁ :=
    if !truthy (lookupKey tb (str "60F")) &&
       !truthy (lookupKey tb (str "60M")) then [err60] else []
  let e₂ :=
    if !truthy (lookupKey tb (str "62F")) &&
       !truthy (lookupKey tb (str "62M")) then [err62] else []
  (checkBalances tb balanceTags).map (fun ws => (e₁ ++ e₂, ws))

/-- Message-type-specific semantic rules. -/
def specificsFor (mtStr : Str) (tb : List (Str × FieldVal)) :
    Except Str (List ValidationError × List ValidationWarning) :=
  if mtStr = str "103" then validateMt103Specifics tb
  else if mtStr = str "940" ∨ mtStr = str "950" then
    validateStatementSpecifics tb
  else .ok ([], [])

/-- The error list of a successful validation pass: mandatory-field errors
first, then format errors in field order, then type-specific errors. -/
def allErrors (spec : MtMessageSpec) (tb : List (Str × FieldVal))
    (sp : List ValidationError × List ValidationWarning) :
    List ValidationError :=
  mandatoryErrors spec.fields tb ++ (formatChecks spec.fields tb).1 ++ sp.1

/-- `validateMtMessage` on an already-parsed record. -/
def validateCore (p : ParsedMtMessage) : Except Str MtValidationResult :=
  match specFor (str "MT" ++ stripFirstMT p.messageType) with
  | none =>
    .ok ⟨false, p.messageType, [unknownTypeError p.messageType], [],
         p.textBlock⟩
  | some spec =>
    match specificsFor (stripFirstMT p.messageType) p.textBlock with
    | .error e => .error e
    | .ok sp =>
      .ok ⟨(allErrors spec p.textBlock sp).isEmpty, p.messageType,
           allErrors spec p.textBlock sp,
           (formatChecks spec.fields p.textBlock).2 ++ sp.2, p.textBlock⟩

/-- `validateMtMessage(message: string | ParsedMtMessage)`. -/
def validateMtMessage : Str ⊕ ParsedMtMessage → Except Str MtValidationResult
  | Sum.inl s => validateCore (parseMtMessage s)
  | Sum.inr p => validateCore p

/-! ## BIC validator (`utils/bicValidator.ts`) -/

structure BicComponents where
  institutionCode : Str
  countryCode : Str
  locationCode : Str
  branchCode : Str
  deriving DecidableEq, Repr

structure BicValidationResult where
  valid : Bool
  bic : Str
  normalized : Str
  components : BicComponents
  errors : List Str
  deriving DecidableEq, Repr

/-- The keys of `COUNTRY_CODES` (the mapped country names are never read by
the validation path). -/
def countryCodes : List Str :=
  [str "US", str "GB", str "DE", str "FR", str "CH", str "JP", str "CN",
   str "CA", str "AU", str "SG", str "HK", str "NL", str "ES", str "IT",
   str "IN", str "BR", str "AE", str "ZA", str "KR", str "SE", str "NO",
   str "DK", str "FI", str "AT", str "BE", str "IE", str "PT", str "PL",
   str "CZ", str "RU", str "MX", str "AR", str "CL", str "CO", str "TH",
   str "MY", str "ID", str "PH", str "VN", str "NZ", str "SA", str "QA",
   str "KW", str "EG", str "NG", str "KE"]

/-- `normalizeBic`: uppercase (ASCII) then remove whitespace. -/
def normalizeBic (bic : Str) : Str :=
  (bic.map Char.toUpper).filter (fun c => !jsWs c)

/-- `BIC_PATTERN = /^[A-Z]{4}[A-Z]{2}[A-Z0-9]{2}([A-Z0-9]{3})?$/`. -/
def bicPatternOk (s : Str) : Bool :=
  (decide (s.length = 8) || decide (s.length = 11)) &&
    (s.take 6).all isUpperAZ && ((s.drop 6).take 2).all isUpperOrDigit &&
    (s.drop 8).all isUpperOrDigit

/-- The component decomposition of a normalized BIC. -/
def bicComponents (normalized : Str) : BicComponents :=
  ⟨normalized.take 4, jsSlice normalized 4 6, jsSlice normalized 6 8,
   if normalized.length = 11 then jsSlice normalized 8 11 else str "XXX"⟩

/-- The error accumulation of `validateBic` for a non-empty normalized BIC:
length check, pattern check, country-code check, location-code check. -/
def bicErrors (normalized : Str) : List Str :=
  (if normalized.length ≠ 8 ∧ normalized.length ≠ 11 then
     [str "BIC must be 8 or 11 characters, got " ++ natStr normalized.length]
   else []) ++
  (if !bicPatternOk normalized then
     [str "BIC format is invalid. Expected format: AAAABBCCXXX or AAAABBCC"]
   else []) ++
  (if (bicComponents normalized).countryCode ≠ [] ∧
      (bicComponents normalized).countryCode ∉ countryCodes then
     [str "Unknown country code: " ++ (bicComponents normalized).countryCode]
   else []) ++
  (if (bicComponents normalized).locationCode ≠ [] ∧
      ((bicComponents normalized).locationCode.head? = some '0' ∨
       (bicComponents normalized).locationCode.head? = some '1') then
     [str "Location code first character cannot be 0 or 1"]
   else [])

/-- `validateBic`. -/
def validateBic (bic : Str) : BicValidationResult :=
  if normalizeBic bic = [] then
    ⟨false, bic, [], ⟨[], [], [], []⟩, [str "BIC code is required"]⟩
  else
    ⟨(bicErrors (normalizeBic bic)).isEmpty, bic, normalizeBic bic,
     bicComponents (normalizeBic bic), bicErrors (normalizeBic bic)⟩

/-! ## Generator (`utils/mtGenerator.ts`) -/

structure MtMessageInput where
  messageType : Str
  senderBic : Str
  receiverBic : Str
  fields : List (Str × Str)
  deriving DecidableEq, Repr

/-- Truthy named-property read on the generation field record: an absent or
empty-string property is falsy. -/
def gf (fields : List (Str × Str)) (k : String) : Option Str :=
  match lookupKey fields (str k) with
  | some v => if v = [] then none else some v
  | none => none

/-- `formatSwiftAmount`: the source parses the amount with `parseFloat` and
re-renders with `toFixed(2)`, i.e. floating point.  The embedding covers the
domain on which that computation is exact and on which every theorem below
evaluates it: canonical non-negative integer decimal strings (digits only,
no leading zero, at most 15 digits), for which the JavaScript result is
exactly the digit string followed by `,00`.  Inputs outside this canonical
domain are conservatively mapped to the thrown-error case and are never fed
to the function by the theorems in this file. -/
def canonicalIntStr (s : Str) : Bool :=
  !s.isEmpty && s.all isDigitC && decide (s.length ≤ 15) &&
    (decide (s.head? ≠ some '0') || decide (s = ['0']))

def formatSwiftAmount (amount : Str) : Except Str Str :=
  if canonicalIntStr amount then .ok (amount ++ str ",00")
  else .error (str "Invalid amount: " ++ amount)

/-- The opening brace character (block delimiter). -/
def obr : Char := Char.ofNat 123

/-- The closing brace character (block delimiter). -/
def cbr : Char := Char.ofNat 125

/-- `generateBlock1` (session and sequence numbers are placeholders). -/
def generateBlock1 (senderBic : Str) : Str :=
  obr :: str "1:F01" ++ senderBic ++ str "0000" ++ str "000000" ++ [cbr]

/-- `generateBlock2` (input variant, priority `N`, no delivery monitor). -/
def generateBlock2 (messageType receiverBic : Str) : Str :=
  obr :: str "2:I" ++ messageType ++ receiverBic ++ str "N" ++ [cbr]

/-- `generateBlock3`: emitted only when a UETR or MUR is supplied. -/
def generateBlock3 (fields : List (Str × Str)) : Str :=
  let headerFields :=
    (match gf fields "uetr" with
     | some u => [obr :: str "121:" ++ u ++ [cbr]]
     | none => []) ++
    (match gf fields "mur" with
     | some m => [obr :: str "108:" ++ m ++ [cbr]]
     | none => [])
  if headerFields.isEmpty then []
  else obr :: str "3:" ++ joinWith [] headerFields ++ [cbr]

/-- `generateBlock5` (empty trailers block). -/
def generateBlock5 : Str := obr :: str "5:" ++ [cbr]

/-- One conditional `lines.push(':TAG:' + value)`. -/
def optLine (fields : List (Str × Str)) (k : String) (tagPrefix : String) :
    List Str :=
  match gf fields k with
  | some v => [str tagPrefix ++ v]
  | none => []

/-- Field 32A, emitted only when value date, currency and amount are all
supplied; the amount goes through `formatSwiftAmount`. -/
def build32A (fields : List (Str × Str)) : Except Str (List Str) :=
  match gf fields "valueDate", gf fields "currency", gf fields "amount" with
  | some d, some c, some a =>
    (formatSwiftAmount a).map (fun fa => [str ":32A:" ++ d ++ c ++ fa])
  | _, _, _ => .ok []

/-- Field 33B, emitted only when instructed currency and amount are both
supplied. -/
def build33B (fields : List (Str × Str)) : Except Str (List Str) :=
  match gf fields "instructedCurrency", gf fields "instructedAmount" with
  | some c, some a =>
    (formatSwiftAmount a).map (fun fa => [str ":33B:" ++ c ++ fa])
  | _, _ => .ok []

/-- Field 50K: `/account` line plus name, when either part is supplied. -/
def build50K (fields : List (Str × Str)) : List Str :=
  match gf fields "orderingCustomerAccount",
        gf fields "orderingCustomerName" with
  | none, none => []
  | acc, nm =>
    [str ":50K:" ++
      (match acc with
       | some a => '/' :: a ++ str "\r\n"
       | none => []) ++
      (match nm with
       | some n => n
       | none => [])]

/-- Field 59: `/account` line plus name, when either part is supplied. -/
def build59 (fields : List (Str × Str)) : List Str :=
  match gf fields "beneficiaryAccount", gf fields "beneficiaryName" with
  | none, none => []
  | acc, nm =>
    [str ":59:" ++
      (match acc with
       | some a => '/' :: a ++ str "\r\n"
       | none => []) ++
      (match nm with
       | some n => n
       | none => [])]

/-- `generateMT103Content`. -/
def generateMT103Content (fields : List (Str × Str)) : Except Str Str :=
  let opCode := (gf fields "bankOperationCode").getD (str "CRED")
  if opCode ∉ bankOperationCodes then
    .error (str "Invalid bank operation code: " ++ opCode)
  else
    match build32A fields with
    | .error e => .error e
    | .ok l32 =>
      match build33B fields with
      | .error e => .error e
      | .ok l33 =>
        let charges := (gf fields "charges").getD (str "SHA")
        if charges ∉ chargeCodes then
          .error (str "Invalid charge code: " ++ charges)
        else
          .ok (joinCRLF
            (optLine fields "senderReference" ":20:" ++
             [str ":23B:" ++ opCode] ++ l32 ++ l33 ++
             build50K fields ++
             optLine fields "orderingInstitution" ":52A:" ++
             optLine fields "sendersCorrespondent" ":53A:" ++
             optLine fields "receiversCorrespondent" ":54A:" ++
             optLine fields "intermediaryInstitution" ":56A:" ++
             optLine fields "accountWithInstitution" ":57A:" ++
             build59 fields ++
             optLine fields "remittanceInfo" ":70:" ++
             [str ":71A:" ++ charges] ++
             optLine fields "senderToReceiverInfo" ":72:") ++ str "\r\n")

/-- `generateMT202Content`. -/
def generateMT202Content (fields : List (Str × Str)) : Except Str Str :=
  match build32A fields with
  | .error e => .error e
  | .ok l32 =>
    .ok (joinCRLF
      (optLine fields "transactionReference" ":20:" ++
       optLine fields "relatedReference" ":21:" ++ l32 ++
       optLine fields "orderingInstitution" ":52A:" ++
       optLine fields "sendersCorrespondent" ":53A:" ++
       optLine fields "receiversCorrespondent" ":54A:" ++
       optLine fields "intermediary" ":56A:" ++
       optLine fields "accountWithInstitution" ":57A:" ++
       optLine fields "beneficiaryInstitution" ":58A:" ++
       optLine fields "senderToReceiverInfo" ":72:") ++ str "\r\n")

/-- `statementLines.split('|')`. -/
def splitPipe : Str → List Str
  | [] => [[]]
  | '|' :: rest => [] :: splitPipe rest
  | c :: rest =>
    match splitPipe rest with
    | [] => [[c]]
    | l :: ls => (c :: l) :: ls

/-- One `:61:` line per pipe-separated statement line. -/
def buildStatementLines (fields : List (Str × Str)) : List Str :=
  match gf fields "statementLines" with
  | some s => (splitPipe s).map (fun l => str ":61:" ++ l)
  | none => []

/-- `generateMT940Content` (no failure points). -/
def generateMT940Content (fields : List (Str × Str)) : Str :=
  joinCRLF
    (optLine fields "transactionReference" ":20:" ++
     optLine fields "accountId" ":25:" ++
     optLine fields "statementNumber" ":28C:" ++
     optLine fields "openingBalance" ":60F:" ++
     buildStatementLines fields ++
     optLine fields "closingBalance" ":62F:" ++
     optLine fields "closingAvailableBalance" ":64:") ++ str "\r\n"

/-- `generateMT950Content` (no failure points). -/
def generateMT950Content (fields : List (Str × Str)) : Str :=
  joinCRLF
    (optLine fields "transactionReference" ":20:" ++
     optLine fields "accountId" ":25:" ++
     optLine fields "statementNumber" ":28C:" ++
     optLine fields "openingBalance" ":60F:" ++
     buildStatementLines fields ++
     optLine fields "closingBalance" ":62F:") ++ str "\r\n"

/-- `generateBlock4`: dispatch on message type, wrap in `{4:\r\n` … `-}`. -/
def generateBlock4 (messageType : Str) (fields : List (Str × Str)) :
    Except Str Str :=
  (if messageType = str "103" then generateMT103Content fields
   else if messageType = str "202" then generateMT202Content fields
   else if messageType = str "940" then .ok (generateMT940Content fields)
   else if messageType = str "950" then .ok (generateMT950Content fields)
   else .error (str "Unsupported message type: MT" ++ messageType)).map
    (fun content => obr :: str "4:\r\n" ++ content ++ str "-" ++ [cbr])

/-- `normalizeBicTo12` (pad the branch portion with the head-office marker). -/
def normalizeBicTo12 (bic : Str) : Str :=
  if bic.length = 8 then bic ++ str "XXXX"
  else if bic.length = 11 then bic ++ str "X"
  else bic

/-- `errors.join(', ')`. -/
def joinCommaSp (ls : List Str) : Str := joinWith (str ", ") ls

/-- `generateMtMessage`: BIC precondition checks, then the five blocks in
fixed order with no validation re-pass. -/
def generateMtMessage (input : MtMessageInput) : Except Str Str :=
  if (validateBic input.senderBic).valid = false then
    .error (str "Invalid sender BIC: " ++
      joinCommaSp (validateBic input.senderBic).errors)
  else if (validateBic input.receiverBic).valid = false then
    .error (str "Invalid receiver BIC: " ++
      joinCommaSp (validateBic input.receiverBic).errors)
  else
    (generateBlock4 (stripFirstMT input.messageType) input.fields).map
      (fun block4 =>
        generateBlock1
          (normalizeBicTo12 (validateBic input.senderBic).normalized) ++
        generateBlock2 (stripFirstMT input.messageType)
          (normalizeBicTo12 (validateBic input.receiverBic).normalized) ++
        generateBlock3 input.fields ++ block4 ++ generateBlock5)

/-! ## Generic helper lemmas -/

theorem lookupKey_setKey_self {α : Type} (m : List (Str × α)) (k : Str)
    (v : α) : lookupKey (setKey m k v) k = some v := by
  induction m with
  | nil => simp [setKey, lookupKey]
  | cons p rest ih =>
    obtain ⟨k₁, v₁⟩ := p
    by_cases h : k₁ = k
    · simp [setKey, h, lookupKey]
    · simp [setKey, h, lookupKey, ih]

theorem lookupKey_append_left {α : Type} (a b : List (Str × α)) (k : Str)
    (h : lookupKey a k = none) : lookupKey (a ++ b) k = lookupKey b k := by
  induction a with
  | nil => simp
  | cons p rest ih =>
    obtain ⟨k₁, v₁⟩ := p
    by_cases hk : k₁ = k
    · simp [lookupKey, hk] at h
    · simp only [lookupKey, hk, if_false, List.cons_append] at h ⊢
      exact ih h

theorem lookupKey_cons_ne {α : Type} (k₁ : Str) (v : α)
    (rest : List (Str × α)) (k : Str) (h : k₁ ≠ k) :
    lookupKey ((k₁, v) :: rest) k = lookupKey rest k := by
  simp [lookupKey, h]

theorem lookupKey_removeKey_ne {α : Type} (m : List (Str × α)) (t k : Str)
    (h : t ≠ k) : lookupKey (removeKey m t) k = lookupKey m k := by
  induction m with
  | nil => simp [removeKey]
  | cons p rest ih =>
    obtain ⟨k₁, v₁⟩ := p
    by_cases h₁ : k₁ = t
    · subst h₁
      simp [removeKey, lookupKey, h, ih]
    · simp only [removeKey, if_neg h₁, lookupKey]
      by_cases h₂ : k₁ = k
      · simp [h₂]
      · simp [h₂, ih]

theorem lookupKey_removeKey_self {α : Type} (m : List (Str × α)) (t : Str) :
    lookupKey (removeKey m t) t = none := by
  induction m with
  | nil => simp [removeKey, lookupKey]
  | cons p rest ih =>
    obtain ⟨k₁, v₁⟩ := p
    by_cases h₁ : k₁ = t
    · simp [removeKey, h₁, ih]
    · simp [removeKey, h₁, lookupKey, ih]

theorem splitLines_ne_nil (s : Str) : splitLines s ≠ [] := by
  rw [splitLines.eq_def]
  split
  · simp
  · simp
  · simp
  · split <;> simp

/-- A line of characters that are neither CR nor LF is one split segment. -/
theorem splitLines_no_rn (a : Str) (ha : ∀ c ∈ a, isRN c = false) :
    splitLines a = [a] := by
  induction a with
  | nil => rfl
  | cons c rest ih =>
    have hc : isRN c = false := ha c (by simp)
    have hcr : c ≠ '\r' := by rintro rfl; simp [isRN] at hc
    have hcn : c ≠ '\n' := by rintro rfl; simp [isRN] at hc
    have hrest : splitLines rest = [rest] := ih (fun d hd => ha d (by simp [hd]))
    rw [splitLines.eq_def]
    split
    · simp_all
    · simp_all
    · simp_all
    · rename_i hEq
      injection hEq with h₁ h₂
      subst h₁
      subst h₂
      rw [hrest]

/-- A matched tag is two digits optionally followed by one uppercase letter. -/
theorem tagSplit_shape (l t v : Str) (h : tagSplit l = some (t, v)) :
    t ≠ [] ∧ ∀ c ∈ t, (isDigitC c || isUpperAZ c) = true := by
  rw [tagSplit.eq_def] at h
  split at h
  · rename_i d₁ d₂ rest
    split at h
    · rename_i hguard
      rw [Bool.and_eq_true] at hguard
      split at h
      · split at h
        · injection h with h₁
          injection h₁ with ht hv
          subst ht
          refine ⟨by simp, ?_⟩
          intro c hc
          rcases List.mem_cons.mp hc with rfl | hc
          · simp [hguard.1]
          · rcases List.mem_cons.mp hc with rfl | hc
            · simp [hguard.2]
            · simp at hc
        · simp at h
      · split at h
        · rename_i hu
          rw [Bool.and_eq_true] at hu
          injection h with h₁
          injection h₁ with ht hv
          subst ht
          refine ⟨by simp, ?_⟩
          intro c hc
          rcases List.mem_cons.mp hc with rfl | hc
          · simp [hguard.1]
          · rcases List.mem_cons.mp hc with rfl | hc
            · simp [hguard.2]
            · rcases List.mem_cons.mp hc with rfl | hc
              · simp [hu.1]
              · simp at hc
        · simp at h
      · simp at h
    · simp at h
  · simp at h

/-- Non-tag lines after an open field are collected as continuation lines
(dash terminator lines are dropped). -/
theorem ptbLoop_conts (post : List Str) (ct : Str) (cl : List Str)
    (acc : List (Str × FieldVal)) (hct : ct ≠ [])
    (hpost : ∀ l ∈ post, tagSplit l = none) :
    ptbLoop post ct cl acc =
      setKey acc ct (mkVal (cl ++ post.filter (fun l => decide (l ≠ ['-'])))) := by
  induction post generalizing cl with
  | nil => simp [ptbLoop, saveField, hct]
  | cons l rest ih =>
    have hl : tagSplit l = none := hpost l (by simp)
    by_cases hd : l = ['-']
    · subst hd
      simp only [ptbLoop, hl]
      rw [if_neg (by simp [hct])]
      rw [ih _ (fun x hx => hpost x (by simp [hx]))]
      simp
    · simp only [ptbLoop, hl]
      rw [if_pos ⟨hct, hd⟩]
      rw [ih _ (fun x hx => hpost x (by simp [hx]))]
      simp [List.filter_cons, hd]

/-- The value recorded for a tag is determined by the last tag line for it:
any prefix of lines processed before that tag line only contributes via the
accumulator, which the final in-place overwrite replaces. -/
theorem ptbLoop_last (pre : List Str) (line₀ : Str) (post : List Str)
    (t v : Str) (ct : Str) (cl : List Str) (acc : List (Str × FieldVal))
    (htag : tagSplit line₀ = some (t, v))
    (hpost : ∀ l ∈ post, tagSplit l = none) :
    lookupKey (ptbLoop (pre ++ line₀ :: post) ct cl acc) t =
      some (mkVal ((if v = [] then [] else [v]) ++
        post.filter (fun l => decide (l ≠ ['-'])))) := by
  induction pre generalizing ct cl acc with
  | nil =>
    rw [List.nil_append]
    simp only [ptbLoop, htag]
    have ht : t ≠ [] := (tagSplit_shape line₀ t v htag).1
    rw [ptbLoop_conts post t _ _ ht hpost]
    exact lookupKey_setKey_self _ _ _
  | cons l pre ih =>
    rw [List.cons_append]
    simp only [ptbLoop]
    rcases hts : tagSplit l with _ | p
    · by_cases hcond : ct ≠ [] ∧ l ≠ ['-']
      · rw [if_pos hcond]
        exact ih _ _ _
      · rw [if_neg hcond]
        exact ih _ _ _
    · obtain ⟨t₂, v₂⟩ := p
      exact ih _ _ _

/-- Splitting off one CR-LF-terminated line. -/
theorem splitLines_append_crlf (a b : Str) (ha : ∀ c ∈ a, isRN c = false) :
    splitLines (a ++ '\r' :: '\n' :: b) = a :: splitLines b := by
  induction a with
  | nil => simp [splitLines]
  | cons c rest ih =>
    have hc := ha c (by simp)
    have hcr : c ≠ '\r' := by rintro rfl; simp [isRN] at hc
    have hcn : c ≠ '\n' := by rintro rfl; simp [isRN] at hc
    rw [List.cons_append, splitLines.eq_def]
    split
    · rename_i hEq
      exact absurd hEq (by simp)
    · rename_i hEq
      injection hEq with h₁ h₂
      exact absurd h₁ hcr
    · rename_i hEq
      injection hEq with h₁ h₂
      exact absurd h₁ hcn
    · rename_i hEq
      injection hEq with h₁ h₂
      subst h₁
      rw [← h₂, ih (fun d hd => ha d (by simp [hd]))]

theorem dropWhile_eq_self_of_head (p : Char → Bool) (s : Str)
    (h : ∀ c, s.head? = some c → p c = false) : s.dropWhile p = s := by
  cases s with
  | nil => rfl
  | cons c rest =>
    rw [List.dropWhile_cons_of_neg]
    simp [h c rfl]

theorem head?_reverse_eq (s : Str) : s.reverse.head? = s.getLast? := by
  induction s with
  | nil => rfl
  | cons c rest ih =>
    cases rest with
    | nil => simp
    | cons d r =>
      rw [List.reverse_cons, List.head?_append_of_ne_nil _ (by simp), ih,
        List.getLast?_cons_cons]

theorem stripEnds_eq_self (p : Char → Bool) (s : Str)
    (h1 : ∀ c, s.head? = some c → p c = false)
    (h2 : ∀ c, s.getLast? = some c → p c = false) :
    ((s.dropWhile p).reverse.dropWhile p).reverse = s := by
  rw [dropWhile_eq_self_of_head p s h1,
    dropWhile_eq_self_of_head p s.reverse
      (fun c hc => h2 c (by rwa [head?_reverse_eq] at hc)),
    List.reverse_reverse]

theorem stripRN_eq_self (s : Str)
    (h1 : ∀ c, s.head? = some c → isRN c = false)
    (h2 : ∀ c, s.getLast? = some c → isRN c = false) : stripRN s = s :=
  stripEnds_eq_self isRN s h1 h2

theorem jsTrim_eq_self (s : Str)
    (h1 : ∀ c, s.head? = some c → jsWs c = false)
    (h2 : ∀ c, s.getLast? = some c → jsWs c = false) : jsTrim s = s :=
  stripEnds_eq_self jsWs s h1 h2

theorem mem_of_getLast?_eq (s : Str) (c : Char) (h : s.getLast? = some c) :
    c ∈ s := by
  induction s with
  | nil => simp at h
  | cons d rest ih =>
    cases rest with
    | nil =>
      simp at h
      simp [h]
    | cons e r =>
      rw [List.getLast?_cons_cons] at h
      exact List.mem_cons_of_mem d (ih h)

theorem tagSplit_ne_nil (l t v : Str) (h : tagSplit l = some (t, v)) :
    l ≠ [] := by
  rintro rfl
  simp [tagSplit] at h

theorem tagSplit_head (l t v : Str) (h : tagSplit l = some (t, v)) :
    ∃ r, l = ':' :: r := by
  rw [tagSplit.eq_def] at h
  split at h
  · exact ⟨_, rfl⟩
  · simp at h

theorem digitOrUpper_not_rn (c : Char)
    (h : (isDigitC c || isUpperAZ c) = true) : isRN c = false := by
  by_contra hrn
  rw [Bool.not_eq_false, isRN, Bool.or_eq_true, decide_eq_true_eq,
    decide_eq_true_eq] at hrn
  rcases hrn with rfl | rfl
  · exact absurd h (by decide)
  · exact absurd h (by decide)

/-- Opening a new field from the initial loop state. -/
theorem ptbLoop_start (line₀ : Str) (rest : List Str) (t v : Str)
    (htag : tagSplit line₀ = some (t, v)) :
    ptbLoop (line₀ :: rest) [] [] [] =
      ptbLoop rest t (if v = [] then [] else [v]) [] := by
  simp [ptbLoop, htag, saveField]

/-- C6: a block-4 field whose value spans three physical lines decodes to a
3-element line sequence whose entries are exactly the original lines, and
re-joining that sequence with line breaks reproduces the original field
content; more generally a field with two or more lines is represented as
the sequence and a field with exactly one line as a scalar string. -/
theorem c6_multiline_field_fidelity (t l₁ l₂ l₃ : Str)
    (htag : tagSplit (':' :: (t ++ ':' :: l₁)) = some (t, l₁))
    (h₁rn : ∀ c ∈ l₁, isRN c = false) (h₁ : l₁ ≠ [])
    (h₂rn : ∀ c ∈ l₂, isRN c = false) (h₂t : tagSplit l₂ = none)
    (h₂d : l₂ ≠ ['-'])
    (h₃rn : ∀ c ∈ l₃, isRN c = false) (h₃t : tagSplit l₃ = none)
    (h₃d : l₃ ≠ ['-']) (h₃ : l₃ ≠ []) :
    parseTextBlock ((':' :: (t ++ ':' :: l₁)) ++ '\r' :: '\n' ::
        (l₂ ++ '\r' :: '\n' :: l₃)) =
      [(t, FieldVal.seq [l₁, l₂, l₃])] ∧
    joinNL [l₁, l₂, l₃] = l₁ ++ '\n' :: (l₂ ++ '\n' :: l₃) ∧
    (l₂ ≠ [] →
      parseTextBlock ((':' :: (t ++ ':' :: l₁)) ++ '\r' :: '\n' :: l₂) =
        [(t, FieldVal.seq [l₁, l₂])]) ∧
    parseTextBlock (':' :: (t ++ ':' :: l₁)) = [(t, FieldVal.scalar l₁)] := by
  have hline₀rn : ∀ c ∈ ':' :: (t ++ ':' :: l₁), isRN c = false := by
    intro c hc
    rcases List.mem_cons.mp hc with rfl | hc
    · decide
    · rcases List.mem_append.mp hc with hc | hc
      · exact digitOrUpper_not_rn c ((tagSplit_shape _ _ _ htag).2 c hc)
      · rcases List.mem_cons.mp hc with rfl | hc
        · decide
        · exact h₁rn c hc
  have htne : t ≠ [] := (tagSplit_shape _ _ _ htag).1
  refine ⟨?_, by simp [joinNL, joinWith], ?_, ?_⟩
  · have hstrip : stripRN ((':' :: (t ++ ':' :: l₁)) ++ '\r' :: '\n' ::
        (l₂ ++ '\r' :: '\n' :: l₃)) = (':' :: (t ++ ':' :: l₁)) ++
        '\r' :: '\n' :: (l₂ ++ '\r' :: '\n' :: l₃) := by
      apply stripRN_eq_self
      · intro c hc
        rw [List.cons_append] at hc
        simp only [List.head?_cons, Option.some.injEq] at hc
        subst hc
        decide
      · intro c hc
        rw [List.getLast?_append_of_ne_nil _ (by simp)] at hc
        have hsh : ('\r' :: '\n' :: (l₂ ++ '\r' :: '\n' :: l₃) : Str) =
            ('\r' :: '\n' :: l₂) ++ ('\r' :: '\n' :: l₃) := by simp
        rw [hsh, List.getLast?_append_of_ne_nil _ (by simp)] at hc
        have hsh₂ : ('\r' :: '\n' :: l₃ : Str) = ['\r', '\n'] ++ l₃ := rfl
        rw [hsh₂, List.getLast?_append_of_ne_nil _ h₃] at hc
        exact h₃rn c (mem_of_getLast?_eq _ _ hc)
    unfold parseTextBlock
    rw [hstrip, splitLines_append_crlf _ _ hline₀rn,
      splitLines_append_crlf _ _ h₂rn, splitLines_no_rn _ h₃rn,
      ptbLoop_start _ _ _ _ htag, if_neg h₁,
      ptbLoop_conts _ _ _ _ htne
        (by intro l hl; rcases List.mem_cons.mp hl with rfl | hl
            · exact h₂t
            · rcases List.mem_cons.mp hl with rfl | hl
              · exact h₃t
              · simp at hl)]
    simp [setKey, mkVal, List.filter_cons, h₂d, h₃d]
  · intro h₂ne
    have hstrip : stripRN ((':' :: (t ++ ':' :: l₁)) ++ '\r' :: '\n' :: l₂) =
        (':' :: (t ++ ':' :: l₁)) ++ '\r' :: '\n' :: l₂ := by
      apply stripRN_eq_self
      · intro c hc
        rw [List.cons_append] at hc
        simp only [List.head?_cons, Option.some.injEq] at hc
        subst hc
        decide
      · intro c hc
        rw [List.getLast?_append_of_ne_nil _ (by simp)] at hc
        have hsh : ('\r' :: '\n' :: l₂ : Str) = ['\r', '\n'] ++ l₂ := rfl
        rw [hsh, List.getLast?_append_of_ne_nil _ h₂ne] at hc
        exact h₂rn c (mem_of_getLast?_eq _ _ hc)
    unfold parseTextBlock
    rw [hstrip, splitLines_append_crlf _ _ hline₀rn, splitLines_no_rn _ h₂rn,
      ptbLoop_start _ _ _ _ htag, if_neg h₁,
      ptbLoop_conts _ _ _ _ htne
        (by intro l hl; rcases List.mem_cons.mp hl with rfl | hl
            · exact h₂t
            · simp at hl)]
    simp [setKey, mkVal, List.filter_cons, h₂d]
  · have hstrip : stripRN (':' :: (t ++ ':' :: l₁)) =
        ':' :: (t ++ ':' :: l₁) := by
      apply stripRN_eq_self
      · intro c hc
        simp only [List.head?_cons, Option.some.injEq] at hc
        subst hc
        decide
      · intro c hc
        have hsh : (':' :: (t ++ ':' :: l₁) : Str) =
            (':' :: t ++ [':']) ++ l₁ := by simp
        rw [hsh, List.getLast?_append_of_ne_nil _ h₁] at hc
        exact h₁rn c (mem_of_getLast?_eq _ _ hc)
    unfold parseTextBlock
    rw [hstrip, splitLines_no_rn _ hline₀rn, ptbLoop_start _ _ _ _ htag,
      if_neg h₁]
    simp [ptbLoop, saveField, htne, setKey, mkVal, joinNL, joinWith]

theorem c6_witness :
    parseTextBlock ((':' :: (str "50K" ++ ':' :: str "/123")) ++ '\r' :: '\n' ::
        (str "JOHN" ++ '\r' :: '\n' :: str "STREET")) =
      [(str "50K", FieldVal.seq [str "/123", str "JOHN", str "STREET"])] ∧
    joinNL [str "/123", str "JOHN", str "STREET"] =
      str "/123" ++ '\n' :: (str "JOHN" ++ '\n' :: str "STREET") ∧
    (str "JOHN" ≠ [] →
      parseTextBlock ((':' :: (str "50K" ++ ':' :: str "/123")) ++
          '\r' :: '\n' :: str "JOHN") =
        [(str "50K", FieldVal.seq [str "/123", str "JOHN"])]) ∧
    parseTextBlock (':' :: (str "50K" ++ ':' :: str "/123")) =
      [(str "50K", FieldVal.scalar (str "/123"))] :=
  c6_multiline_field_fidelity (str "50K") (str "/123") (str "JOHN")
    (str "STREET") (by decide) (by decide) (by decide) (by decide) (by decide)
    (by decide) (by decide) (by decide) (by decide) (by decide)

/-- C10: when the same tag begins two or more tag lines of a block-4 input,
the tokenizer maps that tag to the value built from the last occurrence
only; earlier occurrences are silently discarded (the tokenizer records no
error or warning — its result type has no such channel). -/
theorem c10_duplicate_tag_last_wins (block : Str) (pre post : List Str)
    (lineDup line₀ : Str) (t v v₂ : Str)
    (hsplit : splitLines (stripRN block) = pre ++ line₀ :: post)
    (hdup : lineDup ∈ pre) (hduptag : tagSplit lineDup = some (t, v₂))
    (htag : tagSplit line₀ = some (t, v))
    (hpost : ∀ l ∈ post, tagSplit l = none) :
    lookupKey (parseTextBlock block) t =
      some (mkVal ((if v = [] then [] else [v]) ++
        post.filter (fun l => decide (l ≠ ['-'])))) := by
  unfold parseTextBlock
  rw [hsplit]
  exact ptbLoop_last pre line₀ post t v [] [] [] htag hpost

theorem c10_witness :
    lookupKey (parseTextBlock (str ":20:A\n:20:B\nC\n-")) (str "20") =
      some (mkVal ((if str "B" = [] then [] else [str "B"]) ++
        List.filter (fun l => decide (l ≠ ['-'])) [str "C", str "-"])) :=
  c10_duplicate_tag_last_wins (str ":20:A\n:20:B\nC\n-") [str ":20:A"]
    [str "C", str "-"] (str ":20:A") (str ":20:B") (str "20") (str "B")
    (str "A") (by decide) (by decide) (by decide) (by decide)
    (by decide)

/-- On every path of `validateMtMessage`, the `valid` flag equals emptiness
of the error list. -/
theorem validateCore_valid_iff (p : ParsedMtMessage) (r : MtValidationResult)
    (h : validateCore p = Except.ok r) : r.valid = true ↔ r.errors = [] := by
  unfold validateCore at h
  rcases hs : specFor (str "MT" ++ stripFirstMT p.messageType) with _ | spec
  · rw [hs] at h
    simp only [Except.ok.injEq] at h
    subst h
    simp
  · rw [hs] at h
    rcases hsp : specificsFor (stripFirstMT p.messageType) p.textBlock
      with e | sp
    · rw [hsp] at h
      simp at h
    · rw [hsp] at h
      simp only [Except.ok.injEq] at h
      subst h
      simp [List.isEmpty_iff]

/-- C9: every result returned by `validateMtMessage`, on every path
including the unknown-type short-circuit, has `valid = true` exactly when
its error list is empty (warnings never enter the flag). -/
theorem c9_valid_iff_no_errors (m : Str ⊕ ParsedMtMessage)
    (r : MtValidationResult) (h : validateMtMessage m = Except.ok r) :
    r.valid = true ↔ r.errors = [] := by
  cases m with
  | inl s => exact validateCore_valid_iff _ r h
  | inr p => exact validateCore_valid_iff p r h

theorem c9_witness :
    ∃ r, validateMtMessage (Sum.inl (str "hello")) = Except.ok r ∧
      (r.valid = true ↔ r.errors = []) := by
  refine ⟨⟨false, [], [unknownTypeError []], [], []⟩, ?meq, ?_⟩
  case meq => decide
  case _ =>
    exact c9_valid_iff_no_errors (Sum.inl (str "hello")) _ (by decide)

/-- A decoded message type is empty or carries the literal `MT` prefix. -/
theorem appHeader_mt_shape (b : Str) :
    (parseApplicationHeader b).messageType = [] ∨
    ∃ r, (parseApplicationHeader b).messageType = 'M' :: 'T' :: r := by
  unfold parseApplicationHeader
  by_cases hbe : b = []
  · rw [if_pos hbe]
    left
    rfl
  · rw [if_neg hbe]
    by_cases hio : jsSlice b 0 1 = str "I"
    · rw [if_pos hio]
      right
      exact ⟨jsSlice b 1 4, rfl⟩
    · rw [if_neg hio]
      by_cases hoo : jsSlice b 0 1 = str "O"
      · rw [if_pos hoo]
        right
        exact ⟨jsSlice b 1 4, rfl⟩
      · rw [if_neg hoo]
        left
        rfl

theorem parseMtMessage_messageType (s : Str) :
    (parseMtMessage s).messageType =
      match getBlockT (extractBlocks (jsTrim s)) 2 with
      | some b => (parseApplicationHeader b).messageType
      | none => [] := rfl

theorem parse_messageType_shape (s : Str) :
    (parseMtMessage s).messageType = [] ∨
    ∃ r, (parseMtMessage s).messageType = 'M' :: 'T' :: r := by
  rw [parseMtMessage_messageType]
  rcases hb : getBlockT (extractBlocks (jsTrim s)) 2 with _ | b
  · left
    rfl
  · exact appHeader_mt_shape b

/-- The specification lookup fails exactly on unregistered decoded types. -/
theorem specFor_none_of_shape (mt : Str)
    (hshape : mt = [] ∨ ∃ r, mt = 'M' :: 'T' :: r)
    (hmem : mt ∉ [str "MT103", str "MT202", str "MT940", str "MT950"]) :
    specFor (str "MT" ++ stripFirstMT mt) = none := by
  rcases hshape with rfl | ⟨r, rfl⟩
  · decide
  · have hstrip : stripFirstMT ('M' :: 'T' :: r) = r := rfl
    rw [hstrip]
    have hkey : str "MT" ++ r = 'M' :: 'T' :: r := rfl
    rw [hkey]
    simp only [List.mem_cons, List.not_mem_nil, or_false, not_or] at hmem
    obtain ⟨h₁, h₂, h₃, h₄⟩ := hmem
    simp only [specFor, mtSpecs, lookupKey]
    rw [if_neg (fun h => h₁ h.symm), if_neg (fun h => h₂ h.symm),
      if_neg (fun h => h₃ h.symm), if_neg (fun h => h₄ h.symm)]

/-- C4: a message whose decoded type is not one of the four registered
types validates to exactly one unknown-type error with an empty warning
list, and no further checks contribute to the result. -/
theorem c4_unknown_type_short_circuit (s : Str)
    (hmem : (parseMtMessage s).messageType ∉
      [str "MT103", str "MT202", str "MT940", str "MT950"]) :
    validateMtMessage (Sum.inl s) =
      Except.ok ⟨false, (parseMtMessage s).messageType,
        [unknownTypeError (parseMtMessage s).messageType], [],
        (parseMtMessage s).textBlock⟩ := by
  have hnone := specFor_none_of_shape _ (parse_messageType_shape s) hmem
  show validateCore (parseMtMessage s) = _
  unfold validateCore
  rw [hnone]

theorem c4_witness :
    validateMtMessage (Sum.inl (str "hello")) =
      Except.ok ⟨false, (parseMtMessage (str "hello")).messageType,
        [unknownTypeError (parseMtMessage (str "hello")).messageType], [],
        (parseMtMessage (str "hello")).textBlock⟩ :=
  c4_unknown_type_short_circuit (str "hello") (by decide)

/-- A field map contains no empty line sequences (the parser invariant that
protects the validator's `value[0]` dereferences). -/
def goodTB (tb : List (Str × FieldVal)) : Prop :=
  ∀ p ∈ tb, ∀ l, p.2 = FieldVal.seq l → l ≠ []

theorem goodTB_nil : goodTB [] := by
  intro p hp
  simp at hp

theorem mkVal_not_empty_seq (lines : List Str) (l : List Str)
    (h : mkVal lines = FieldVal.seq l) : l ≠ [] := by
  unfold mkVal at h
  by_cases hl : lines.length > 1
  · rw [if_pos hl] at h
    injection h with he
    subst he
    intro he
    subst he
    simp at hl
  · rw [if_neg hl] at h
    simp at h

theorem setKey_goodTB (m : List (Str × FieldVal)) (k : Str) (v : FieldVal)
    (hm : goodTB m) (hv : ∀ l, v = FieldVal.seq l → l ≠ []) :
    goodTB (setKey m k v) := by
  induction m with
  | nil =>
    intro p hp
    simp [setKey] at hp
    subst hp
    exact hv
  | cons q rest ih =>
    obtain ⟨k₁, v₁⟩ := q
    intro p hp
    by_cases hk : k₁ = k
    · rw [setKey, if_pos hk] at hp
      rcases List.mem_cons.mp hp with rfl | hp
      · exact hv
      · exact hm p (List.mem_cons_of_mem _ hp)
    · rw [setKey, if_neg hk] at hp
      rcases List.mem_cons.mp hp with rfl | hp
      · exact hm _ (by simp)
      · exact ih (fun q hq => hm q (List.mem_cons_of_mem _ hq)) p hp

theorem saveField_goodTB (acc : List (Str × FieldVal)) (ct : Str)
    (cl : List Str) (hacc : goodTB acc) : goodTB (saveField acc ct cl) := by
  unfold saveField
  by_cases hct : ct = []
  · rw [if_pos hct]
    exact hacc
  · rw [if_neg hct]
    exact setKey_goodTB _ _ _ hacc (mkVal_not_empty_seq cl)

theorem ptbLoop_goodTB (lines : List Str) (ct : Str) (cl : List Str)
    (acc : List (Str × FieldVal)) (hacc : goodTB acc) :
    goodTB (ptbLoop lines ct cl acc) := by
  induction lines generalizing ct cl acc with
  | nil => exact saveField_goodTB _ _ _ hacc
  | cons line rest ih =>
    simp only [ptbLoop]
    rcases tagSplit line with _ | p
    · by_cases hcond : ct ≠ [] ∧ line ≠ ['-']
      · rw [if_pos hcond]
        exact ih _ _ _ hacc
      · rw [if_neg hcond]
        exact ih _ _ _ hacc
    · obtain ⟨t, v⟩ := p
      exact ih _ _ _ (saveField_goodTB _ _ _ hacc)

theorem parseTextBlock_goodTB (b : Str) : goodTB (parseTextBlock b) :=
  ptbLoop_goodTB _ _ _ _ goodTB_nil

theorem parseMtMessage_textBlock (s : Str) :
    (parseMtMessage s).textBlock =
      match getBlockT (extractBlocks (jsTrim s)) 4 with
      | some b => parseTextBlock b
      | none => [] := rfl

theorem parse_goodTB (s : Str) : goodTB (parseMtMessage s).textBlock := by
  rw [parseMtMessage_textBlock]
  rcases getBlockT (extractBlocks (jsTrim s)) 4 with _ | b
  · exact goodTB_nil
  · exact parseTextBlock_goodTB b

theorem lookupKey_mem {α : Type} (m : List (Str × α)) (k : Str) (v : α)
    (h : lookupKey m k = some v) : (k, v) ∈ m := by
  induction m with
  | nil => simp [lookupKey] at h
  | cons q rest ih =>
    obtain ⟨k₁, v₁⟩ := q
    by_cases hk : k₁ = k
    · rw [lookupKey, if_pos hk] at h
      injection h with h
      subst h
      subst hk
      simp
    · rw [lookupKey, if_neg hk] at h
      exact List.mem_cons_of_mem _ (ih h)

/-- On a good field map the guarded head dereference cannot fail. -/
theorem headOfField_some (tb : List (Str × FieldVal)) (tag : Str)
    (hg : goodTB tb) (ht : truthy (lookupKey tb tag) = true) :
    ∃ s, headOfField (lookupKey tb tag) = some s := by
  rcases hlk : lookupKey tb tag with _ | v
  · rw [hlk] at ht
    simp [truthy] at ht
  · cases v with
    | scalar s => exact ⟨s, rfl⟩
    | seq l =>
      have hl : l ≠ [] := hg _ (lookupKey_mem tb tag _ hlk) l rfl
      rcases l with _ | ⟨c, l⟩
      · exact absurd rfl hl
      · exact ⟨c, rfl⟩

theorem check32A_total (tb : List (Str × FieldVal)) (hg : goodTB tb) :
    ∃ e, check32A tb = Except.ok e := by
  unfold check32A
  by_cases ht : truthy (lookupKey tb (str "32A")) = true
  · rw [if_pos ht]
    obtain ⟨s, hs⟩ := headOfField_some tb (str "32A") hg ht
    rw [hs]
    exact ⟨_, rfl⟩
  · rw [if_neg ht]
    exact ⟨[], rfl⟩

theorem checkBalanceTag_total (tb : List (Str × FieldVal)) (tag : Str)
    (hg : goodTB tb) : ∃ w, checkBalanceTag tb tag = Except.ok w := by
  unfold checkBalanceTag
  by_cases ht : truthy (lookupKey tb tag) = true
  · rw [if_pos ht]
    obtain ⟨s, hs⟩ := headOfField_some tb tag hg ht
    rw [hs]
    exact ⟨_, rfl⟩
  · rw [if_neg ht]
    exact ⟨[], rfl⟩

theorem checkBalances_total (tb : List (Str × FieldVal))
    (tags : List Str) (hg : goodTB tb) :
    ∃ w, checkBalances tb tags = Except.ok w := by
  induction tags with
  | nil => exact ⟨[], rfl⟩
  | cons tag rest ih =>
    obtain ⟨w, hw⟩ := checkBalanceTag_total tb tag hg
    obtain ⟨ws, hws⟩ := ih
    refine ⟨w ++ ws, ?_⟩
    rw [checkBalances, hw, hws]
    rfl

theorem specificsFor_total (mtStr : Str) (tb : List (Str × FieldVal))
    (hg : goodTB tb) : ∃ sp, specificsFor mtStr tb = Except.ok sp := by
  unfold specificsFor
  by_cases h1 : mtStr = str "103"
  · rw [if_pos h1]
    unfold validateMt103Specifics
    obtain ⟨e, he⟩ := check32A_total tb hg
    rw [he]
    exact ⟨_, rfl⟩
  · rw [if_neg h1]
    by_cases h2 : mtStr = str "940" ∨ mtStr = str "950"
    · rw [if_pos h2]
      unfold validateStatementSpecifics
      obtain ⟨w, hw⟩ := checkBalances_total tb balanceTags hg
      rw [hw]
      exact ⟨_, rfl⟩
    · rw [if_neg h2]
      exact ⟨_, rfl⟩

theorem validateCore_total (p : ParsedMtMessage) (hg : goodTB p.textBlock) :
    ∃ r, validateCore p = Except.ok r := by
  unfold validateCore
  rcases hs : specFor (str "MT" ++ stripFirstMT p.messageType) with _ | spec
  · exact ⟨_, rfl⟩
  · obtain ⟨sp, hsp⟩ := specificsFor_total (stripFirstMT p.messageType)
      p.textBlock hg
    rw [hsp]
    exact ⟨_, rfl⟩

theorem parseMtMessage_rawMessage (s : Str) :
    (parseMtMessage s).rawMessage = jsTrim s := rfl

theorem parseMtMessage_basicHeader (s : Str) :
    (parseMtMessage s).basicHeader =
      match getBlockT (extractBlocks (jsTrim s)) 1 with
      | some b => parseBasicHeader b
      | none => emptyBasicHeader := rfl

theorem parseMtMessage_applicationHeader (s : Str) :
    (parseMtMessage s).applicationHeader =
      match getBlockT (extractBlocks (jsTrim s)) 2 with
      | some b => parseApplicationHeader b
      | none => emptyApplicationHeader := rfl

/-- C3: decode and validate are total on every input string — validation
always returns a result object (never the thrown-error case), the parsed
record keeps the trimmed raw text, and missing header blocks yield the
empty header structures. -/
theorem c3_parse_validate_total (s : Str) :
    (∃ r, validateMtMessage (Sum.inl s) = Except.ok r) ∧
    (parseMtMessage s).rawMessage = jsTrim s ∧
    (getBlockT (extractBlocks (jsTrim s)) 1 = none →
      (parseMtMessage s).basicHeader = emptyBasicHeader) ∧
    (getBlockT (extractBlocks (jsTrim s)) 2 = none →
      (parseMtMessage s).applicationHeader = emptyApplicationHeader) := by
  refine ⟨validateCore_total _ (parse_goodTB s), rfl, ?_, ?_⟩
  · intro h
    rw [parseMtMessage_basicHeader, h]
  · intro h
    rw [parseMtMessage_applicationHeader, h]

theorem c3_witness :
    (∃ r, validateMtMessage (Sum.inl (str "hello")) = Except.ok r) ∧
    (parseMtMessage (str "hello")).rawMessage = jsTrim (str "hello") ∧
    (parseMtMessage (str "hello")).basicHeader = emptyBasicHeader ∧
    (parseMtMessage (str "hello")).applicationHeader =
      emptyApplicationHeader := by
  obtain ⟨h₁, h₂, h₃, h₄⟩ := c3_parse_validate_total (str "hello")
  exact ⟨h₁, h₂, h₃ (by decide), h₄ (by decide)⟩

/-- C7: when the delimiter scan finds no block match at all, the entire
input becomes block-4 content and the text-block tokenizer is applied to
the whole input.  The parse result carries no failure indication of any
kind (its type has no error channel), so the lenient fallback is not
reported as a format violation. -/
theorem c7_no_blocks_fallback (s : Str)
    (h : scanBlocks (jsTrim s).length (jsTrim s) = []) :
    extractBlocks (jsTrim s) = [(4, jsTrim s)] ∧
    (parseMtMessage s).textBlock = parseTextBlock (jsTrim s) := by
  have hex : extractBlocks (jsTrim s) = [(4, jsTrim s)] := by
    simp [extractBlocks, h]
  refine ⟨hex, ?_⟩
  rw [parseMtMessage_textBlock, hex]
  by_cases hm : jsTrim s = []
  · rw [hm]
    simp [getBlockT, getBlock, parseTextBlock, stripRN, splitLines, ptbLoop,
      saveField, tagSplit]
  · have hgb : getBlockT [(4, jsTrim s)] 4 = some (jsTrim s) := by
      simp [getBlockT, getBlock, hm]
    rw [hgb]

theorem c7_witness :
    extractBlocks (jsTrim (str ":20:REF\n-")) =
      [(4, jsTrim (str ":20:REF\n-"))] ∧
    (parseMtMessage (str ":20:REF\n-")).textBlock =
      parseTextBlock (jsTrim (str ":20:REF\n-")) :=
  c7_no_blocks_fallback (str ":20:REF\n-") (by decide)

theorem findFieldSpec_none (sf : List MtFieldSpec) (t : Str)
    (h : findFieldSpec sf t = none) : ∀ f ∈ sf, f.tag ≠ t := by
  induction sf with
  | nil => simp
  | cons f rest ih =>
    intro g hg
    rw [findFieldSpec] at h
    by_cases hf : f.tag = t
    · rw [if_pos hf] at h
      simp at h
    · rw [if_neg hf] at h
      rcases List.mem_cons.mp hg with rfl | hg
      · exact hf
      · exact ih h g hg

theorem findFieldSpec_mem (sf : List MtFieldSpec) (t : Str)
    (f : MtFieldSpec) (h : findFieldSpec sf t = some f) :
    f ∈ sf ∧ f.tag = t := by
  induction sf with
  | nil => simp [findFieldSpec] at h
  | cons g rest ih =>
    rw [findFieldSpec] at h
    by_cases hg : g.tag = t
    · rw [if_pos hg] at h
      injection h with h
      subst h
      exact ⟨by simp, hg⟩
    · rw [if_neg hg] at h
      obtain ⟨h₁, h₂⟩ := ih h
      exact ⟨List.mem_cons_of_mem _ h₁, h₂⟩

theorem mandatoryErrors_mem (sf : List MtFieldSpec)
    (tb : List (Str × FieldVal)) (e : ValidationError)
    (h : e ∈ mandatoryErrors sf tb) : ∃ f ∈ sf, e = missingFieldError f := by
  induction sf with
  | nil => simp [mandatoryErrors] at h
  | cons f rest ih =>
    rw [mandatoryErrors] at h
    rcases List.mem_append.mp h with h₁ | h₂
    · by_cases hc : (f.mandatory && isMissing (lookupKey tb f.tag)) = true
      · rw [if_pos hc] at h₁
        rcases List.mem_cons.mp h₁ with rfl | h₁
        · exact ⟨f, by simp, rfl⟩
        · simp at h₁
      · rw [if_neg hc] at h₁
        simp at h₁
    · obtain ⟨g, hg, he⟩ := ih h₂
      exact ⟨g, List.mem_cons_of_mem _ hg, he⟩

theorem formatChecks_error_mem (sf : List MtFieldSpec)
    (tb : List (Str × FieldVal)) (e : ValidationError)
    (h : e ∈ (formatChecks sf tb).1) :
    ∃ tag v f m, (tag, v) ∈ tb ∧ findFieldSpec sf tag = some f ∧
      f.maxLength = some m ∧ e = tooLongError tag m (joinVal v) := by
  induction tb with
  | nil => simp [formatChecks] at h
  | cons q rest ih =>
    obtain ⟨t₁, v₁⟩ := q
    rw [formatChecks] at h
    rcases hfs : findFieldSpec sf t₁ with _ | f₁
    · rw [hfs] at h
      simp only at h
      obtain ⟨tag, v, f, m, hm, hx⟩ := ih h
      exact ⟨tag, v, f, m, List.mem_cons_of_mem _ hm, hx⟩
    · rw [hfs] at h
      simp only at h
      rcases hml : f₁.maxLength with _ | m₁
      · rw [hml] at h
        simp only at h
        obtain ⟨tag, v, f, m, hm, hx⟩ := ih h
        exact ⟨tag, v, f, m, List.mem_cons_of_mem _ hm, hx⟩
      · rw [hml] at h
        simp only at h
        by_cases hc : 0 < m₁ ∧ m₁ < (joinVal v₁).length
        · rw [if_pos hc] at h
          rcases List.mem_cons.mp h with rfl | h
          · exact ⟨t₁, v₁, f₁, m₁, by simp, hfs, hml, rfl⟩
          · obtain ⟨tag, v, f, m, hm, hx⟩ := ih h
            exact ⟨tag, v, f, m, List.mem_cons_of_mem _ hm, hx⟩
        · rw [if_neg hc] at h
          obtain ⟨tag, v, f, m, hm, hx⟩ := ih h
          exact ⟨tag, v, f, m, List.mem_cons_of_mem _ hm, hx⟩

theorem formatChecks_mem_error (sf : List MtFieldSpec)
    (tb : List (Str × FieldVal)) (t : Str) (v : FieldVal) (f : MtFieldSpec)
    (m : Nat) (hmem : (t, v) ∈ tb) (hf : findFieldSpec sf t = some f)
    (hml : f.maxLength = some m) (hm0 : 0 < m)
    (hlen : m < (joinVal v).length) :
    tooLongError t m (joinVal v) ∈ (formatChecks sf tb).1 := by
  induction tb with
  | nil => simp at hmem
  | cons q rest ih =>
    obtain ⟨t₁, v₁⟩ := q
    rw [formatChecks]
    rcases List.mem_cons.mp hmem with heq | hmem₂
    · have ht : t = t₁ := congrArg Prod.fst heq
      have hv : v = v₁ := congrArg Prod.snd heq
      subst ht
      subst hv
      simp only [hf, hml, if_pos (And.intro hm0 hlen)]
      exact List.mem_cons_self _ _
    · have htail := ih hmem₂
      rcases hfs : findFieldSpec sf t₁ with _ | f₁
      · simp only [hfs]
        exact htail
      · simp only [hfs]
        rcases hml₁ : f₁.maxLength with _ | m₁
        · simp only [hml₁]
          exact htail
        · simp only [hml₁]
          by_cases hc : 0 < m₁ ∧ m₁ < (joinVal v₁).length
          · rw [if_pos hc]
            exact List.mem_cons_of_mem _ htail
          · rw [if_neg hc]
            exact htail

theorem formatChecks_mem_warning (sf : List MtFieldSpec)
    (tb : List (Str × FieldVal)) (t : Str) (v : FieldVal)
    (hmem : (t, v) ∈ tb) (hf : findFieldSpec sf t = none) :
    unknownFieldWarning t v ∈ (formatChecks sf tb).2 := by
  induction tb with
  | nil => simp at hmem
  | cons q rest ih =>
    obtain ⟨t₁, v₁⟩ := q
    rw [formatChecks]
    rcases List.mem_cons.mp hmem with heq | hmem₂
    · have ht : t = t₁ := congrArg Prod.fst heq
      have hv : v = v₁ := congrArg Prod.snd heq
      subst ht
      subst hv
      simp only [hf]
      exact List.mem_cons_self _ _
    · have htail := ih hmem₂
      rcases hfs : findFieldSpec sf t₁ with _ | f₁
      · simp only [hfs]
        exact List.mem_cons_of_mem _ htail
      · simp only [hfs]
        rcases hml₁ : f₁.maxLength with _ | m₁
        · simp only [hml₁]
          exact htail
        · simp only [hml₁]
          by_cases hc : 0 < m₁ ∧ m₁ < (joinVal v₁).length
          · rw [if_pos hc]
            exact htail
          · rw [if_neg hc]
            exact htail

theorem check32A_field (tb : List (Str × FieldVal))
    (l : List ValidationError) (h : check32A tb = Except.ok l) :
    ∀ e ∈ l, e.field = str "32A" := by
  unfold check32A at h
  by_cases ht : truthy (lookupKey tb (str "32A")) = true
  · rw [if_pos ht] at h
    rcases hh : headOfField (lookupKey tb (str "32A")) with _ | s
    · rw [hh] at h
      simp at h
    · rw [hh] at h
      simp only [Except.ok.injEq] at h
      subst h
      by_cases hv : valid32A (stripJsWs s) = true
      · simp [hv]
      · intro e he
        rw [if_neg hv] at he
        rcases List.mem_cons.mp he with rfl | he
        · rfl
        · simp at he
  · rw [if_neg ht] at h
    simp only [Except.ok.injEq] at h
    subst h
    simp

theorem check71A_field (tb : List (Str × FieldVal)) :
    ∀ e ∈ check71A tb, e.field = str "71A" := by
  unfold check71A
  by_cases ht : truthy (lookupKey tb (str "71A")) = true
  · rw [if_pos ht]
    by_cases hm : chargeMember (headOfField (lookupKey tb (str "71A"))) = true
    · simp [hm]
    · intro e he
      rw [if_neg hm] at he
      rcases List.mem_cons.mp he with rfl | he
      · rfl
      · simp at he
  · rw [if_neg ht]
    simp

theorem checkBeneficiary_field (tb : List (Str × FieldVal)) :
    ∀ e ∈ checkBeneficiary tb, e.field = str "59" := by
  unfold checkBeneficiary
  split
  · intro e he
    rcases List.mem_cons.mp he with rfl | he
    · rfl
    · simp at he
  · simp

theorem specificsFor_error_fields (mtStr : Str) (tb : List (Str × FieldVal))
    (sp : List ValidationError × List ValidationWarning)
    (h : specificsFor mtStr tb = Except.ok sp) (e : ValidationError)
    (he : e ∈ sp.1) :
    e.field = str "32A" ∨ e.field = str "71A" ∨ e.field = str "59" ∨
    e.field = str "60F" ∨ e.field = str "62F" := by
  unfold specificsFor at h
  by_cases h1 : mtStr = str "103"
  · rw [if_pos h1] at h
    unfold validateMt103Specifics at h
    rcases h32 : check32A tb with e32 | l32
    · rw [h32] at h
      simp at h
    · rw [h32] at h
      simp only [Except.ok.injEq] at h
      subst h
      rcases List.mem_append.mp he with he2 | he2
      · rcases List.mem_append.mp he2 with he3 | he3
        · exact Or.inl (check32A_field tb l32 h32 e he3)
        · exact Or.inr (Or.inl (check71A_field tb e he3))
      · exact Or.inr (Or.inr (Or.inl (checkBeneficiary_field tb e he2)))
  · rw [if_neg h1] at h
    by_cases h2 : mtStr = str "940" ∨ mtStr = str "950"
    · rw [if_pos h2] at h
      unfold validateStatementSpecifics at h
      rcases hb : checkBalances tb balanceTags with eb | ws
      · rw [hb] at h
        simp [Except.map] at h
      · rw [hb] at h
        simp only [Except.map, Except.ok.injEq] at h
        subst h
        rcases List.mem_append.mp he with he2 | he2
        · split at he2
          · rcases List.mem_cons.mp he2 with rfl | he3
            · exact Or.inr (Or.inr (Or.inr (Or.inl rfl)))
            · simp at he3
          · simp at he2
        · split at he2
          · rcases List.mem_cons.mp he2 with rfl | he3
            · exact Or.inr (Or.inr (Or.inr (Or.inr rfl)))
            · simp at he3
          · simp at he2
    · rw [if_neg h2] at h
      simp only [Except.ok.injEq] at h
      subst h
      simp at he

theorem validateMt103Specifics_fields (tb : List (Str × FieldVal))
    (sp : List ValidationError × List ValidationWarning)
    (h : validateMt103Specifics tb = Except.ok sp) :
    ∀ e ∈ sp.1, e.field = str "32A" ∨ e.field = str "71A" ∨
      e.field = str "59" := by
  unfold validateMt103Specifics at h
  rcases h32 : check32A tb with e32 | l32
  · rw [h32] at h
    simp at h
  · rw [h32] at h
    simp only [Except.ok.injEq] at h
    subst h
    intro e he
    rcases List.mem_append.mp he with he2 | he2
    · rcases List.mem_append.mp he2 with he3 | he3
      · exact Or.inl (check32A_field tb l32 h32 e he3)
      · exact Or.inr (Or.inl (check71A_field tb e he3))
    · exact Or.inr (Or.inr (checkBeneficiary_field tb e he2))

theorem validateStatementSpecifics_fields (tb : List (Str × FieldVal))
    (sp : List ValidationError × List ValidationWarning)
    (h : validateStatementSpecifics tb = Except.ok sp) :
    ∀ e ∈ sp.1, e.field = str "60F" ∨ e.field = str "62F" := by
  unfold validateStatementSpecifics at h
  rcases hb : checkBalances tb balanceTags with eb | ws
  · rw [hb] at h
    simp [Except.map] at h
  · rw [hb] at h
    simp only [Except.map, Except.ok.injEq] at h
    subst h
    intro e he
    rcases List.mem_append.mp he with he2 | he2
    · split at he2
      · rcases List.mem_cons.mp he2 with rfl | he3
        · exact Or.inl rfl
        · simp at he3
      · simp at he2
    · split at he2
      · rcases List.mem_cons.mp he2 with rfl | he3
        · exact Or.inr rfl
        · simp at he3
      · simp at he2

/-- Every type-specific error's field tag belongs to the active
specification's field list. -/
theorem specifics_fields_in_spec (mtStr : Str) (tb : List (Str × FieldVal))
    (sp : List ValidationError × List ValidationWarning)
    (spec : MtMessageSpec) (hspec : specFor (str "MT" ++ mtStr) = some spec)
    (h : specificsFor mtStr tb = Except.ok sp) :
    ∀ e ∈ sp.1, ∃ f ∈ spec.fields, f.tag = e.field := by
  unfold specificsFor at h
  by_cases h1 : mtStr = str "103"
  · subst h1
    have hsp : spec = mt103Spec := by
      have : specFor (str "MT" ++ str "103") = some mt103Spec := by decide
      rw [this] at hspec
      injection hspec with hspec
      exact hspec.symm
    subst hsp
    rw [if_pos rfl] at h
    intro e he
    rcases validateMt103Specifics_fields tb sp h e he with hf | hf | hf
    · rw [hf]
      decide
    · rw [hf]
      decide
    · rw [hf]
      decide
  · rw [if_neg h1] at h
    by_cases h2 : mtStr = str "940" ∨ mtStr = str "950"
    · have hstmt := validateStatementSpecifics_fields tb sp (by rwa [if_pos h2] at h)
      intro e he
      rcases h2 with h2 | h2
      · subst h2
        have hsp : spec = mt940Spec := by
          have : specFor (str "MT" ++ str "940") = some mt940Spec := by decide
          rw [this] at hspec
          injection hspec with hspec
          exact hspec.symm
        subst hsp
        rcases hstmt e he with hf | hf
        · rw [hf]
          decide
        · rw [hf]
          decide
      · subst h2
        have hsp : spec = mt950Spec := by
          have : specFor (str "MT" ++ str "950") = some mt950Spec := by decide
          rw [this] at hspec
          injection hspec with hspec
          exact hspec.symm
        subst hsp
        rcases hstmt e he with hf | hf
        · rw [hf]
          decide
        · rw [hf]
          decide
    · rw [if_neg h2] at h
      simp only [Except.ok.injEq] at h
      subst h
      intro e he
      simp at he

theorem validateCore_ok_inv (p : ParsedMtMessage) (r : MtValidationResult)
    (spec : MtMessageSpec)
    (hspec : specFor (str "MT" ++ stripFirstMT p.messageType) = some spec)
    (hval : validateCore p = Except.ok r) :
    ∃ sp, specificsFor (stripFirstMT p.messageType) p.textBlock =
        Except.ok sp ∧
      r = ⟨(allErrors spec p.textBlock sp).isEmpty, p.messageType,
        allErrors spec p.textBlock sp,
        (formatChecks spec.fields p.textBlock).2 ++ sp.2, p.textBlock⟩ := by
  unfold validateCore at hval
  rw [hspec] at hval
  rcases hsp : specificsFor (stripFirstMT p.messageType) p.textBlock
    with e | sp
  · rw [hsp] at hval
    simp at hval
  · rw [hsp] at hval
    simp only [Except.ok.injEq] at hval
    exact ⟨sp, rfl, hval.symm⟩

/-- C8: a present field whose tag matches a specification with a maximum
length and whose line-joined value exceeds it yields a blocking
field-too-long error, making the message invalid; a present tag with no
matching specification instead yields only a non-blocking unknown-field
warning — no error of the validation result carries that tag. -/
theorem c8_overlength_blocks_unknown_warns :
    (∀ (p : ParsedMtMessage) (r : MtValidationResult) (spec : MtMessageSpec)
       (t : Str) (v : FieldVal) (f : MtFieldSpec) (m : Nat),
       validateMtMessage (Sum.inr p) = Except.ok r →
       specFor (str "MT" ++ stripFirstMT p.messageType) = some spec →
       (t, v) ∈ p.textBlock →
       findFieldSpec spec.fields t = some f →
       f.maxLength = some m → 0 < m → m < (joinVal v).length →
       tooLongError t m (joinVal v) ∈ r.errors ∧ r.valid = false) ∧
    (∀ (p : ParsedMtMessage) (r : MtValidationResult) (spec : MtMessageSpec)
       (t : Str) (v : FieldVal),
       validateMtMessage (Sum.inr p) = Except.ok r →
       specFor (str "MT" ++ stripFirstMT p.messageType) = some spec →
       (t, v) ∈ p.textBlock →
       findFieldSpec spec.fields t = none →
       unknownFieldWarning t v ∈ r.warnings ∧
         ∀ e ∈ r.errors, e.field ≠ t) := by
  constructor
  · intro p r spec t v f m hval hspec hmem hf hml hm0 hlen
    obtain ⟨sp, hsp, rfl⟩ := validateCore_ok_inv p r spec hspec hval
    have hmem2 : tooLongError t m (joinVal v) ∈ allErrors spec p.textBlock sp := by
      unfold allErrors
      exact List.mem_append.mpr (Or.inl (List.mem_append.mpr (Or.inr
        (formatChecks_mem_error spec.fields p.textBlock t v f m hmem hf hml
          hm0 hlen))))
    refine ⟨hmem2, ?_⟩
    have hne : allErrors spec p.textBlock sp ≠ [] :=
      List.ne_nil_of_mem hmem2
    simp [List.isEmpty_iff, hne]
  · intro p r spec t v hval hspec hmem hf
    obtain ⟨sp, hsp, rfl⟩ := validateCore_ok_inv p r spec hspec hval
    constructor
    · exact List.mem_append.mpr (Or.inl
        (formatChecks_mem_warning spec.fields p.textBlock t v hmem hf))
    · intro e he hfield
      have hnone := findFieldSpec_none spec.fields t hf
      unfold allErrors at he
      rcases List.mem_append.mp he with he2 | he2
      · rcases List.mem_append.mp he2 with he3 | he3
        · obtain ⟨g, hg, rfl⟩ := mandatoryErrors_mem _ _ _ he3
          exact hnone g hg hfield
        · obtain ⟨tag, v₂, f₂, m₂, hmem₂, hfs₂, hml₂, rfl⟩ :=
            formatChecks_error_mem _ _ _ he3
          have htag : tag = t := hfield
          subst htag
          rw [hf] at hfs₂
          simp at hfs₂
      · obtain ⟨g, hg, hgt⟩ := specifics_fields_in_spec _ _ _ _ hspec hsp e he2
        exact hnone g hg (hgt.trans hfield)

def c8ParsedA : ParsedMtMessage :=
  ⟨str "MT940", emptyBasicHeader, emptyApplicationHeader, none,
   [(str "20", FieldVal.scalar (str "STMT1")),
    (str "25", FieldVal.scalar (str "ABCDEFGHIJKLMNOPQRSTUVWXYZ0123456789")),
    (str "28C", FieldVal.scalar (str "1/1")),
    (str "60F", FieldVal.scalar (str "C210315USD10,00")),
    (str "62F", FieldVal.scalar (str "C210315USD12,00"))], none, []⟩

def c8ResultA : MtValidationResult :=
  ⟨false, str "MT940",
   [tooLongError (str "25") 35 (str "ABCDEFGHIJKLMNOPQRSTUVWXYZ0123456789")],
   [], c8ParsedA.textBlock⟩

def c8ParsedB : ParsedMtMessage :=
  ⟨str "MT940", emptyBasicHeader, emptyApplicationHeader, none,
   [(str "20", FieldVal.scalar (str "STMT1")),
    (str "25", FieldVal.scalar (str "12345678")),
    (str "28C", FieldVal.scalar (str "1/1")),
    (str "60F", FieldVal.scalar (str "C210315USD10,00")),
    (str "62F", FieldVal.scalar (str "C210315USD12,00")),
    (str "99", FieldVal.scalar (str "X"))], none, []⟩

def c8ResultB : MtValidationResult :=
  ⟨true, str "MT940", [],
   [unknownFieldWarning (str "99") (FieldVal.scalar (str "X"))],
   c8ParsedB.textBlock⟩

theorem c8_witness :
    (tooLongError (str "25") 35
        (joinVal (FieldVal.scalar
          (str "ABCDEFGHIJKLMNOPQRSTUVWXYZ0123456789"))) ∈
        c8ResultA.errors ∧ c8ResultA.valid = false) ∧
    (unknownFieldWarning (str "99") (FieldVal.scalar (str "X")) ∈
        c8ResultB.warnings ∧ ∀ e ∈ c8ResultB.errors, e.field ≠ str "99") := by
  constructor
  · exact c8_overlength_blocks_unknown_warns.1 c8ParsedA c8ResultA mt940Spec
      (str "25")
      (FieldVal.scalar (str "ABCDEFGHIJKLMNOPQRSTUVWXYZ0123456789"))
      (mkFS "25" "Account Identification" true (some 35)) 35 (by decide)
      (by decide) (by decide) (by decide) (by decide) (by decide) (by decide)
  · exact c8_overlength_blocks_unknown_warns.2 c8ParsedB c8ResultB mt940Spec
      (str "99") (FieldVal.scalar (str "X")) (by decide) (by decide)
      (by decide) (by decide)

/-- The parsed record with one text-block tag removed. -/
def removeTag (p : ParsedMtMessage) (t : Str) : ParsedMtMessage :=
  ⟨p.messageType, p.basicHeader, p.applicationHeader, p.userHeader,
   removeKey p.textBlock t, p.trailers, p.rawMessage⟩

theorem check32A_congr (tb₁ tb₂ : List (Str × FieldVal))
    (h : lookupKey tb₁ (str "32A") = lookupKey tb₂ (str "32A")) :
    check32A tb₁ = check32A tb₂ := by
  unfold check32A
  rw [h]

theorem check71A_congr (tb₁ tb₂ : List (Str × FieldVal))
    (h : lookupKey tb₁ (str "71A") = lookupKey tb₂ (str "71A")) :
    check71A tb₁ = check71A tb₂ := by
  unfold check71A
  rw [h]

theorem checkBeneficiary_congr (tb₁ tb₂ : List (Str × FieldVal))
    (h59 : lookupKey tb₁ (str "59") = lookupKey tb₂ (str "59"))
    (h59A : lookupKey tb₁ (str "59A") = lookupKey tb₂ (str "59A"))
    (h59F : lookupKey tb₁ (str "59F") = lookupKey tb₂ (str "59F")) :
    checkBeneficiary tb₁ = checkBeneficiary tb₂ := by
  unfold checkBeneficiary
  rw [h59, h59A, h59F]

/-- Deleting one key from a message that passed every mandatory check makes
exactly the mandatory specifications carrying that tag fail. -/
theorem mandatoryErrors_removeKey (sf : List MtFieldSpec)
    (tb : List (Str × FieldVal)) (t : Str)
    (hnil : mandatoryErrors sf tb = []) :
    mandatoryErrors sf (removeKey tb t) =
      (sf.filter (fun f => f.mandatory && decide (f.tag = t))).map
        missingFieldError := by
  induction sf with
  | nil => rfl
  | cons f rest ih =>
    rw [mandatoryErrors] at hnil
    obtain ⟨hhead, htail⟩ := List.append_eq_nil.mp hnil
    rw [mandatoryErrors, ih htail, List.filter_cons]
    by_cases hft : f.tag = t
    · rw [hft, lookupKey_removeKey_self tb t]
      by_cases hm : f.mandatory = true
      · simp [hm, hft, isMissing]
      · rw [Bool.not_eq_true] at hm
        simp [hm]
    · rw [lookupKey_removeKey_ne tb t f.tag (fun h => hft h.symm)]
      have hcond : ¬ (f.mandatory && isMissing (lookupKey tb f.tag)) = true := by
        intro hc
        rw [if_pos hc] at hhead
        simp at hhead
      rw [if_neg hcond]
      simp [hft]

/-- Removing an entry cannot create a new over-length error. -/
theorem formatChecks_removeKey_nil (sf : List MtFieldSpec)
    (tb : List (Str × FieldVal)) (t : Str)
    (h : (formatChecks sf tb).1 = []) :
    (formatChecks sf (removeKey tb t)).1 = [] := by
  induction tb with
  | nil => exact h
  | cons q rest ih =>
    obtain ⟨t₁, v₁⟩ := q
    rw [formatChecks] at h
    have hsplit : (formatChecks sf rest).1 = [] ∧
        ∀ f₁ m₁, findFieldSpec sf t₁ = some f₁ → f₁.maxLength = some m₁ →
          ¬(0 < m₁ ∧ m₁ < (joinVal v₁).length) := by
      rcases hfs : findFieldSpec sf t₁ with _ | f₁
      · rw [hfs] at h
        simp only at h
        refine ⟨h, ?_⟩
        intro f₂ m₂ hf₂ hml₂ hc
        exact Option.noConfusion hf₂
      · rw [hfs] at h
        simp only at h
        rcases hml : f₁.maxLength with _ | m₁
        · rw [hml] at h
          simp only at h
          refine ⟨h, ?_⟩
          intro f₂ m₂ hf₂ hml₂ hc
          injection hf₂ with hf₂
          rw [← hf₂, hml] at hml₂
          exact Option.noConfusion hml₂
        · rw [hml] at h
          simp only at h
          by_cases hcx : 0 < m₁ ∧ m₁ < (joinVal v₁).length
          · rw [if_pos hcx] at h
            simp at h
          · rw [if_neg hcx] at h
            refine ⟨h, ?_⟩
            intro f₂ m₂ hf₂ hml₂ hc
            injection hf₂ with hf₂
            rw [← hf₂, hml] at hml₂
            injection hml₂ with hml₂
            subst hml₂
            exact hcx hc
    obtain ⟨htail, hhead⟩ := hsplit
    rw [removeKey]
    by_cases ht₁ : t₁ = t
    · rw [if_pos ht₁]
      exact ih htail
    · rw [if_neg ht₁, formatChecks]
      rcases hfs : findFieldSpec sf t₁ with _ | f₁
      · simp only
        exact ih htail
      · simp only
        rcases hml : f₁.maxLength with _ | m₁
        · simp only
          exact ih htail
        · simp only
          rw [if_neg (hhead f₁ m₁ hfs hml)]
          exact ih htail

theorem removeTag_messageType (p : ParsedMtMessage) (t : Str) :
    (removeTag p t).messageType = p.messageType := rfl

theorem removeTag_textBlock (p : ParsedMtMessage) (t : Str) :
    (removeTag p t).textBlock = removeKey p.textBlock t := rfl

theorem validateCore_build (p : ParsedMtMessage) (spec : MtMessageSpec)
    (sp : List ValidationError × List ValidationWarning)
    (hspec : specFor (str "MT" ++ stripFirstMT p.messageType) = some spec)
    (hsp : specificsFor (stripFirstMT p.messageType) p.textBlock =
      Except.ok sp) :
    validateCore p = Except.ok
      ⟨(allErrors spec p.textBlock sp).isEmpty, p.messageType,
       allErrors spec p.textBlock sp,
       (formatChecks spec.fields p.textBlock).2 ++ sp.2, p.textBlock⟩ := by
  unfold validateCore
  rw [hspec, hsp]

theorem mt103Specifics_ok_inv (tb : List (Str × FieldVal))
    (sp : List ValidationError × List ValidationWarning)
    (h : validateMt103Specifics tb = Except.ok sp) :
    ∃ l32, check32A tb = Except.ok l32 ∧
      sp = (l32 ++ check71A tb ++ checkBeneficiary tb, checkOrdering tb) := by
  unfold validateMt103Specifics at h
  rcases h32 : check32A tb with e | l32
  · rw [h32] at h
    simp at h
  · rw [h32] at h
    simp only [Except.ok.injEq] at h
    exact ⟨l32, rfl, h.symm⟩

theorem mt103Specifics_build (tb : List (Str × FieldVal))
    (l32 : List ValidationError) (h32 : check32A tb = Except.ok l32) :
    validateMt103Specifics tb =
      Except.ok (l32 ++ check71A tb ++ checkBeneficiary tb,
        checkOrdering tb) := by
  unfold validateMt103Specifics
  rw [h32]

theorem check32A_none (tb : List (Str × FieldVal))
    (h : lookupKey tb (str "32A") = none) : check32A tb = Except.ok [] := by
  simp [check32A, h, truthy]

theorem check71A_none (tb : List (Str × FieldVal))
    (h : lookupKey tb (str "71A") = none) : check71A tb = [] := by
  simp [check71A, h, truthy]

theorem stripFirstMT_MT103 : stripFirstMT (str "MT103") = str "103" := rfl

/-- Assembling the validation result of a record with one tag removed from
component facts. -/
theorem c5core (p : ParsedMtMessage) (t : Str) (fT : MtFieldSpec)
    (benef : List ValidationError) (hmt : p.messageType = str "MT103")
    (hmand : mandatoryErrors mt103Spec.fields (removeKey p.textBlock t) =
      [missingFieldError fT])
    (hfmt : (formatChecks mt103Spec.fields (removeKey p.textBlock t)).1 = [])
    (hspx : validateMt103Specifics (removeKey p.textBlock t) =
      Except.ok (benef, checkOrdering (removeKey p.textBlock t))) :
    ∃ r, validateMtMessage (Sum.inr (removeTag p t)) = Except.ok r ∧
      r.valid = false ∧ r.errors = missingFieldError fT :: benef := by
  have hspec : specFor (str "MT" ++
      stripFirstMT (removeTag p t).messageType) = some mt103Spec := by
    rw [removeTag_messageType, hmt]
    decide
  have hsp : specificsFor (stripFirstMT (removeTag p t).messageType)
      (removeTag p t).textBlock =
      Except.ok (benef, checkOrdering (removeKey p.textBlock t)) := by
    rw [removeTag_messageType, removeTag_textBlock, hmt, stripFirstMT_MT103]
    unfold specificsFor
    rw [if_pos rfl]
    exact hspx
  refine ⟨_, validateCore_build (removeTag p t) mt103Spec _ hspec hsp,
    ?_, ?_⟩
  · have herr : allErrors mt103Spec (removeTag p t).textBlock
        (benef, checkOrdering (removeKey p.textBlock t)) =
        missingFieldError fT :: benef := by
      unfold allErrors
      rw [removeTag_textBlock, hmand, hfmt]
      rfl
    simp [herr]
  · unfold allErrors
    rw [removeTag_textBlock, hmand, hfmt]
    rfl

/-- C5: removing any single mandatory tag from a valid MT103 record makes
validation fail with exactly one missing-mandatory-field error naming that
tag, plus the one-of-beneficiary error exactly when the removed tag was the
only truthy beneficiary encoding (59/59A/59F) present. -/
theorem c5_remove_mandatory_tag (p : ParsedMtMessage)
    (r₀ : MtValidationResult) (t : Str)
    (hval : validateMtMessage (Sum.inr p) = Except.ok r₀)
    (hvalid : r₀.valid = true) (hmt : p.messageType = str "MT103")
    (ht : t ∈ (mt103Spec.fields.filter (fun f => f.mandatory)).map
      (fun f => f.tag)) :
    ∃ f r, findFieldSpec mt103Spec.fields t = some f ∧ f.mandatory = true ∧
      validateMtMessage (Sum.inr (removeTag p t)) = Except.ok r ∧
      r.valid = false ∧
      r.errors = missingFieldError f ::
        (if t = str "59" ∧
            truthy (lookupKey p.textBlock (str "59A")) = false ∧
            truthy (lookupKey p.textBlock (str "59F")) = false
         then [err59] else []) := by
  have hspec₀ : specFor (str "MT" ++ stripFirstMT p.messageType) =
      some mt103Spec := by
    rw [hmt]
    decide
  obtain ⟨sp₀, hsp₀, hr₀⟩ := validateCore_ok_inv p r₀ mt103Spec hspec₀ hval
  have herr₀ : r₀.errors = [] :=
    (validateCore_valid_iff p r₀ hval).mp hvalid
  have hall : allErrors mt103Spec p.textBlock sp₀ = [] := by
    rw [hr₀] at herr₀
    exact herr₀
  unfold allErrors at hall
  obtain ⟨hab, hsp01⟩ := List.append_eq_nil.mp hall
  obtain ⟨hmand₀, hfmt₀⟩ := List.append_eq_nil.mp hab
  have hsp103 : validateMt103Specifics p.textBlock = Except.ok sp₀ := by
    have hs : stripFirstMT p.messageType = str "103" := by
      rw [hmt]
      decide
    rw [hs] at hsp₀
    unfold specificsFor at hsp₀
    rwa [if_pos rfl] at hsp₀
  obtain ⟨l32, h32, hsp0eq⟩ := mt103Specifics_ok_inv _ _ hsp103
  have hsptriple : l32 ++ check71A p.textBlock ++
      checkBeneficiary p.textBlock = [] := by
    rw [hsp0eq] at hsp01
    exact hsp01
  obtain ⟨hl32c71, hbennil⟩ := List.append_eq_nil.mp hsptriple
  obtain ⟨hl32nil, h71nil⟩ := List.append_eq_nil.mp hl32c71
  subst hl32nil
  have ht5 : t = str "20" ∨ t = str "23B" ∨ t = str "32A" ∨ t = str "59" ∨
      t = str "71A" := by
    have hlist : (mt103Spec.fields.filter (fun f => f.mandatory)).map
        (fun f => f.tag) =
        [str "20", str "23B", str "32A", str "59", str "71A"] := by decide
    rw [hlist] at ht
    simpa using ht
  rcases ht5 with rfl | rfl | rfl | rfl | rfl
  · have h32x : check32A (removeKey p.textBlock (str "20")) =
        Except.ok [] := by
      rw [check32A_congr _ p.textBlock
        (lookupKey_removeKey_ne p.textBlock _ _ (by decide))]
      exact h32
    have h71x : check71A (removeKey p.textBlock (str "20")) = [] := by
      rw [check71A_congr _ p.textBlock
        (lookupKey_removeKey_ne p.textBlock _ _ (by decide))]
      exact h71nil
    have hbenx : checkBeneficiary (removeKey p.textBlock (str "20")) = [] := by
      rw [checkBeneficiary_congr _ p.textBlock
        (lookupKey_removeKey_ne p.textBlock _ _ (by decide))
        (lookupKey_removeKey_ne p.textBlock _ _ (by decide))
        (lookupKey_removeKey_ne p.textBlock _ _ (by decide))]
      exact hbennil
    have hspx := mt103Specifics_build _ [] h32x
    rw [h71x, hbenx] at hspx
    simp only [List.append_nil, List.nil_append] at hspx
    have hmand : mandatoryErrors mt103Spec.fields
        (removeKey p.textBlock (str "20")) =
        [missingFieldError (mkFSA "20" "Sender" "s Reference" true
          (some 16))] := by
      rw [mandatoryErrors_removeKey _ _ _ hmand₀]
      decide
    obtain ⟨r, hvr, hvv, hve⟩ := c5core p (str "20") _ [] hmt hmand
      (formatChecks_removeKey_nil _ _ _ hfmt₀) hspx
    refine ⟨mkFSA "20" "Sender" "s Reference" true (some 16), r, by decide,
      by decide, hvr, hvv, ?_⟩
    rw [hve, if_neg (fun hc => absurd hc.1 (by decide))]
  · have h32x : check32A (removeKey p.textBlock (str "23B")) =
        Except.ok [] := by
      rw [check32A_congr _ p.textBlock
        (lookupKey_removeKey_ne p.textBlock _ _ (by decide))]
      exact h32
    have h71x : check71A (removeKey p.textBlock (str "23B")) = [] := by
      rw [check71A_congr _ p.textBlock
        (lookupKey_removeKey_ne p.textBlock _ _ (by decide))]
      exact h71nil
    have hbenx : checkBeneficiary (removeKey p.textBlock (str "23B")) = [] := by
      rw [checkBeneficiary_congr _ p.textBlock
        (lookupKey_removeKey_ne p.textBlock _ _ (by decide))
        (lookupKey_removeKey_ne p.textBlock _ _ (by decide))
        (lookupKey_removeKey_ne p.textBlock _ _ (by decide))]
      exact hbennil
    have hspx := mt103Specifics_build _ [] h32x
    rw [h71x, hbenx] at hspx
    simp only [List.append_nil, List.nil_append] at hspx
    have hmand : mandatoryErrors mt103Spec.fields
        (removeKey p.textBlock (str "23B")) =
        [missingFieldError (mkFS "23B" "Bank Operation Code" true none)] := by
      rw [mandatoryErrors_removeKey _ _ _ hmand₀]
      decide
    obtain ⟨r, hvr, hvv, hve⟩ := c5core p (str "23B") _ [] hmt hmand
      (formatChecks_removeKey_nil _ _ _ hfmt₀) hspx
    refine ⟨mkFS "23B" "Bank Operation Code" true none, r, by decide,
      by decide, hvr, hvv, ?_⟩
    rw [hve, if_neg (fun hc => absurd hc.1 (by decide))]
  · have h32x : check32A (removeKey p.textBlock (str "32A")) =
        Except.ok [] :=
      check32A_none _ (lookupKey_removeKey_self p.textBlock (str "32A"))
    have h71x : check71A (removeKey p.textBlock (str "32A")) = [] := by
      rw [check71A_congr _ p.textBlock
        (lookupKey_removeKey_ne p.textBlock _ _ (by decide))]
      exact h71nil
    have hbenx : checkBeneficiary (removeKey p.textBlock (str "32A")) = [] := by
      rw [checkBeneficiary_congr _ p.textBlock
        (lookupKey_removeKey_ne p.textBlock _ _ (by decide))
        (lookupKey_removeKey_ne p.textBlock _ _ (by decide))
        (lookupKey_removeKey_ne p.textBlock _ _ (by decide))]
      exact hbennil
    have hspx := mt103Specifics_build _ [] h32x
    rw [h71x, hbenx] at hspx
    simp only [List.append_nil, List.nil_append] at hspx
    have hmand : mandatoryErrors mt103Spec.fields
        (removeKey p.textBlock (str "32A")) =
        [missingFieldError (mkFS "32A" "Value Date/Currency/Amount" true
          none)] := by
      rw [mandatoryErrors_removeKey _ _ _ hmand₀]
      decide
    obtain ⟨r, hvr, hvv, hve⟩ := c5core p (str "32A") _ [] hmt hmand
      (formatChecks_removeKey_nil _ _ _ hfmt₀) hspx
    refine ⟨mkFS "32A" "Value Date/Currency/Amount" true none, r, by decide,
      by decide, hvr, hvv, ?_⟩
    rw [hve, if_neg (fun hc => absurd hc.1 (by decide))]
  · have h32x : check32A (removeKey p.textBlock (str "59")) =
        Except.ok [] := by
      rw [check32A_congr _ p.textBlock
        (lookupKey_removeKey_ne p.textBlock _ _ (by decide))]
      exact h32
    have h71x : check71A (removeKey p.textBlock (str "59")) = [] := by
      rw [check71A_congr _ p.textBlock
        (lookupKey_removeKey_ne p.textBlock _ _ (by decide))]
      exact h71nil
    have hbenx : checkBeneficiary (removeKey p.textBlock (str "59")) =
        (if truthy (lookupKey p.textBlock (str "59A")) = false ∧
            truthy (lookupKey p.textBlock (str "59F")) = false
         then [err59] else []) := by
      unfold checkBeneficiary
      rw [lookupKey_removeKey_self p.textBlock (str "59"),
        lookupKey_removeKey_ne p.textBlock _ _ (by decide),
        lookupKey_removeKey_ne p.textBlock _ _ (by decide)]
      cases hA : truthy (lookupKey p.textBlock (str "59A")) <;>
        cases hF : truthy (lookupKey p.textBlock (str "59F")) <;>
          simp [truthy]
    have hspx := mt103Specifics_build _ [] h32x
    rw [h71x, hbenx] at hspx
    simp only [List.append_nil, List.nil_append] at hspx
    have hmand : mandatoryErrors mt103Spec.fields
        (removeKey p.textBlock (str "59")) =
        [missingFieldError (mkFS "59" "Beneficiary Customer (Account)" true
          none)] := by
      rw [mandatoryErrors_removeKey _ _ _ hmand₀]
      decide
    obtain ⟨r, hvr, hvv, hve⟩ := c5core p (str "59") _ _ hmt hmand
      (formatChecks_removeKey_nil _ _ _ hfmt₀) hspx
    refine ⟨mkFS "59" "Beneficiary Customer (Account)" true none, r,
      by decide, by decide, hvr, hvv, ?_⟩
    rw [hve]
    congr 1
    have hiff : (str "59" = str "59" ∧
        truthy (lookupKey p.textBlock (str "59A")) = false ∧
        truthy (lookupKey p.textBlock (str "59F")) = false) ↔
        (truthy (lookupKey p.textBlock (str "59A")) = false ∧
         truthy (lookupKey p.textBlock (str "59F")) = false) := by
      simp
    rw [if_congr hiff rfl rfl]
  · have h32x : check32A (removeKey p.textBlock (str "71A")) =
        Except.ok [] := by
      rw [check32A_congr _ p.textBlock
        (lookupKey_removeKey_ne p.textBlock _ _ (by decide))]
      exact h32
    have h71x : check71A (removeKey p.textBlock (str "71A")) = [] :=
      check71A_none _ (lookupKey_removeKey_self p.textBlock (str "71A"))
    have hbenx : checkBeneficiary (removeKey p.textBlock (str "71A")) = [] := by
      rw [checkBeneficiary_congr _ p.textBlock
        (lookupKey_removeKey_ne p.textBlock _ _ (by decide))
        (lookupKey_removeKey_ne p.textBlock _ _ (by decide))
        (lookupKey_removeKey_ne p.textBlock _ _ (by decide))]
      exact hbennil
    have hspx := mt103Specifics_build _ [] h32x
    rw [h71x, hbenx] at hspx
    simp only [List.append_nil, List.nil_append] at hspx
    have hmand : mandatoryErrors mt103Spec.fields
        (removeKey p.textBlock (str "71A")) =
        [missingFieldError (mkFS "71A" "Details of Charges" true none)] := by
      rw [mandatoryErrors_removeKey _ _ _ hmand₀]
      decide
    obtain ⟨r, hvr, hvv, hve⟩ := c5core p (str "71A") _ [] hmt hmand
      (formatChecks_removeKey_nil _ _ _ hfmt₀) hspx
    refine ⟨mkFS "71A" "Details of Charges" true none, r, by decide,
      by decide, hvr, hvv, ?_⟩
    rw [hve, if_neg (fun hc => absurd hc.1 (by decide))]

def c5Parsed : ParsedMtMessage :=
  ⟨str "MT103", emptyBasicHeader, emptyApplicationHeader, none,
   [(str "20", FieldVal.scalar (str "REF1")),
    (str "23B", FieldVal.scalar (str "CRED")),
    (str "32A", FieldVal.scalar (str "240101USD100,00")),
    (str "59", FieldVal.scalar (str "JANE SMITH")),
    (str "71A", FieldVal.scalar (str "SHA"))], none, []⟩

theorem c5_witness :
    ∃ f r, findFieldSpec mt103Spec.fields (str "59") = some f ∧
      f.mandatory = true ∧
      validateMtMessage (Sum.inr (removeTag c5Parsed (str "59"))) =
        Except.ok r ∧
      r.valid = false ∧
      r.errors = missingFieldError f ::
        (if str "59" = str "59" ∧
            truthy (lookupKey c5Parsed.textBlock (str "59A")) = false ∧
            truthy (lookupKey c5Parsed.textBlock (str "59F")) = false
         then [err59] else []) :=
  c5_remove_mandatory_tag c5Parsed
    ⟨true, str "MT103", [], [warn50], c5Parsed.textBlock⟩ (str "59")
    (by decide) (by decide) (by decide) (by decide)

/-! ## Round-trip machinery: character classes -/

/-- The regex class `[a-z]`. -/
def isLowerAZ (c : Char) : Bool := 'a' ≤ c && c ≤ 'z'

/-- Characters safe for generated field values: alphanumerics, space, slash,
period, comma.  Braces, colons, dashes, pipes and line breaks are excluded,
so a safe value can neither break the block structure nor open a spurious
tag line nor terminate the text block early. -/
def safeChar (c : Char) : Bool :=
  isDigitC c || isUpperAZ c || isLowerAZ c || c = ' ' || c = '/' ||
    c = '.' || c = ','

theorem safeChar_ne (c d : Char) (h : safeChar c = true)
    (hd : safeChar d = false) : c ≠ d := by
  rintro rfl
  rw [h] at hd
  exact Bool.noConfusion hd

theorem safeChar_not_rn (c : Char) (h : safeChar c = true) :
    isRN c = false := by
  rcases hr : isRN c
  · rfl
  · rw [isRN, Bool.or_eq_true, decide_eq_true_eq, decide_eq_true_eq] at hr
    rcases hr with rfl | rfl <;> exact absurd h (by decide)

theorem safeChar_not_term (c : Char) (h : safeChar c = true) :
    isTermC c = false := by
  rcases hr : isTermC c
  · rfl
  · rw [isTermC, Bool.or_eq_true, Bool.or_eq_true, Bool.or_eq_true,
      decide_eq_true_eq, decide_eq_true_eq, decide_eq_true_eq,
      decide_eq_true_eq] at hr
    rcases hr with ((rfl | rfl) | rfl) | rfl <;> exact absurd h (by decide)

theorem digit_safe (c : Char) (h : isDigitC c = true) : safeChar c = true := by
  simp [safeChar, h]

theorem upper_safe (c : Char) (h : isUpperAZ c = true) :
    safeChar c = true := by
  simp [safeChar, h]

theorem upperOrDigit_safe (c : Char) (h : isUpperOrDigit c = true) :
    safeChar c = true := by
  rw [isUpperOrDigit, Bool.or_eq_true] at h
  rcases h with h | h
  · exact upper_safe c h
  · exact digit_safe c h

/-- Characters appearing in a 32A / balance body are not JavaScript
whitespace, so `replace(/\s/g, '')` leaves the body unchanged. -/
theorem not_ws_of_32a_char (c : Char)
    (h : (isDigitC c || isUpperAZ c || c = ',') = true) : jsWs c = false := by
  rcases hw : jsWs c
  · rfl
  · rw [jsWs] at hw
    simp only [Bool.or_eq_true, decide_eq_true_eq] at hw
    rcases hw with ((((rfl | rfl) | rfl) | rfl) | rfl) | rfl <;>
      exact absurd h (by decide)

theorem stripJsWs_eq_self (s : Str) (h : ∀ c ∈ s, jsWs c = false) :
    stripJsWs s = s := by
  rw [stripJsWs]
  induction s with
  | nil => rfl
  | cons c rest ih =>
    rw [List.filter_cons]
    rw [h c (by simp), Bool.not_false, if_pos rfl,
      ih (fun d hd => h d (by simp [hd]))]

/-! ## Round-trip machinery: generation input facts -/

/-- A truthy property read never returns the empty string. -/
theorem gf_ne_nil (fields : List (Str × Str)) (k : String) (v : Str)
    (h : gf fields k = some v) : v ≠ [] := by
  simp only [gf] at h
  rcases hl : lookupKey fields (str k) with _ | w <;> rw [hl] at h <;>
    simp only at h
  · exact absurd h (by simp)
  · by_cases hw : w = []
    · rw [if_pos hw] at h
      exact absurd h (by simp)
    · rw [if_neg hw] at h
      injection h with h
      subst h
      exact hw

theorem canonical_facts (a : Str) (h : canonicalIntStr a = true) :
    a ≠ [] ∧ ∀ c ∈ a, isDigitC c = true := by
  rw [canonicalIntStr, Bool.and_eq_true, Bool.and_eq_true,
    Bool.and_eq_true] at h
  obtain ⟨⟨⟨hne, hall⟩, _⟩, _⟩ := h
  refine ⟨?_, fun c hc => List.all_eq_true.mp hall c hc⟩
  rw [Bool.not_eq_eq_eq_not, Bool.not_true, List.isEmpty_eq_false] at hne
  exact hne

/-- A valid BIC has a non-empty normalized form that matches the BIC
pattern. -/
theorem validateBic_valid_shape (b : Str)
    (h : (validateBic b).valid = true) :
    (validateBic b).normalized = normalizeBic b ∧ normalizeBic b ≠ [] ∧
      bicPatternOk (normalizeBic b) = true := by
  rw [validateBic] at h ⊢
  by_cases hn : normalizeBic b = []
  · rw [if_pos hn] at h
    exact absurd h (by simp)
  · rw [if_neg hn] at h ⊢
    refine ⟨rfl, hn, ?_⟩
    rw [List.isEmpty_eq_true] at h
    rw [bicErrors] at h
    rcases List.append_eq_nil.mp h with ⟨h₁₂₃, _⟩
    rcases List.append_eq_nil.mp h₁₂₃ with ⟨h₁₂, _⟩
    rcases List.append_eq_nil.mp h₁₂ with ⟨_, h₂⟩
    by_cases hp : bicPatternOk (normalizeBic b) = true
    · exact hp
    · rw [Bool.not_eq_true] at hp
      rw [hp] at h₂
      simp at h₂

theorem bicPattern_chars (s : Str) (h : bicPatternOk s = true) :
    ∀ c ∈ s, isUpperOrDigit c = true := by
  rw [bicPatternOk, Bool.and_eq_true, Bool.and_eq_true,
    Bool.and_eq_true] at h
  obtain ⟨⟨⟨_, h6⟩, h2⟩, h8⟩ := h
  intro c hc
  have hs : s = s.take 6 ++ ((s.drop 6).take 2 ++ (s.drop 6).drop 2) := by
    rw [List.take_append_drop, List.take_append_drop]
  rw [hs, List.mem_append, List.mem_append] at hc
  rcases hc with hc | hc | hc
  · have := List.all_eq_true.mp h6 c hc
    rw [isUpperOrDigit, this, Bool.true_or]
  · exact List.all_eq_true.mp h2 c hc
  · rw [List.drop_drop] at hc
    have := List.all_eq_true.mp h8 c (by simpa using hc)
    exact this

theorem normalizeBicTo12_chars (s : Str)
    (h : ∀ c ∈ s, isUpperOrDigit c = true) :
    ∀ c ∈ normalizeBicTo12 s, isUpperOrDigit c = true := by
  intro c hc
  rw [normalizeBicTo12] at hc
  split at hc
  · rw [List.mem_append] at hc
    rcases hc with hc | hc
    · exact h c hc
    · have : c = 'X' := by
        simpa [str] using hc
      subst this
      decide
  · split at hc
    · rw [List.mem_append] at hc
      rcases hc with hc | hc
      · exact h c hc
      · have : c = 'X' := by
          simpa [str] using hc
        subst this
        decide
    · exact h c hc

/-! ## Round-trip machinery: block scanning -/

/-- Well-formed block content for the block regex
`[^{}]*(?:\{[^{}]*\}[^{}]*)*`: non-brace characters interleaved with
single-level brace groups whose interiors are brace-free. -/
inductive BlockContent : Str → Prop
  | nil : BlockContent []
  | chr (ch : Char) (rest : Str) (h₁ : ch ≠ '{') (h₂ : ch ≠ '}')
      (hr : BlockContent rest) : BlockContent (ch :: rest)
  | grp (inner rest : Str) (hi : ∀ ch ∈ inner, ch ≠ '{' ∧ ch ≠ '}')
      (hr : BlockContent rest) : BlockContent ('{' :: inner ++ '}' :: rest)

theorem blockContent_of_chars (s : Str)
    (h : ∀ c ∈ s, c ≠ '{' ∧ c ≠ '}') : BlockContent s := by
  induction s with
  | nil => exact .nil
  | cons c rest ih =>
    obtain ⟨h₁, h₂⟩ := h c (by simp)
    exact .chr c rest h₁ h₂ (ih (fun d hd => h d (by simp [hd])))

theorem readContent_depth1 (inner X : Str)
    (hi : ∀ ch ∈ inner, ch ≠ '{' ∧ ch ≠ '}') :
    readContent (inner ++ '}' :: X) 1 =
      (readContent X 0).map (fun p => (inner ++ '}' :: p.1, p.2)) := by
  induction inner with
  | nil =>
    rw [List.nil_append]
    simp [readContent]
  | cons c rest ih =>
    obtain ⟨h₁, h₂⟩ := hi c (by simp)
    rw [List.cons_append]
    simp only [readContent, h₁, h₂, if_false]
    rw [ih (fun d hd => hi d (by simp [hd]))]
    cases readContent X 0 <;> rfl

theorem readContent_of_blockContent (c : Str) (hc : BlockContent c) :
    ∀ rest, readContent (c ++ '}' :: rest) 0 = some (c, rest) := by
  induction hc with
  | nil =>
    intro rest
    rw [List.nil_append]
    simp [readContent]
  | chr ch r h₁ h₂ hr ih =>
    intro rest
    rw [List.cons_append]
    simp only [readContent, h₁, h₂, if_false]
    rw [ih rest]
    rfl
  | grp inner r hi hr ih =>
    intro rest
    rw [List.cons_append]
    have hshape : (inner ++ '}' :: r) ++ '}' :: rest =
        inner ++ '}' :: (r ++ '}' :: rest) := by
      simp
    simp only [readContent, List.append_eq]
    rw [hshape, readContent_depth1 inner (r ++ '}' :: rest) hi, ih rest]
    simp

theorem tryBlock_eq (d : Char) (c rest : Str) (hd : isDigitC d = true)
    (hc : BlockContent c) :
    tryBlock (d :: ':' :: (c ++ '}' :: rest)) =
      some (d.toNat - '0'.toNat, c, rest) := by
  simp only [tryBlock]
  rw [if_pos hd, readContent_of_blockContent c hc rest]
  rfl

/-- The exact block decomposition of a well-formed concatenation of blocks:
each block is an opening brace, a digit, a colon, well-formed content and a
closing brace. -/
inductive BlocksShape : Str → List (Nat × Str) → Prop
  | nil : BlocksShape [] []
  | cons (d : Char) (c rest : Str) (bs : List (Nat × Str))
      (hd : isDigitC d = true) (hc : BlockContent c)
      (h : BlocksShape rest bs) :
      BlocksShape ('{' :: d :: ':' :: (c ++ '}' :: rest))
        ((d.toNat - '0'.toNat, c) :: bs)

theorem blocksShape_append (s₁ s₂ : Str) (b₁ b₂ : List (Nat × Str))
    (h₁ : BlocksShape s₁ b₁) (h₂ : BlocksShape s₂ b₂) :
    BlocksShape (s₁ ++ s₂) (b₁ ++ b₂) := by
  induction h₁ with
  | nil => simpa using h₂
  | cons d c rest bs hd hc h ih =>
    have hshape : ('{' :: d :: ':' :: (c ++ '}' :: rest)) ++ s₂ =
        '{' :: d :: ':' :: (c ++ '}' :: (rest ++ s₂)) := by
      simp
    rw [hshape, List.cons_append]
    exact .cons d c (rest ++ s₂) (bs ++ b₂) hd hc ih

theorem scanBlocks_nil (fuel : Nat) : scanBlocks fuel [] = [] := by
  cases fuel <;> rfl

theorem scanBlocks_of_shape (s : Str) (bs : List (Nat × Str))
    (h : BlocksShape s bs) :
    ∀ fuel, s.length ≤ fuel → scanBlocks fuel s = bs := by
  induction h with
  | nil =>
    intro fuel _
    exact scanBlocks_nil fuel
  | cons d c rest bs hd hc h ih =>
    intro fuel hfuel
    have hlen : rest.length + 1 ≤ fuel := by
      simp [List.length_cons, List.length_append] at hfuel
      omega
    obtain ⟨f, rfl⟩ : ∃ f, fuel = f + 1 := ⟨fuel - 1, by omega⟩
    have hstep : scanBlocks (f + 1) ('{' :: d :: ':' :: (c ++ '}' :: rest)) =
        (d.toNat - '0'.toNat, c) :: scanBlocks f rest := by
      simp [scanBlocks, tryBlock_eq d c rest hd hc]
    rw [hstep, ih f (by omega)]

theorem getBlock_append (a b : List (Nat × Str)) (n : Nat) :
    getBlock (a ++ b) n =
      match getBlock b n with
      | some c => some c
      | none => getBlock a n := by
  induction a with
  | nil =>
    rw [List.nil_append]
    cases getBlock b n <;> simp [getBlock]
  | cons p rest ih =>
    obtain ⟨m, c⟩ := p
    rw [List.cons_append]
    simp only [getBlock]
    rw [ih]
    cases hb : getBlock b n <;> cases hr : getBlock rest n <;> rfl

theorem getBlock_none_of (l : List (Nat × Str)) (n : Nat)
    (h : ∀ p ∈ l, p.1 ≠ n) : getBlock l n = none := by
  induction l with
  | nil => rfl
  | cons p rest ih =>
    obtain ⟨m, c⟩ := p
    simp only [getBlock]
    rw [ih (fun q hq => h q (by simp [hq]))]
    exact if_neg (h (m, c) (by simp))

/-! ## Round-trip machinery: generated text-block segments -/

/-- One generated block-4 field: its tag, the rest of the tag line, and any
continuation lines. -/
structure GSeg where
  tag : Str
  first : Str
  conts : List Str
  deriving DecidableEq, Repr

/-- The physical lines emitted for one segment. -/
def segLines (s : GSeg) : List Str :=
  (':' :: s.tag ++ ':' :: s.first) :: s.conts

def segsLines : List GSeg → List Str
  | [] => []
  | s :: rest => segLines s ++ segsLines rest

/-- The field value the tokenizer records for a segment. -/
def segVal (s : GSeg) : FieldVal :=
  mkVal ((if s.first = [] then [] else [s.first]) ++ s.conts)

def segEntry (s : GSeg) : Str × FieldVal := (s.tag, segVal s)

/-- Characters that keep a generated line intact: no braces (block
structure), no CR/LF (line structure). -/
def charOk (c : Char) : Bool :=
  decide (c ≠ '{') && decide (c ≠ '}') && !isRN c

theorem charOk_not_rn (c : Char) (h : charOk c = true) : isRN c = false := by
  rw [charOk, Bool.and_eq_true, Bool.and_eq_true] at h
  obtain ⟨_, hrn⟩ := h
  rwa [Bool.not_eq_eq_eq_not, Bool.not_true] at hrn

theorem charOk_no_brace (c : Char) (h : charOk c = true) :
    c ≠ '{' ∧ c ≠ '}' := by
  rw [charOk, Bool.and_eq_true, Bool.and_eq_true, decide_eq_true_eq,
    decide_eq_true_eq] at h
  exact ⟨h.1.1, h.1.2⟩

theorem safeChar_charOk (c : Char) (h : safeChar c = true) :
    charOk c = true := by
  rw [charOk, Bool.and_eq_true, Bool.and_eq_true]
  refine ⟨⟨?_, ?_⟩, ?_⟩
  · exact decide_eq_true (safeChar_ne c '{' h (by decide))
  · exact decide_eq_true (safeChar_ne c '}' h (by decide))
  · rw [safeChar_not_rn c h]
    rfl

/-- A well-formed segment: non-empty tag whose tag line re-splits to exactly
the tag and value, intact characters, and continuation lines that are
neither tag lines nor the block terminator. -/
def wfSeg (s : GSeg) : Prop :=
  s.tag ≠ [] ∧
  tagSplit (':' :: s.tag ++ ':' :: s.first) = some (s.tag, s.first) ∧
  (∀ c ∈ s.tag, charOk c = true) ∧ (∀ c ∈ s.first, charOk c = true) ∧
  ∀ l ∈ s.conts, tagSplit l = none ∧ l ≠ ['-'] ∧ ∀ c ∈ l, charOk c = true

theorem segsLines_append (a b : List GSeg) :
    segsLines (a ++ b) = segsLines a ++ segsLines b := by
  induction a with
  | nil => rfl
  | cons s rest ih =>
    rw [List.cons_append]
    simp only [segsLines]
    rw [ih, List.append_assoc]

theorem segsLines_chars (segs : List GSeg) (h : ∀ s ∈ segs, wfSeg s) :
    ∀ l ∈ segsLines segs, ∀ c ∈ l, charOk c = true := by
  induction segs with
  | nil =>
    intro l hl
    simp [segsLines] at hl
  | cons s rest ih =>
    intro l hl c hc
    simp only [segsLines, segLines, List.mem_append, List.mem_cons] at hl
    obtain ⟨_, _, htc, hfc, hcc⟩ := h s (by simp)
    rcases hl with (rfl | hl) | hl
    · have hcc' : c = ':' ∨ c ∈ s.tag ∨ c ∈ s.first := by
        simp only [List.mem_cons, List.mem_append, List.mem_cons] at hc
        tauto
      rcases hcc' with rfl | hc' | hc'
      · decide
      · exact htc c hc'
      · exact hfc c hc'
    · exact (hcc l hl).2.2 c hc
    · exact ih (fun t htm => h t (by simp [htm])) l hl c hc

/-- Consuming a run of continuation lines accumulates them onto the open
field. -/
theorem ptbLoop_conts_mid (conts : List Str) (X : List Str) (ct : Str)
    (cl : List Str) (acc : List (Str × FieldVal)) (hct : ct ≠ [])
    (hc : ∀ l ∈ conts, tagSplit l = none ∧ l ≠ ['-']) :
    ptbLoop (conts ++ X) ct cl acc = ptbLoop X ct (cl ++ conts) acc := by
  induction conts generalizing cl with
  | nil => simp
  | cons l rest ih =>
    obtain ⟨hts, hd⟩ := hc l (by simp)
    rw [List.cons_append]
    simp only [ptbLoop, hts]
    rw [if_pos ⟨hct, hd⟩, ih (cl ++ [l]) (fun x hx => hc x (by simp [hx]))]
    simp

/-- The tokenizer loop on a well-formed segment list followed by the dash
terminator folds each segment's value into the record in order. -/
theorem ptbLoop_segs (segs : List GSeg) (hwf : ∀ s ∈ segs, wfSeg s) :
    ∀ (ct : Str) (cl : List Str) (acc : List (Str × FieldVal)),
    ptbLoop (segsLines segs ++ [['-']]) ct cl acc =
      segs.foldl (fun m s => setKey m s.tag (segVal s))
        (saveField acc ct cl) := by
  induction segs with
  | nil =>
    intro ct cl acc
    simp only [segsLines, List.nil_append, List.foldl_nil]
    show ptbLoop [['-']] ct cl acc = saveField acc ct cl
    simp [ptbLoop, tagSplit]
  | cons s rest ih =>
    intro ct cl acc
    obtain ⟨ht, hts, _, _, hcc⟩ := hwf s (by simp)
    have hts' : tagSplit (':' :: (s.tag ++ ':' :: s.first)) =
        some (s.tag, s.first) := by
      rw [← List.cons_append]
      exact hts
    simp only [segsLines, segLines, List.cons_append, List.append_assoc]
    simp only [ptbLoop, hts']
    rw [ptbLoop_conts_mid s.conts _ s.tag _ _ ht
      (fun l hl => ⟨(hcc l hl).1, (hcc l hl).2.1⟩)]
    rw [ih (fun t htm => hwf t (by simp [htm])) s.tag _ (saveField acc ct cl)]
    rw [List.foldl_cons]
    have hsv : saveField (saveField acc ct cl) s.tag
        ((if s.first = [] then [] else [s.first]) ++ s.conts) =
        setKey (saveField acc ct cl) s.tag (segVal s) := by
      rw [saveField, if_neg ht, segVal]
    rw [hsv]

/-- Setting a fresh key appends the pair. -/
theorem setKey_append_new {α : Type} (m : List (Str × α)) (k : Str) (v : α)
    (h : ∀ e ∈ m, e.1 ≠ k) : setKey m k v = m ++ [(k, v)] := by
  induction m with
  | nil => rfl
  | cons e rest ih =>
    obtain ⟨k₁, v₁⟩ := e
    simp only [setKey]
    rw [if_neg (h (k₁, v₁) (by simp)), ih (fun e he => h e (by simp [he]))]
    rfl

/-- Folding distinct-tag segments into an empty record lists them in
order. -/
theorem foldl_setKey_eq (segs : List GSeg) :
    ∀ (acc : List (Str × FieldVal)),
    (∀ s ∈ segs, ∀ e ∈ acc, e.1 ≠ s.tag) →
    (segs.map GSeg.tag).Nodup →
    segs.foldl (fun m s => setKey m s.tag (segVal s)) acc =
      acc ++ segs.map segEntry := by
  induction segs with
  | nil =>
    intro acc _ _
    simp
  | cons s rest ih =>
    intro acc hdisj hnd
    rw [List.map_cons, List.nodup_cons] at hnd
    obtain ⟨hnotin, hnd'⟩ := hnd
    rw [List.foldl_cons,
      setKey_append_new acc s.tag (segVal s)
        (fun e he => hdisj s (by simp) e he),
      ih (acc ++ [(s.tag, segVal s)]) ?_ hnd']
    · simp [segEntry]
    · intro t htm e he
      rcases List.mem_append.mp he with he | he
      · exact hdisj t (by simp [htm]) e he
      · have he' : e = (s.tag, segVal s) := by simpa using he
        rw [he']
        intro hcon
        have : s.tag = t.tag := hcon
        exact hnotin (this ▸ List.mem_map_of_mem GSeg.tag htm)

theorem lookupKey_chunk_skip {α : Type} (A B : List (Str × α)) (k : Str)
    (h : ∀ e ∈ A, e.1 ≠ k) : lookupKey (A ++ B) k = lookupKey B k := by
  induction A with
  | nil => rfl
  | cons e rest ih =>
    obtain ⟨k₁, v⟩ := e
    rw [List.cons_append]
    simp only [lookupKey]
    rw [if_neg (h (k₁, v) (by simp)), ih (fun e he => h e (by simp [he]))]

/-! ## Round-trip machinery: the segments each generator emits -/

/-- Segments of one conditional single-line field (`optLine`). -/
def optSeg (fields : List (Str × Str)) (k : String) (tag : String) :
    List GSeg :=
  match gf fields k with
  | some v => [⟨str tag, v, []⟩]
  | none => []

/-- Segment of an unconditional single-line field. -/
def reqSeg (tag : Str) (v : Str) : List GSeg := [⟨tag, v, []⟩]

/-- Segments emitted by `build32A` (amount already formatted). -/
def seg32A (fields : List (Str × Str)) : List GSeg :=
  match gf fields "valueDate", gf fields "currency", gf fields "amount" with
  | some d, some c, some a => [⟨str "32A", d ++ c ++ (a ++ str ",00"), []⟩]
  | _, _, _ => []

def seg33B (fields : List (Str × Str)) : List GSeg :=
  match gf fields "instructedCurrency", gf fields "instructedAmount" with
  | some c, some a => [⟨str "33B", c ++ (a ++ str ",00"), []⟩]
  | _, _ => []

/-- Segments emitted by `build50K`, with the embedded CR LF of the
account-plus-name form split into physical lines. -/
def seg50K (fields : List (Str × Str)) : List GSeg :=
  match gf fields "orderingCustomerAccount",
        gf fields "orderingCustomerName" with
  | none, none => []
  | some a, some n => [⟨str "50K", '/' :: a, [n]⟩]
  | some a, none => [⟨str "50K", '/' :: a, [[]]⟩]
  | none, some n => [⟨str "50K", n, []⟩]

def seg59 (fields : List (Str × Str)) : List GSeg :=
  match gf fields "beneficiaryAccount", gf fields "beneficiaryName" with
  | none, none => []
  | some a, some n => [⟨str "59", '/' :: a, [n]⟩]
  | some a, none => [⟨str "59", '/' :: a, [[]]⟩]
  | none, some n => [⟨str "59", n, []⟩]

/-- Segments emitted by `buildStatementLines`. -/
def seg61 (fields : List (Str × Str)) : List GSeg :=
  match gf fields "statementLines" with
  | some s => (splitPipe s).map (fun l => ⟨str "61", l, []⟩)
  | none => []

def segs103 (fields : List (Str × Str)) : List GSeg :=
  optSeg fields "senderReference" "20" ++
  reqSeg (str "23B") ((gf fields "bankOperationCode").getD (str "CRED")) ++
  seg32A fields ++ seg33B fields ++ seg50K fields ++
  optSeg fields "orderingInstitution" "52A" ++
  optSeg fields "sendersCorrespondent" "53A" ++
  optSeg fields "receiversCorrespondent" "54A" ++
  optSeg fields "intermediaryInstitution" "56A" ++
  optSeg fields "accountWithInstitution" "57A" ++
  seg59 fields ++
  optSeg fields "remittanceInfo" "70" ++
  reqSeg (str "71A") ((gf fields "charges").getD (str "SHA")) ++
  optSeg fields "senderToReceiverInfo" "72"

def segs202 (fields : List (Str × Str)) : List GSeg :=
  optSeg fields "transactionReference" "20" ++
  optSeg fields "relatedReference" "21" ++
  seg32A fields ++
  optSeg fields "orderingInstitution" "52A" ++
  optSeg fields "sendersCorrespondent" "53A" ++
  optSeg fields "receiversCorrespondent" "54A" ++
  optSeg fields "intermediary" "56A" ++
  optSeg fields "accountWithInstitution" "57A" ++
  optSeg fields "beneficiaryInstitution" "58A" ++
  optSeg fields "senderToReceiverInfo" "72"

def segs940 (fields : List (Str × Str)) : List GSeg :=
  optSeg fields "transactionReference" "20" ++
  optSeg fields "accountId" "25" ++
  optSeg fields "statementNumber" "28C" ++
  optSeg fields "openingBalance" "60F" ++
  seg61 fields ++
  optSeg fields "closingBalance" "62F" ++
  optSeg fields "closingAvailableBalance" "64"

def segs950 (fields : List (Str × Str)) : List GSeg :=
  optSeg fields "transactionReference" "20" ++
  optSeg fields "accountId" "25" ++
  optSeg fields "statementNumber" "28C" ++
  optSeg fields "openingBalance" "60F" ++
  seg61 fields ++
  optSeg fields "closingBalance" "62F"

theorem segsLines_optSeg (fields : List (Str × Str)) (k : String)
    (tag pfx : String) (hpfx : str pfx = ':' :: str tag ++ [':']) :
    segsLines (optSeg fields k tag) = optLine fields k pfx := by
  rcases h : gf fields k with _ | v <;>
    simp [optSeg, optLine, h, segsLines, segLines, hpfx]

theorem segsLines_reqSeg (tag v : Str) :
    segsLines (reqSeg tag v) = [':' :: tag ++ ':' :: v] := by
  simp [reqSeg, segsLines, segLines]

theorem segsLines_seg61 (fields : List (Str × Str)) :
    segsLines (seg61 fields) = buildStatementLines fields := by
  rcases h : gf fields "statementLines" with _ | s
  · simp [seg61, buildStatementLines, h, segsLines]
  · simp only [seg61, buildStatementLines, h]
    induction splitPipe s with
    | nil => rfl
    | cons l rest ih =>
      simp only [List.map_cons, segsLines, segLines]
      rw [ih]
      have : str ":61:" ++ l = ':' :: str "61" ++ ':' :: l := rfl
      simp [this]

theorem build32A_ok (fields : List (Str × Str))
    (h : ∀ a, gf fields "amount" = some a → canonicalIntStr a = true) :
    build32A fields = Except.ok (segsLines (seg32A fields)) := by
  rcases hd : gf fields "valueDate" with _ | d <;>
    rcases hc : gf fields "currency" with _ | c <;>
      rcases ha : gf fields "amount" with _ | a <;>
        simp only [build32A, seg32A, hd, hc, ha] <;>
          first
          | rfl
          | (rw [formatSwiftAmount, if_pos (h a ha)]
             have hs : str ":32A:" ++ (d ++ (c ++ (a ++ str ",00"))) =
                 ':' :: (str "32A" ++ ':' ::
                   (d ++ (c ++ (a ++ str ",00")))) := rfl
             simp [segsLines, segLines, Except.map, hs])

theorem build33B_ok (fields : List (Str × Str))
    (h : ∀ a, gf fields "instructedAmount" = some a →
      canonicalIntStr a = true) :
    build33B fields = Except.ok (segsLines (seg33B fields)) := by
  rcases hc : gf fields "instructedCurrency" with _ | c <;>
    rcases ha : gf fields "instructedAmount" with _ | a <;>
      simp only [build33B, seg33B, hc, ha] <;>
        first
        | rfl
        | (rw [formatSwiftAmount, if_pos (h a ha)]
           have hs : str ":33B:" ++ (c ++ (a ++ str ",00")) =
               ':' :: (str "33B" ++ ':' :: (c ++ (a ++ str ",00"))) := rfl
           simp [segsLines, segLines, Except.map, hs])

/-! ## Round-trip machinery: joining lines with the 50K / 59 line split -/

theorem joinWith_cons (sep : Str) (l : Str) (ls : List Str) (h : ls ≠ []) :
    joinWith sep (l :: ls) = l ++ sep ++ joinWith sep ls := by
  cases ls with
  | nil => exact absurd rfl h
  | cons x xs => rfl

theorem append_ne_nil_left {α : Type} (a b : List α) (h : a ≠ []) :
    a ++ b ≠ [] := by
  cases a with
  | nil => exact absurd rfl h
  | cons x xs => simp

theorem append_ne_nil_right {α : Type} (a b : List α) (h : b ≠ []) :
    a ++ b ≠ [] := by
  cases a with
  | nil => simpa using h
  | cons x xs => simp

/-- A line with one embedded CR LF joins exactly like the two lines it
splits into. -/
theorem joinCRLF_split_mid (A : List Str) (x y : Str) (B : List Str) :
    joinCRLF (A ++ ((x ++ str "\r\n" ++ y) :: B)) =
      joinCRLF (A ++ (x :: y :: B)) := by
  simp only [joinCRLF]
  induction A with
  | nil =>
    simp only [List.nil_append]
    cases B with
    | nil => simp [joinWith, List.append_assoc]
    | cons b bs =>
      rw [joinWith_cons _ (x ++ str "\r\n" ++ y) (b :: bs) (by simp),
        joinWith_cons _ x (y :: b :: bs) (by simp),
        joinWith_cons _ y (b :: bs) (by simp)]
      simp [List.append_assoc]
  | cons l rest ih =>
    rw [List.cons_append, List.cons_append,
      joinWith_cons _ _ _ (append_ne_nil_right _ _ (by simp)),
      joinWith_cons _ _ _ (append_ne_nil_right _ _ (by simp)), ih]

/-- Joining is a congruence in a nonempty suffix. -/
theorem joinCRLF_append_suffix (A X Y : List Str)
    (h : joinCRLF X = joinCRLF Y) (hX : X ≠ []) (hY : Y ≠ []) :
    joinCRLF (A ++ X) = joinCRLF (A ++ Y) := by
  simp only [joinCRLF] at h ⊢
  induction A with
  | nil => exact h
  | cons l rest ih =>
    rw [List.cons_append, List.cons_append,
      joinWith_cons _ _ _ (append_ne_nil_right _ _ hX),
      joinWith_cons _ _ _ (append_ne_nil_right _ _ hY), ih]

theorem joinCRLF_split_cons (x y : Str) (B : List Str) :
    joinCRLF ((x ++ str "\r\n" ++ y) :: B) = joinCRLF (x :: y :: B) := by
  have h := joinCRLF_split_mid [] x y B
  simpa using h

theorem joinCRLF_build50K (fields : List (Str × Str)) (R : List Str) :
    joinCRLF (build50K fields ++ R) =
      joinCRLF (segsLines (seg50K fields) ++ R) := by
  rcases ha : gf fields "orderingCustomerAccount" with _ | a <;>
    rcases hn : gf fields "orderingCustomerName" with _ | n <;>
      simp only [build50K, seg50K, ha, hn, segsLines, segLines,
        List.cons_append, List.nil_append]
  · rfl
  · have hline : str ":50K:" ++ '/' :: (a ++ str "\r\n") ++ [] =
        (':' :: (str "50K" ++ ':' :: '/' :: a)) ++ str "\r\n" ++ [] := rfl
    rw [hline, joinCRLF_split_cons]
  · have hline : str ":50K:" ++ '/' :: (a ++ str "\r\n") ++ n =
        (':' :: (str "50K" ++ ':' :: '/' :: a)) ++ str "\r\n" ++ n := rfl
    rw [hline, joinCRLF_split_cons]

theorem joinCRLF_build59 (fields : List (Str × Str)) (R : List Str) :
    joinCRLF (build59 fields ++ R) =
      joinCRLF (segsLines (seg59 fields) ++ R) := by
  rcases ha : gf fields "beneficiaryAccount" with _ | a <;>
    rcases hn : gf fields "beneficiaryName" with _ | n <;>
      simp only [build59, seg59, ha, hn, segsLines, segLines,
        List.cons_append, List.nil_append]
  · rfl
  · have hline : str ":59:" ++ '/' :: (a ++ str "\r\n") ++ [] =
        (':' :: (str "59" ++ ':' :: '/' :: a)) ++ str "\r\n" ++ [] := rfl
    rw [hline, joinCRLF_split_cons]
  · have hline : str ":59:" ++ '/' :: (a ++ str "\r\n") ++ n =
        (':' :: (str "59" ++ ':' :: '/' :: a)) ++ str "\r\n" ++ n := rfl
    rw [hline, joinCRLF_split_cons]

/-- The one join-level difference between raw generator lines and their
physical-line segments: the 50K and 59 entries split at the embedded CR LF. -/
theorem joinCRLF_50K59 (fields : List (Str × Str)) (C D E : List Str)
    (hE : E ≠ []) :
    joinCRLF (C ++ (build50K fields ++ (D ++ (build59 fields ++ E)))) =
      joinCRLF (C ++ (segsLines (seg50K fields) ++
        (D ++ (segsLines (seg59 fields) ++ E)))) := by
  have h59 : joinCRLF (build59 fields ++ E) =
      joinCRLF (segsLines (seg59 fields) ++ E) :=
    joinCRLF_build59 fields E
  have hD : joinCRLF (D ++ (build59 fields ++ E)) =
      joinCRLF (D ++ (segsLines (seg59 fields) ++ E)) :=
    joinCRLF_append_suffix D _ _ h59 (append_ne_nil_right _ _ hE)
      (append_ne_nil_right _ _ hE)
  have hmid : joinCRLF (build50K fields ++ (D ++ (build59 fields ++ E))) =
      joinCRLF (segsLines (seg50K fields) ++
        (D ++ (segsLines (seg59 fields) ++ E))) := by
    rw [joinCRLF_build50K fields _]
    exact joinCRLF_append_suffix _ _ _ hD
      (append_ne_nil_right _ _ (append_ne_nil_right _ _ hE))
      (append_ne_nil_right _ _ (append_ne_nil_right _ _ hE))
  exact joinCRLF_append_suffix C _ _ hmid
    (append_ne_nil_right _ _ (append_ne_nil_right _ _
      (append_ne_nil_right _ _ hE)))
    (append_ne_nil_right _ _ (append_ne_nil_right _ _
      (append_ne_nil_right _ _ hE)))

/-- `generateMT103Content` under the membership and amount preconditions:
the emitted content is the physical segment lines joined with CR LF plus a
trailing CR LF. -/
theorem generateMT103Content_eq (fields : List (Str × Str))
    (hop : (gf fields "bankOperationCode").getD (str "CRED") ∈
      bankOperationCodes)
    (hch : (gf fields "charges").getD (str "SHA") ∈ chargeCodes)
    (hamt : ∀ a, gf fields "amount" = some a → canonicalIntStr a = true)
    (hiamt : ∀ a, gf fields "instructedAmount" = some a →
      canonicalIntStr a = true) :
    generateMT103Content fields =
      Except.ok (joinCRLF (segsLines (segs103 fields)) ++ str "\r\n") := by
  simp only [generateMT103Content]
  rw [if_neg (not_not_intro hop), build32A_ok fields hamt,
    build33B_ok fields hiamt]
  simp only []
  rw [if_neg (not_not_intro hch)]
  have h23 : ':' :: str "23B" ++
      ':' :: (gf fields "bankOperationCode").getD (str "CRED") =
      str ":23B:" ++ (gf fields "bankOperationCode").getD (str "CRED") := rfl
  have h71 : ':' :: str "71A" ++
      ':' :: (gf fields "charges").getD (str "SHA") =
      str ":71A:" ++ (gf fields "charges").getD (str "SHA") := rfl
  have hgen : optLine fields "senderReference" ":20:" ++
      [str ":23B:" ++ (gf fields "bankOperationCode").getD (str "CRED")] ++
      segsLines (seg32A fields) ++ segsLines (seg33B fields) ++
      build50K fields ++
      optLine fields "orderingInstitution" ":52A:" ++
      optLine fields "sendersCorrespondent" ":53A:" ++
      optLine fields "receiversCorrespondent" ":54A:" ++
      optLine fields "intermediaryInstitution" ":56A:" ++
      optLine fields "accountWithInstitution" ":57A:" ++
      build59 fields ++
      optLine fields "remittanceInfo" ":70:" ++
      [str ":71A:" ++ (gf fields "charges").getD (str "SHA")] ++
      optLine fields "senderToReceiverInfo" ":72:" =
      (optLine fields "senderReference" ":20:" ++
        ([str ":23B:" ++ (gf fields "bankOperationCode").getD (str "CRED")] ++
          (segsLines (seg32A fields) ++ segsLines (seg33B fields)))) ++
      (build50K fields ++
        ((optLine fields "orderingInstitution" ":52A:" ++
          (optLine fields "sendersCorrespondent" ":53A:" ++
            (optLine fields "receiversCorrespondent" ":54A:" ++
              (optLine fields "intermediaryInstitution" ":56A:" ++
                optLine fields "accountWithInstitution" ":57A:")))) ++
          (build59 fields ++
            (optLine fields "remittanceInfo" ":70:" ++
              ([str ":71A:" ++ (gf fields "charges").getD (str "SHA")] ++
                optLine fields "senderToReceiverInfo" ":72:"))))) := by
    simp only [List.append_assoc]
  have hseg : segsLines (segs103 fields) =
      (optLine fields "senderReference" ":20:" ++
        ([str ":23B:" ++ (gf fields "bankOperationCode").getD (str "CRED")] ++
          (segsLines (seg32A fields) ++ segsLines (seg33B fields)))) ++
      (segsLines (seg50K fields) ++
        ((optLine fields "orderingInstitution" ":52A:" ++
          (optLine fields "sendersCorrespondent" ":53A:" ++
            (optLine fields "receiversCorrespondent" ":54A:" ++
              (optLine fields "intermediaryInstitution" ":56A:" ++
                optLine fields "accountWithInstitution" ":57A:")))) ++
          (segsLines (seg59 fields) ++
            (optLine fields "remittanceInfo" ":70:" ++
              ([str ":71A:" ++ (gf fields "charges").getD (str "SHA")] ++
                optLine fields "senderToReceiverInfo" ":72:"))))) := by
    rw [segs103]
    simp only [segsLines_append]
    rw [segsLines_optSeg fields "senderReference" "20" ":20:" rfl,
      segsLines_optSeg fields "orderingInstitution" "52A" ":52A:" rfl,
      segsLines_optSeg fields "sendersCorrespondent" "53A" ":53A:" rfl,
      segsLines_optSeg fields "receiversCorrespondent" "54A" ":54A:" rfl,
      segsLines_optSeg fields "intermediaryInstitution" "56A" ":56A:" rfl,
      segsLines_optSeg fields "accountWithInstitution" "57A" ":57A:" rfl,
      segsLines_optSeg fields "remittanceInfo" "70" ":70:" rfl,
      segsLines_optSeg fields "senderToReceiverInfo" "72" ":72:" rfl,
      segsLines_reqSeg, segsLines_reqSeg, h23, h71]
    simp only [List.append_assoc]
  rw [hgen, hseg,
    joinCRLF_50K59 fields _ _ _
      (append_ne_nil_right _ _ (append_ne_nil_left _ _ (by simp)))]

theorem generateMT202Content_eq (fields : List (Str × Str))
    (hamt : ∀ a, gf fields "amount" = some a → canonicalIntStr a = true) :
    generateMT202Content fields =
      Except.ok (joinCRLF (segsLines (segs202 fields)) ++ str "\r\n") := by
  simp only [generateMT202Content]
  rw [build32A_ok fields hamt]
  simp only []
  rw [segs202]
  simp only [segsLines_append]
  rw [segsLines_optSeg fields "transactionReference" "20" ":20:" rfl,
    segsLines_optSeg fields "relatedReference" "21" ":21:" rfl,
    segsLines_optSeg fields "orderingInstitution" "52A" ":52A:" rfl,
    segsLines_optSeg fields "sendersCorrespondent" "53A" ":53A:" rfl,
    segsLines_optSeg fields "receiversCorrespondent" "54A" ":54A:" rfl,
    segsLines_optSeg fields "intermediary" "56A" ":56A:" rfl,
    segsLines_optSeg fields "accountWithInstitution" "57A" ":57A:" rfl,
    segsLines_optSeg fields "beneficiaryInstitution" "58A" ":58A:" rfl,
    segsLines_optSeg fields "senderToReceiverInfo" "72" ":72:" rfl]

theorem generateMT940Content_eq (fields : List (Str × Str)) :
    generateMT940Content fields =
      joinCRLF (segsLines (segs940 fields)) ++ str "\r\n" := by
  rw [generateMT940Content, segs940]
  simp only [segsLines_append]
  rw [segsLines_optSeg fields "transactionReference" "20" ":20:" rfl,
    segsLines_optSeg fields "accountId" "25" ":25:" rfl,
    segsLines_optSeg fields "statementNumber" "28C" ":28C:" rfl,
    segsLines_optSeg fields "openingBalance" "60F" ":60F:" rfl,
    segsLines_optSeg fields "closingBalance" "62F" ":62F:" rfl,
    segsLines_optSeg fields "closingAvailableBalance" "64" ":64:" rfl,
    segsLines_seg61]

theorem generateMT950Content_eq (fields : List (Str × Str)) :
    generateMT950Content fields =
      joinCRLF (segsLines (segs950 fields)) ++ str "\r\n" := by
  rw [generateMT950Content, segs950]
  simp only [segsLines_append]
  rw [segsLines_optSeg fields "transactionReference" "20" ":20:" rfl,
    segsLines_optSeg fields "accountId" "25" ":25:" rfl,
    segsLines_optSeg fields "statementNumber" "28C" ":28C:" rfl,
    segsLines_optSeg fields "openingBalance" "60F" ":60F:" rfl,
    segsLines_optSeg fields "closingBalance" "62F" ":62F:" rfl,
    segsLines_seg61]

/-- `generateMtMessage` succeeds whenever both BICs validate and the block-4
builder succeeds, emitting the five blocks in order. -/
theorem generateMtMessage_ok (input : MtMessageInput) (b4 : Str)
    (hsv : (validateBic input.senderBic).valid = true)
    (hrv : (validateBic input.receiverBic).valid = true)
    (hb4 : generateBlock4 (stripFirstMT input.messageType) input.fields =
      Except.ok b4) :
    generateMtMessage input = Except.ok
      (generateBlock1
        (normalizeBicTo12 (validateBic input.senderBic).normalized) ++
       generateBlock2 (stripFirstMT input.messageType)
         (normalizeBicTo12 (validateBic input.receiverBic).normalized) ++
       generateBlock3 input.fields ++ b4 ++ generateBlock5) := by
  rw [generateMtMessage, if_neg (by rw [hsv]; simp),
    if_neg (by rw [hrv]; simp), hb4]
  rfl

/-! ## Round-trip machinery: segment well-formedness -/

theorem tagSplit_none_of_safe (l : Str)
    (h : ∀ c ∈ l, safeChar c = true) : tagSplit l = none := by
  cases l with
  | nil => rfl
  | cons c rest =>
    have hc : c ≠ ':' := safeChar_ne c ':' (h c (by simp)) (by decide)
    rcases hsp : tagSplit (c :: rest) with _ | p
    · rfl
    · obtain ⟨t, v⟩ := p
      obtain ⟨r, hr⟩ := tagSplit_head _ t v hsp
      injection hr with h₁ _
      exact absurd h₁ hc

theorem safe_ne_dash (l : Str) (h : ∀ c ∈ l, safeChar c = true) :
    l ≠ ['-'] := by
  rintro rfl
  exact absurd (h '-' (by simp)) (by decide)

theorem splitPipe_no_pipe (s : Str) (h : ∀ c ∈ s, c ≠ '|') :
    splitPipe s = [s] := by
  induction s with
  | nil => rfl
  | cons c rest ih =>
    rw [splitPipe.eq_def]
    split
    · rename_i hEq
      exact absurd hEq (by simp)
    · rename_i hEq
      injection hEq with h₁ _
      exact absurd h₁ (h c (by simp))
    · rename_i c' rest' hEq
      injection hEq with h₁ h₂
      subst h₁
      rw [← h₂, ih (fun d hd => h d (by simp [hd]))]

theorem wf_optSeg (fields : List (Str × Str)) (k : String) (tag : String)
    (htag : str tag ≠ [])
    (hts : ∀ v : Str, (∀ c ∈ v, isTermC c = false) →
      tagSplit (':' :: str tag ++ ':' :: v) = some (str tag, v))
    (htc : ∀ c ∈ str tag, charOk c = true)
    (hsafe : ∀ v, gf fields k = some v → ∀ c ∈ v, safeChar c = true) :
    ∀ s ∈ optSeg fields k tag, wfSeg s := by
  intro s hs
  rcases h : gf fields k with _ | v <;> simp [optSeg, h] at hs
  subst hs
  exact ⟨htag,
    hts v (fun c hc => safeChar_not_term c (hsafe v h c hc)), htc,
    fun c hc => safeChar_charOk c (hsafe v h c hc), by simp⟩

theorem wf_reqSeg (tag v : Str) (htag : tag ≠ [])
    (hts : tagSplit (':' :: tag ++ ':' :: v) = some (tag, v))
    (htc : ∀ c ∈ tag, charOk c = true)
    (hvc : ∀ c ∈ v, charOk c = true) :
    ∀ s ∈ reqSeg tag v, wfSeg s := by
  intro s hs
  simp [reqSeg] at hs
  subst hs
  exact ⟨htag, hts, htc, hvc, by simp⟩

theorem wfSeg_mk (tag first : Str) (conts : List Str) (h₁ : tag ≠ [])
    (h₂ : tagSplit (':' :: tag ++ ':' :: first) = some (tag, first))
    (h₃ : ∀ c ∈ tag, charOk c = true) (h₄ : ∀ c ∈ first, charOk c = true)
    (h₅ : ∀ l ∈ conts,
      tagSplit l = none ∧ l ≠ ['-'] ∧ ∀ c ∈ l, charOk c = true) :
    wfSeg ⟨tag, first, conts⟩ := ⟨h₁, h₂, h₃, h₄, h₅⟩

/-- A two-digit tag line with a terminator-free rest splits back into tag
and value. -/
theorem tagSplit_two (d₁ d₂ : Char) (v : Str)
    (h : (isDigitC d₁ && isDigitC d₂) = true)
    (hv : ∀ c ∈ v, isTermC c = false) :
    tagSplit (':' :: d₁ :: d₂ :: ':' :: v) = some ([d₁, d₂], v) := by
  have hall : v.all (fun c => !isTermC c) = true :=
    List.all_eq_true.mpr (fun c hc => by rw [hv c hc]; rfl)
  simp [tagSplit, h, hall]

/-- A two-digit-plus-letter tag line with a terminator-free rest splits
back into tag and value. -/
theorem tagSplit_three (d₁ d₂ l : Char) (v : Str)
    (h : (isDigitC d₁ && isDigitC d₂) = true) (hl : isUpperAZ l = true)
    (hlc : l ≠ ':') (hv : ∀ c ∈ v, isTermC c = false) :
    tagSplit (':' :: d₁ :: d₂ :: l :: ':' :: v) = some ([d₁, d₂, l], v) := by
  have hall : v.all (fun c => !isTermC c) = true :=
    List.all_eq_true.mpr (fun c hc => by rw [hv c hc]; rfl)
  simp [tagSplit, h, hl, hlc, hall]

theorem wf_seg50K (fields : List (Str × Str))
    (hacc : ∀ v, gf fields "orderingCustomerAccount" = some v →
      ∀ c ∈ v, safeChar c = true)
    (hname : ∀ v, gf fields "orderingCustomerName" = some v →
      ∀ c ∈ v, safeChar c = true) :
    ∀ s ∈ seg50K fields, wfSeg s := by
  intro s hs
  rcases ha : gf fields "orderingCustomerAccount" with _ | a
  · rcases hn : gf fields "orderingCustomerName" with _ | n
    · simp [seg50K, ha, hn] at hs
    · simp [seg50K, ha, hn] at hs
      subst hs
      exact wfSeg_mk _ _ _ (by decide)
        (tagSplit_three '5' '0' 'K' n (by decide) (by decide) (by decide)
          (fun c hc => safeChar_not_term c (hname n hn c hc)))
        (by decide) (fun c hc => safeChar_charOk c (hname n hn c hc))
        (by simp)
  · rcases hn : gf fields "orderingCustomerName" with _ | n
    · simp [seg50K, ha, hn] at hs
      subst hs
      refine wfSeg_mk _ _ _ (by decide)
        (tagSplit_three '5' '0' 'K' ('/' :: a) (by decide) (by decide)
          (by decide) (fun c hc => by
            rcases List.mem_cons.mp hc with rfl | hc
            · decide
            · exact safeChar_not_term c (hacc a ha c hc)))
        (by decide) ?_ ?_
      · intro c hc
        rcases List.mem_cons.mp hc with rfl | hc
        · decide
        · exact safeChar_charOk c (hacc a ha c hc)
      · intro l hl
        rcases List.mem_singleton.mp hl with rfl
        exact ⟨rfl, by simp, by simp⟩
    · simp [seg50K, ha, hn] at hs
      subst hs
      refine wfSeg_mk _ _ _ (by decide)
        (tagSplit_three '5' '0' 'K' ('/' :: a) (by decide) (by decide)
          (by decide) (fun c hc => by
            rcases List.mem_cons.mp hc with rfl | hc
            · decide
            · exact safeChar_not_term c (hacc a ha c hc)))
        (by decide) ?_ ?_
      · intro c hc
        rcases List.mem_cons.mp hc with rfl | hc
        · decide
        · exact safeChar_charOk c (hacc a ha c hc)
      · intro l hl
        rw [List.mem_singleton.mp hl]
        exact ⟨tagSplit_none_of_safe n (hname n hn),
          safe_ne_dash n (hname n hn),
          fun c hc => safeChar_charOk c (hname n hn c hc)⟩

theorem wf_seg59 (fields : List (Str × Str))
    (hacc : ∀ v, gf fields "beneficiaryAccount" = some v →
      ∀ c ∈ v, safeChar c = true)
    (hname : ∀ v, gf fields "beneficiaryName" = some v →
      ∀ c ∈ v, safeChar c = true) :
    ∀ s ∈ seg59 fields, wfSeg s := by
  intro s hs
  rcases ha : gf fields "beneficiaryAccount" with _ | a
  · rcases hn : gf fields "beneficiaryName" with _ | n
    · simp [seg59, ha, hn] at hs
    · simp [seg59, ha, hn] at hs
      subst hs
      exact wfSeg_mk _ _ _ (by decide)
        (tagSplit_two '5' '9' n (by decide)
          (fun c hc => safeChar_not_term c (hname n hn c hc))) (by decide)
        (fun c hc => safeChar_charOk c (hname n hn c hc)) (by simp)
  · rcases hn : gf fields "beneficiaryName" with _ | n
    · simp [seg59, ha, hn] at hs
      subst hs
      refine wfSeg_mk _ _ _ (by decide)
        (tagSplit_two '5' '9' ('/' :: a) (by decide) (fun c hc => by
            rcases List.mem_cons.mp hc with rfl | hc
            · decide
            · exact safeChar_not_term c (hacc a ha c hc)))
        (by decide) ?_ ?_
      · intro c hc
        rcases List.mem_cons.mp hc with rfl | hc
        · decide
        · exact safeChar_charOk c (hacc a ha c hc)
      · intro l hl
        rcases List.mem_singleton.mp hl with rfl
        exact ⟨rfl, by simp, by simp⟩
    · simp [seg59, ha, hn] at hs
      subst hs
      refine wfSeg_mk _ _ _ (by decide)
        (tagSplit_two '5' '9' ('/' :: a) (by decide) (fun c hc => by
            rcases List.mem_cons.mp hc with rfl | hc
            · decide
            · exact safeChar_not_term c (hacc a ha c hc)))
        (by decide) ?_ ?_
      · intro c hc
        rcases List.mem_cons.mp hc with rfl | hc
        · decide
        · exact safeChar_charOk c (hacc a ha c hc)
      · intro l hl
        rw [List.mem_singleton.mp hl]
        exact ⟨tagSplit_none_of_safe n (hname n hn),
          safe_ne_dash n (hname n hn),
          fun c hc => safeChar_charOk c (hname n hn c hc)⟩

theorem seg61_shape (fields : List (Str × Str))
    (hsafe : ∀ v, gf fields "statementLines" = some v →
      ∀ c ∈ v, safeChar c = true) :
    seg61 fields = [] ∨
      ∃ v, gf fields "statementLines" = some v ∧
        seg61 fields = [⟨str "61", v, []⟩] ∧
        ∀ c ∈ v, safeChar c = true := by
  rcases h : gf fields "statementLines" with _ | v
  · left
    simp [seg61, h]
  · right
    refine ⟨v, rfl, ?_, hsafe v h⟩
    rw [seg61, h]
    simp only []
    rw [splitPipe_no_pipe v
      (fun c hc => safeChar_ne c '|' (hsafe v h c hc) (by decide))]
    rfl

theorem wf_seg61 (fields : List (Str × Str))
    (hsafe : ∀ v, gf fields "statementLines" = some v →
      ∀ c ∈ v, safeChar c = true) :
    ∀ s ∈ seg61 fields, wfSeg s := by
  intro s hs
  rcases seg61_shape fields hsafe with h | ⟨v, hv, h, hvs⟩ <;> rw [h] at hs
  · simp at hs
  · rcases List.mem_singleton.mp hs with rfl
    exact wfSeg_mk _ _ _ (by decide)
      (tagSplit_two '6' '1' v (by decide)
        (fun c hc => safeChar_not_term c (hvs c hc))) (by decide)
      (fun c hc => safeChar_charOk c (hvs c hc)) (by simp)

/-! ## Round-trip machinery: segment tags and values -/

theorem optSeg_tags (fields : List (Str × Str)) (k : String) (tag : String) :
    ∀ s ∈ optSeg fields k tag, s.tag = str tag := by
  intro s hs
  rcases h : gf fields k with _ | v <;> simp [optSeg, h] at hs
  subst hs
  rfl

theorem reqSeg_tags (tag v : Str) : ∀ s ∈ reqSeg tag v, s.tag = tag := by
  intro s hs
  simp [reqSeg] at hs
  subst hs
  rfl

theorem seg32A_tags (fields : List (Str × Str)) :
    ∀ s ∈ seg32A fields, s.tag = str "32A" := by
  intro s hs
  rcases hd : gf fields "valueDate" with _ | d <;>
    rcases hc : gf fields "currency" with _ | c <;>
      rcases ha : gf fields "amount" with _ | a <;>
        simp [seg32A, hd, hc, ha] at hs <;> simp [hs]

theorem seg33B_tags (fields : List (Str × Str)) :
    ∀ s ∈ seg33B fields, s.tag = str "33B" := by
  intro s hs
  rcases hc : gf fields "instructedCurrency" with _ | c <;>
    rcases ha : gf fields "instructedAmount" with _ | a <;>
      simp [seg33B, hc, ha] at hs <;> simp [hs]

theorem seg50K_tags (fields : List (Str × Str)) :
    ∀ s ∈ seg50K fields, s.tag = str "50K" := by
  intro s hs
  rcases ha : gf fields "orderingCustomerAccount" with _ | a <;>
    rcases hn : gf fields "orderingCustomerName" with _ | n <;>
      simp [seg50K, ha, hn] at hs <;> simp [hs]

theorem seg59_tags (fields : List (Str × Str)) :
    ∀ s ∈ seg59 fields, s.tag = str "59" := by
  intro s hs
  rcases ha : gf fields "beneficiaryAccount" with _ | a <;>
    rcases hn : gf fields "beneficiaryName" with _ | n <;>
      simp [seg59, ha, hn] at hs <;> simp [hs]

theorem seg61_tags (fields : List (Str × Str)) :
    ∀ s ∈ seg61 fields, s.tag = str "61" := by
  intro s hs
  rcases h : gf fields "statementLines" with _ | v <;>
    simp [seg61, h] at hs
  obtain ⟨l, _, hl⟩ := hs
  rw [← hl]

theorem segVal_single (t v : Str) (hv : v ≠ []) :
    segVal ⟨t, v, []⟩ = FieldVal.scalar v := by
  simp [segVal, mkVal, hv, joinNL, joinWith]

theorem segVal_two (t v c : Str) (hv : v ≠ []) :
    segVal ⟨t, v, [c]⟩ = FieldVal.seq [v, c] := by
  simp [segVal, mkVal, hv]

theorem lookup_skip_chunk (chunk : List GSeg)
    (B : List (Str × FieldVal)) (k : Str)
    (h : ∀ s ∈ chunk, s.tag ≠ k) :
    lookupKey (chunk.map segEntry ++ B) k = lookupKey B k := by
  apply lookupKey_chunk_skip
  intro e he
  obtain ⟨s, hs, rfl⟩ := List.mem_map.mp he
  exact h s hs

/-! ## Round-trip machinery: the generated message block structure -/

theorem obr_eq : obr = '{' := rfl

theorem cbr_eq : cbr = '}' := rfl

theorem no_brace_of_upperOrDigit (c : Char) (h : isUpperOrDigit c = true) :
    c ≠ '{' ∧ c ≠ '}' :=
  ⟨safeChar_ne c '{' (upperOrDigit_safe c h) (by decide),
   safeChar_ne c '}' (upperOrDigit_safe c h) (by decide)⟩

theorem blocksShape_block1 (S : Str)
    (hS : ∀ c ∈ S, isUpperOrDigit c = true) (rest : Str)
    (bs : List (Nat × Str)) (hrest : BlocksShape rest bs) :
    BlocksShape (generateBlock1 S ++ rest)
      ((1, str "F01" ++ S ++ str "0000" ++ str "000000") :: bs) := by
  have h1 : str "1:F01" = '1' :: ':' :: str "F01" := rfl
  have hshape : generateBlock1 S ++ rest =
      '{' :: '1' :: ':' ::
        ((str "F01" ++ S ++ str "0000" ++ str "000000") ++ '}' :: rest) := by
    simp [generateBlock1, obr_eq, cbr_eq, h1, List.append_assoc]
  rw [hshape]
  exact BlocksShape.cons '1' _ rest bs (by decide)
    (blockContent_of_chars _ (by
      intro c hc
      simp only [List.mem_append] at hc
      rcases hc with ((hc | hc) | hc) | hc
      · revert hc c
        decide
      · exact no_brace_of_upperOrDigit c (hS c hc)
      · revert hc c
        decide
      · revert hc c
        decide)) hrest

theorem blocksShape_block2 (t3 R : Str)
    (h3 : ∀ c ∈ t3, isDigitC c = true)
    (hR : ∀ c ∈ R, isUpperOrDigit c = true) (rest : Str)
    (bs : List (Nat × Str)) (hrest : BlocksShape rest bs) :
    BlocksShape (generateBlock2 t3 R ++ rest)
      ((2, 'I' :: (t3 ++ (R ++ str "N"))) :: bs) := by
  have h2 : str "2:I" = '2' :: ':' :: str "I" := rfl
  have hshape : generateBlock2 t3 R ++ rest =
      '{' :: '2' :: ':' ::
        (('I' :: (t3 ++ (R ++ str "N"))) ++ '}' :: rest) := by
    simp [generateBlock2, obr_eq, cbr_eq, h2, List.append_assoc]
    rfl
  rw [hshape]
  exact BlocksShape.cons '2' _ rest bs (by decide)
    (blockContent_of_chars _ (by
      intro c hc
      simp only [List.mem_cons, List.mem_append] at hc
      rcases hc with rfl | hc | hc | hc
      · decide
      · exact no_brace_of_upperOrDigit c
          (by rw [isUpperOrDigit, h3 c hc, Bool.or_true])
      · exact no_brace_of_upperOrDigit c (hR c hc)
      · revert hc c
        decide)) hrest

theorem blocksShape_block4 (content : Str)
    (hc : ∀ c ∈ content, c ≠ '{' ∧ c ≠ '}') (rest : Str)
    (bs : List (Nat × Str)) (hrest : BlocksShape rest bs) :
    BlocksShape ((obr :: str "4:\r\n" ++ content ++ str "-" ++ [cbr]) ++ rest)
      ((4, '\r' :: '\n' :: (content ++ str "-")) :: bs) := by
  have h4 : str "4:\r\n" = '4' :: ':' :: str "\r\n" := rfl
  have hshape : (obr :: str "4:\r\n" ++ content ++ str "-" ++ [cbr]) ++ rest =
      '{' :: '4' :: ':' ::
        (('\r' :: '\n' :: (content ++ str "-")) ++ '}' :: rest) := by
    simp [obr_eq, cbr_eq, h4, List.append_assoc]
    rfl
  rw [hshape]
  exact BlocksShape.cons '4' _ rest bs (by decide)
    (blockContent_of_chars _ (by
      intro c hcm
      simp only [List.mem_cons, List.mem_append] at hcm
      rcases hcm with rfl | rfl | hcm | hcm
      · decide
      · decide
      · exact hc c hcm
      · revert hcm c
        decide)) hrest

theorem blocksShape_block5 :
    BlocksShape generateBlock5 [(5, [])] := by
  have hshape : generateBlock5 = '{' :: '5' :: ':' :: (([] : Str) ++ '}' :: []) := rfl
  rw [hshape]
  exact BlocksShape.cons '5' [] [] [] (by decide) .nil .nil

theorem blocksShape_block3 (fields : List (Str × Str))
    (hu : ∀ v, gf fields "uetr" = some v → ∀ c ∈ v, c ≠ '{' ∧ c ≠ '}')
    (hm : ∀ v, gf fields "mur" = some v → ∀ c ∈ v, c ≠ '{' ∧ c ≠ '}') :
    ∃ bs3, (∀ p ∈ bs3, p.1 = 3) ∧
      ∀ (rest : Str) (bs : List (Nat × Str)), BlocksShape rest bs →
        BlocksShape (generateBlock3 fields ++ rest) (bs3 ++ bs) := by
  rcases hgu : gf fields "uetr" with _ | u <;>
    rcases hgm : gf fields "mur" with _ | m
  · refine ⟨[], by simp, ?_⟩
    intro rest bs hrest
    simpa [generateBlock3, hgu, hgm] using hrest
  · refine ⟨[(3, '{' :: (str "108:" ++ m) ++ '}' :: [])], by simp, ?_⟩
    intro rest bs hrest
    have hshape : generateBlock3 fields ++ rest =
        '{' :: '3' :: ':' ::
          (('{' :: (str "108:" ++ m) ++ '}' :: []) ++ '}' :: rest) := by
      simp [generateBlock3, hgu, hgm, obr_eq, cbr_eq, joinWith,
        List.append_assoc]
      rfl
    rw [hshape]
    refine BlocksShape.cons '3' _ rest bs (by decide) ?_ hrest
    exact BlockContent.grp _ [] (by
      intro ch hch
      simp only [List.mem_append] at hch
      rcases hch with hch | hch
      · revert hch ch
        decide
      · exact hm m hgm ch hch) .nil
  · refine ⟨[(3, '{' :: (str "121:" ++ u) ++ '}' :: [])], by simp, ?_⟩
    intro rest bs hrest
    have hshape : generateBlock3 fields ++ rest =
        '{' :: '3' :: ':' ::
          (('{' :: (str "121:" ++ u) ++ '}' :: []) ++ '}' :: rest) := by
      simp [generateBlock3, hgu, hgm, obr_eq, cbr_eq, joinWith,
        List.append_assoc]
      rfl
    rw [hshape]
    refine BlocksShape.cons '3' _ rest bs (by decide) ?_ hrest
    exact BlockContent.grp _ [] (by
      intro ch hch
      simp only [List.mem_append] at hch
      rcases hch with hch | hch
      · revert hch ch
        decide
      · exact hu u hgu ch hch) .nil
  · refine ⟨[(3, '{' :: (str "121:" ++ u) ++ '}' ::
        ('{' :: (str "108:" ++ m) ++ '}' :: []))], by simp, ?_⟩
    intro rest bs hrest
    have hshape : generateBlock3 fields ++ rest =
        '{' :: '3' :: ':' ::
          (('{' :: (str "121:" ++ u) ++ '}' ::
            ('{' :: (str "108:" ++ m) ++ '}' :: [])) ++ '}' :: rest) := by
      simp [generateBlock3, hgu, hgm, obr_eq, cbr_eq, joinWith,
        List.append_assoc]
      rfl
    rw [hshape]
    refine BlocksShape.cons '3' _ rest bs (by decide) ?_ hrest
    refine BlockContent.grp _ _ (by
      intro ch hch
      simp only [List.mem_append] at hch
      rcases hch with hch | hch
      · revert hch ch
        decide
      · exact hu u hgu ch hch) ?_
    exact BlockContent.grp _ [] (by
      intro ch hch
      simp only [List.mem_append] at hch
      rcases hch with hch | hch
      · revert hch ch
        decide
      · exact hm m hgm ch hch) .nil

/-! ## Round-trip machinery: decoding the generated message -/

theorem getLast?_append_right (a b : Str) (h : b ≠ []) :
    (a ++ b).getLast? = b.getLast? := by
  rw [← head?_reverse_eq, ← head?_reverse_eq, List.reverse_append,
    List.head?_append_of_ne_nil _ (by simpa using h)]

theorem splitLines_joinCRLF (lines : List Str) (tail : Str)
    (hne : lines ≠ [])
    (hrn : ∀ l ∈ lines, ∀ c ∈ l, isRN c = false) :
    splitLines (joinCRLF lines ++ '\r' :: '\n' :: tail) =
      lines ++ splitLines tail := by
  induction lines with
  | nil => exact absurd rfl hne
  | cons l ls ih =>
    cases ls with
    | nil =>
      simpa [joinCRLF, joinWith] using
        splitLines_append_crlf l tail (hrn l (by simp))
    | cons l₂ ls₂ =>
      rw [joinCRLF, joinWith_cons _ _ _ (by simp)]
      have hrn2 : str "\r\n" = ['\r', '\n'] := rfl
      have hsh : (l ++ str "\r\n" ++ joinWith (str "\r\n") (l₂ :: ls₂)) ++
          '\r' :: '\n' :: tail =
          l ++ '\r' :: '\n' ::
            (joinWith (str "\r\n") (l₂ :: ls₂) ++ '\r' :: '\n' :: tail) := by
        simp [hrn2, List.append_assoc]
      rw [hsh, splitLines_append_crlf l _ (hrn l (by simp))]
      rw [joinCRLF] at ih
      rw [ih (by simp) (fun x hx => hrn x (by simp [hx]))]
      simp

/-- Decoding the input-variant application header of a generated message. -/
theorem appHeader_I (t3 R : Str) (hlen : t3.length = 3) :
    (parseApplicationHeader ('I' :: (t3 ++ R))).messageType =
      str "MT" ++ t3 := by
  have hslice : jsSlice ('I' :: (t3 ++ R)) 1 4 = t3 := by
    rw [jsSlice]
    have h1 : List.drop 1 ('I' :: (t3 ++ R)) = t3 ++ R := rfl
    rw [h1, show 4 - 1 = t3.length from by omega,
      List.take_append_of_le_length (by omega), List.take_length]
  have hio : jsSlice ('I' :: (t3 ++ R)) 0 1 = str "I" := rfl
  rw [parseApplicationHeader, if_neg (by simp)]
  simp only [hio, hslice]
  simp

theorem getBlock_gen_two (c₁ c₂ c₄ : Str) (bs3 : List (Nat × Str))
    (h3 : ∀ p ∈ bs3, p.1 = 3) :
    getBlock ((1, c₁) :: (2, c₂) :: (bs3 ++ [(4, c₄), (5, [])])) 2 =
      some c₂ := by
  have h45 : getBlock [(4, c₄), (5, ([] : Str))] 2 = none := by
    simp [getBlock]
  have h3' : getBlock (bs3 ++ [(4, c₄), (5, [])]) 2 = none := by
    rw [getBlock_append, h45]
    exact getBlock_none_of bs3 2 (fun p hp => by rw [h3 p hp]; decide)
  simp [getBlock, h3']

theorem getBlock_gen_four (c₁ c₂ c₄ : Str) (bs3 : List (Nat × Str))
    (h3 : ∀ p ∈ bs3, p.1 = 3) :
    getBlock ((1, c₁) :: (2, c₂) :: (bs3 ++ [(4, c₄), (5, [])])) 4 =
      some c₄ := by
  have h45 : getBlock [(4, c₄), (5, ([] : Str))] 4 = some c₄ := by
    simp [getBlock]
  have h3' : getBlock (bs3 ++ [(4, c₄), (5, [])]) 4 = some c₄ := by
    rw [getBlock_append, h45]
  simp [getBlock, h3']

/-- The tokenizer on the exact block-4 content a generator emits. -/
theorem parseTextBlock_generated (segs : List GSeg)
    (hwf : ∀ s ∈ segs, wfSeg s) (s₀ : GSeg) (rest : List GSeg)
    (hsegs : segs = s₀ :: rest) :
    parseTextBlock ('\r' :: '\n' ::
      ((joinCRLF (segsLines segs) ++ str "\r\n") ++ str "-")) =
      segs.foldl (fun m s => setKey m s.tag (segVal s)) [] := by
  have hchars := segsLines_chars segs hwf
  have hnoRN : ∀ l ∈ segsLines segs, ∀ c ∈ l, isRN c = false :=
    fun l hl c hc => charOk_not_rn c (hchars l hl c hc)
  have hL : segsLines segs =
      (':' :: s₀.tag ++ ':' :: s₀.first) :: (s₀.conts ++ segsLines rest) := by
    rw [hsegs]
    rfl
  have hjoin_ne : joinCRLF (segsLines segs) ≠ [] := by
    rw [hL]
    rcases hc : s₀.conts ++ segsLines rest with _ | ⟨l₂, ls⟩
    · simp [joinCRLF, joinWith]
    · rw [joinCRLF, joinWith_cons _ _ _ (by simp)]
      simp
  have hhead : (joinCRLF (segsLines segs)).head? = some ':' := by
    rw [hL]
    rcases hc : s₀.conts ++ segsLines rest with _ | ⟨l₂, ls⟩
    · simp [joinCRLF, joinWith]
    · rw [joinCRLF, joinWith_cons _ _ _ (by simp)]
      simp
  have hX : (joinCRLF (segsLines segs) ++ str "\r\n") ++ str "-" =
      joinCRLF (segsLines segs) ++ '\r' :: '\n' :: ['-'] := by
    have h1 : str "\r\n" = ['\r', '\n'] := rfl
    have h2 : str "-" = ['-'] := rfl
    simp [h1, h2, List.append_assoc]
  rw [hX, parseTextBlock]
  have hstrip : stripRN ('\r' :: '\n' ::
      (joinCRLF (segsLines segs) ++ '\r' :: '\n' :: ['-'])) =
      joinCRLF (segsLines segs) ++ '\r' :: '\n' :: ['-'] := by
    have hlead : List.dropWhile isRN
        (joinCRLF (segsLines segs) ++ ['\r', '\n', '-']) =
        joinCRLF (segsLines segs) ++ ['\r', '\n', '-'] :=
      dropWhile_eq_self_of_head _ _ (fun c hc => by
        rw [List.head?_append_of_ne_nil _ hjoin_ne, hhead] at hc
        injection hc with hc
        subst hc
        decide)
    have htrail : List.dropWhile isRN
        (joinCRLF (segsLines segs) ++ ['\r', '\n', '-']).reverse =
        (joinCRLF (segsLines segs) ++ ['\r', '\n', '-']).reverse :=
      dropWhile_eq_self_of_head _ _ (fun c hc => by
        rw [head?_reverse_eq, getLast?_append_right _ _ (by simp)] at hc
        have hcd : '-' = c := by
          simpa using hc
        subst hcd
        decide)
    rw [stripRN, List.dropWhile_cons_of_pos (by decide),
      List.dropWhile_cons_of_pos (by decide), hlead, htrail,
      List.reverse_reverse]
  rw [hstrip,
    splitLines_joinCRLF (segsLines segs) ['-'] (by rw [hL]; simp) hnoRN,
    show splitLines ['-'] = [['-']] from rfl,
    ptbLoop_segs segs hwf]
  rfl

/-! ## Round-trip machinery: validator-side facts -/

theorem head?_concat5 (a b c d e : Str) (ha : a ≠ []) :
    (a ++ b ++ c ++ d ++ e).head? = a.head? := by
  rw [List.head?_append_of_ne_nil _
      (append_ne_nil_left _ _ (append_ne_nil_left _ _
        (append_ne_nil_left _ _ ha))),
    List.head?_append_of_ne_nil _
      (append_ne_nil_left _ _ (append_ne_nil_left _ _ ha)),
    List.head?_append_of_ne_nil _ (append_ne_nil_left _ _ ha),
    List.head?_append_of_ne_nil _ ha]

theorem bic_chars_of_valid (b : Str) (h : (validateBic b).valid = true) :
    ∀ c ∈ normalizeBicTo12 (validateBic b).normalized,
      isUpperOrDigit c = true := by
  obtain ⟨heq, _, hpat⟩ := validateBic_valid_shape b h
  rw [heq]
  exact normalizeBicTo12_chars _ (bicPattern_chars _ hpat)

theorem mandatoryErrors_nil_of (sf : List MtFieldSpec)
    (tb : List (Str × FieldVal))
    (h : ∀ f ∈ sf, f.mandatory = true →
      isMissing (lookupKey tb f.tag) = false) :
    mandatoryErrors sf tb = [] := by
  induction sf with
  | nil => rfl
  | cons f rest ih =>
    simp only [mandatoryErrors]
    rw [ih (fun g hg => h g (by simp [hg]))]
    cases hm : f.mandatory
    · simp
    · simp [hm, h f (by simp) hm]

/-- The per-entry condition under which the format loop emits no error for
that entry. -/
def fmtOk (sf : List MtFieldSpec) (tv : Str × FieldVal) : Prop :=
  match findFieldSpec sf tv.1 with
  | some f =>
    match f.maxLength with
    | some m => ¬(0 < m ∧ m < (joinVal tv.2).length)
    | none => True
  | none => True

theorem formatChecks_fst_nil (sf : List MtFieldSpec)
    (tb : List (Str × FieldVal)) (h : ∀ tv ∈ tb, fmtOk sf tv) :
    (formatChecks sf tb).1 = [] := by
  induction tb with
  | nil => rfl
  | cons tv rest ih =>
    obtain ⟨tag, v⟩ := tv
    have hh := h (tag, v) (by simp)
    have ih' := ih (fun x hx => h x (by simp [hx]))
    simp only [formatChecks]
    rcases hfs : findFieldSpec sf tag with _ | f
    · simpa [hfs] using ih'
    · simp only [fmtOk, hfs] at hh
      rcases hml : f.maxLength with _ | m
      · simpa [hfs, hml] using ih'
      · rw [hml] at hh
        simp only [hfs, hml]
        rw [if_neg hh]
        exact ih'

theorem valid32A_concat (d c a : Str) (hd6 : d.length = 6)
    (hdd : ∀ x ∈ d, isDigitC x = true) (hc3 : c.length = 3)
    (hcu : ∀ x ∈ c, isUpperAZ x = true) (ha : a ≠ [])
    (had : ∀ x ∈ a, isDigitC x = true) :
    valid32A (d ++ c ++ (a ++ str ",00")) = true := by
  have h1 : List.take 6 ((d ++ c) ++ (a ++ str ",00")) = d := by
    rw [List.append_assoc, ← hd6,
      List.take_append_of_le_length (by omega), List.take_length]
  have h2 : List.drop 6 ((d ++ c) ++ (a ++ str ",00")) =
      c ++ (a ++ str ",00") := by
    rw [List.append_assoc, ← hd6, List.drop_left]
  have h3 : List.take 3 (c ++ (a ++ str ",00")) = c := by
    rw [← hc3, List.take_append_of_le_length (by omega), List.take_length]
  have h4 : List.drop 9 ((d ++ c) ++ (a ++ str ",00")) = a ++ str ",00" := by
    rw [show (9 : Nat) = (d ++ c).length from by
      simp [List.length_append, hd6, hc3], List.drop_left]
  have hlen : 1 ≤ a.length := List.length_pos_of_ne_nil ha
  rw [valid32A, h1, h2, h3, h4]
  simp only [Bool.and_eq_true, decide_eq_true_eq, List.all_eq_true]
  refine ⟨⟨⟨?_, fun x hx => hdd x hx⟩, fun x hx => hcu x hx⟩, ?_⟩
  · simp only [List.length_append, hd6, hc3]
    have h00 : (str ",00").length = 3 := rfl
    omega
  · intro x hx
    rcases List.mem_append.mp hx with hx' | hx'
    · rw [had x hx', Bool.true_or]
    · clear hx
      revert hx' x
      decide

theorem truthy_scalar (s : Str) (h : s ≠ []) :
    truthy (some (FieldVal.scalar s)) = true := by
  simp [truthy, h]

theorem isMissing_scalar (s : Str) (h : s ≠ []) :
    isMissing (some (FieldVal.scalar s)) = false := by
  simp [isMissing, h]

theorem truthy_seq (l : List Str) :
    truthy (some (FieldVal.seq l)) = true := rfl

theorem isMissing_seq (l : List Str) (h : l ≠ []) :
    isMissing (some (FieldVal.seq l)) = false := by
  simp [isMissing, h]

theorem checkBalanceTag_of_scalar (tb : List (Str × FieldVal)) (tag v : Str)
    (h : lookupKey tb tag = some (FieldVal.scalar v)) :
    ∃ w, checkBalanceTag tb tag = Except.ok w := by
  simp only [checkBalanceTag, h]
  by_cases hv : v = []
  · subst hv
    simp [truthy]
  · rw [truthy_scalar v hv]
    simp [headOfField]

theorem checkBalanceTag_of_none (tb : List (Str × FieldVal)) (tag : Str)
    (h : lookupKey tb tag = none) :
    checkBalanceTag tb tag = Except.ok [] := by
  simp [checkBalanceTag, h, truthy]

theorem checkBalances_ok_of (tb : List (Str × FieldVal)) (tags : List Str)
    (h : ∀ t ∈ tags, ∃ w, checkBalanceTag tb t = Except.ok w) :
    ∃ ws, checkBalances tb tags = Except.ok ws := by
  induction tags with
  | nil => exact ⟨[], rfl⟩
  | cons t rest ih =>
    obtain ⟨w, hw⟩ := h t (by simp)
    obtain ⟨ws, hws⟩ := ih (fun x hx => h x (by simp [hx]))
    refine ⟨w ++ ws, ?_⟩
    simp [checkBalances, hw, hws, Except.map]

/-! ## Round-trip machinery: well-formed generation inputs -/

def safeB (v : Str) : Bool := v.all safeChar

/-- An optional field is either absent or filled with safe characters. -/
def goodOptB (fields : List (Str × Str)) (k : String) : Bool :=
  match gf fields k with
  | some v => safeB v
  | none => true

/-- An optional field, additionally bounded in length. -/
def goodOptLeB (fields : List (Str × Str)) (k : String) (n : Nat) : Bool :=
  match gf fields k with
  | some v => safeB v && decide (v.length ≤ n)
  | none => true

/-- A required, bounded, safe field. -/
def reqLeB (fields : List (Str × Str)) (k : String) (n : Nat) : Bool :=
  match gf fields k with
  | some v => safeB v && decide (v.length ≤ n)
  | none => false

/-- A required, safe field. -/
def reqB (fields : List (Str × Str)) (k : String) : Bool :=
  match gf fields k with
  | some v => safeB v
  | none => false

/-- An optional enumerated field drawn from a code table. -/
def memOptB (fields : List (Str × Str)) (k : String) (codes : List Str) :
    Bool :=
  match gf fields k with
  | some v => decide (v ∈ codes)
  | none => true

/-- An optional amount in canonical integer form. -/
def amtOptB (fields : List (Str × Str)) (k : String) : Bool :=
  match gf fields k with
  | some v => canonicalIntStr v
  | none => true

/-- The required six-digit value date. -/
def dateReqB (fields : List (Str × Str)) : Bool :=
  match gf fields "valueDate" with
  | some v => v.all isDigitC && decide (v.length = 6)
  | none => false

/-- The required three-letter currency. -/
def curReqB (fields : List (Str × Str)) : Bool :=
  match gf fields "currency" with
  | some v => v.all isUpperAZ && decide (v.length = 3)
  | none => false

/-- The required canonical amount. -/
def amtReqB (fields : List (Str × Str)) : Bool :=
  match gf fields "amount" with
  | some v => canonicalIntStr v
  | none => false

/-- An optional brace-free block-3 field (UETR / MUR). -/
def noBraceB (fields : List (Str × Str)) (k : String) : Bool :=
  match gf fields k with
  | some v => v.all (fun c => decide (c ≠ obr) && decide (c ≠ cbr))
  | none => true

theorem goodOptB_elim (fields : List (Str × Str)) (k : String)
    (h : goodOptB fields k = true) :
    ∀ v, gf fields k = some v → ∀ c ∈ v, safeChar c = true := by
  intro v hv
  rw [goodOptB, hv] at h
  exact fun c hc => List.all_eq_true.mp h c hc

theorem goodOptLeB_elim (fields : List (Str × Str)) (k : String) (n : Nat)
    (h : goodOptLeB fields k n = true) :
    ∀ v, gf fields k = some v →
      (∀ c ∈ v, safeChar c = true) ∧ v.length ≤ n := by
  intro v hv
  rw [goodOptLeB, hv, Bool.and_eq_true] at h
  exact ⟨fun c hc => List.all_eq_true.mp h.1 c hc,
    by have := h.2; simpa using this⟩

theorem reqLeB_elim (fields : List (Str × Str)) (k : String) (n : Nat)
    (h : reqLeB fields k n = true) :
    ∃ v, gf fields k = some v ∧ (∀ c ∈ v, safeChar c = true) ∧
      v.length ≤ n := by
  rcases hv : gf fields k with _ | v <;> rw [reqLeB, hv] at h
  · exact absurd h (by simp)
  · rw [Bool.and_eq_true] at h
    exact ⟨v, rfl, fun c hc => List.all_eq_true.mp h.1 c hc,
      by have := h.2; simpa using this⟩

theorem reqB_elim (fields : List (Str × Str)) (k : String)
    (h : reqB fields k = true) :
    ∃ v, gf fields k = some v ∧ ∀ c ∈ v, safeChar c = true := by
  rcases hv : gf fields k with _ | v <;> rw [reqB, hv] at h
  · exact absurd h (by simp)
  · exact ⟨v, rfl, fun c hc => List.all_eq_true.mp h c hc⟩

theorem memOptB_elim (fields : List (Str × Str)) (k : String)
    (codes : List Str) (d : Str) (hd : d ∈ codes)
    (h : memOptB fields k codes = true) :
    (gf fields k).getD d ∈ codes := by
  rcases hv : gf fields k with _ | v <;> rw [memOptB, hv] at h
  · simpa using hd
  · simpa using h

theorem amtOptB_elim (fields : List (Str × Str)) (k : String)
    (h : amtOptB fields k = true) :
    ∀ v, gf fields k = some v → canonicalIntStr v = true := by
  intro v hv
  rwa [amtOptB, hv] at h

theorem dateReqB_elim (fields : List (Str × Str))
    (h : dateReqB fields = true) :
    ∃ v, gf fields "valueDate" = some v ∧ (∀ c ∈ v, isDigitC c = true) ∧
      v.length = 6 := by
  rcases hv : gf fields "valueDate" with _ | v <;> rw [dateReqB, hv] at h
  · exact absurd h (by simp)
  · rw [Bool.and_eq_true] at h
    exact ⟨v, rfl, fun c hc => List.all_eq_true.mp h.1 c hc,
      by have := h.2; simpa using this⟩

theorem curReqB_elim (fields : List (Str × Str))
    (h : curReqB fields = true) :
    ∃ v, gf fields "currency" = some v ∧ (∀ c ∈ v, isUpperAZ c = true) ∧
      v.length = 3 := by
  rcases hv : gf fields "currency" with _ | v <;> rw [curReqB, hv] at h
  · exact absurd h (by simp)
  · rw [Bool.and_eq_true] at h
    exact ⟨v, rfl, fun c hc => List.all_eq_true.mp h.1 c hc,
      by have := h.2; simpa using this⟩

theorem amtReqB_elim (fields : List (Str × Str))
    (h : amtReqB fields = true) :
    ∃ v, gf fields "amount" = some v ∧ canonicalIntStr v = true := by
  rcases hv : gf fields "amount" with _ | v <;> rw [amtReqB, hv] at h
  · exact absurd h (by simp)
  · exact ⟨v, rfl, h⟩

theorem noBraceB_elim (fields : List (Str × Str)) (k : String)
    (h : noBraceB fields k = true) :
    ∀ v, gf fields k = some v → ∀ c ∈ v, c ≠ '{' ∧ c ≠ '}' := by
  intro v hv c hc
  rw [noBraceB, hv] at h
  have := List.all_eq_true.mp h c hc
  rw [Bool.and_eq_true, decide_eq_true_eq, decide_eq_true_eq] at this
  rw [obr_eq, cbr_eq] at this
  exact this

/-! ## Round-trip machinery: the full decode of a generated message -/

theorem joinCRLF_chars (ls : List Str)
    (h : ∀ l ∈ ls, ∀ c ∈ l, charOk c = true) :
    ∀ c ∈ joinCRLF ls, c ≠ '{' ∧ c ≠ '}' := by
  induction ls with
  | nil =>
    intro c hc
    simp [joinCRLF, joinWith] at hc
  | cons l rest ih =>
    intro c hc
    cases rest with
    | nil =>
      exact charOk_no_brace c
        (h l (by simp) c (by simpa [joinCRLF, joinWith] using hc))
    | cons l₂ ls₂ =>
      rw [joinCRLF, joinWith_cons _ _ _ (by simp)] at hc
      rcases List.mem_append.mp hc with hc' | hc'
      · rcases List.mem_append.mp hc' with hc'' | hc''
        · exact charOk_no_brace c (h l (by simp) c hc'')
        · clear hc hc'
          revert hc'' c
          decide
      · exact ih (fun x hx => h x (by simp [hx])) c hc'

/-- Decoding the five generated blocks: the message type comes back from
block 2 and the text block is the segment fold from block 4. -/
theorem parse_generated_msg (S R t3 : Str) (fields : List (Str × Str))
    (segs : List GSeg)
    (hS : ∀ c ∈ S, isUpperOrDigit c = true)
    (hR : ∀ c ∈ R, isUpperOrDigit c = true)
    (h3 : ∀ c ∈ t3, isDigitC c = true) (hlen : t3.length = 3)
    (hwf : ∀ s ∈ segs, wfSeg s) (s₀ : GSeg) (rest' : List GSeg)
    (hsegs : segs = s₀ :: rest')
    (hu : ∀ v, gf fields "uetr" = some v → ∀ c ∈ v, c ≠ '{' ∧ c ≠ '}')
    (hm : ∀ v, gf fields "mur" = some v → ∀ c ∈ v, c ≠ '{' ∧ c ≠ '}') :
    (parseMtMessage (generateBlock1 S ++ generateBlock2 t3 R ++
        generateBlock3 fields ++
        (obr :: str "4:\r\n" ++ (joinCRLF (segsLines segs) ++ str "\r\n") ++
          str "-" ++ [cbr]) ++
        generateBlock5)).messageType = str "MT" ++ t3 ∧
    (parseMtMessage (generateBlock1 S ++ generateBlock2 t3 R ++
        generateBlock3 fields ++
        (obr :: str "4:\r\n" ++ (joinCRLF (segsLines segs) ++ str "\r\n") ++
          str "-" ++ [cbr]) ++
        generateBlock5)).textBlock =
      segs.foldl (fun m s => setKey m s.tag (segVal s)) [] := by
  obtain ⟨bs3, hbs3tags, hbs3shape⟩ := blocksShape_block3 fields hu hm
  have hcontent_nb : ∀ c ∈ joinCRLF (segsLines segs) ++ str "\r\n",
      c ≠ '{' ∧ c ≠ '}' := by
    intro c hc
    rcases List.mem_append.mp hc with hc' | hc'
    · exact joinCRLF_chars _ (segsLines_chars segs hwf) c hc'
    · clear hc
      revert hc' c
      decide
  have hshape : BlocksShape
      (generateBlock1 S ++ (generateBlock2 t3 R ++ (generateBlock3 fields ++
        ((obr :: str "4:\r\n" ++ (joinCRLF (segsLines segs) ++ str "\r\n") ++
          str "-" ++ [cbr]) ++ generateBlock5))))
      ((1, str "F01" ++ S ++ str "0000" ++ str "000000") ::
        (2, 'I' :: (t3 ++ (R ++ str "N"))) ::
        (bs3 ++ [(4, '\r' :: '\n' ::
          ((joinCRLF (segsLines segs) ++ str "\r\n") ++ str "-")), (5, [])])) :=
    blocksShape_block1 S hS _ _
      (blocksShape_block2 t3 R h3 hR _ _
        (hbs3shape _ _
          (blocksShape_block4 _ hcontent_nb _ _ blocksShape_block5)))
  have hmsg : generateBlock1 S ++ generateBlock2 t3 R ++
      generateBlock3 fields ++
      (obr :: str "4:\r\n" ++ (joinCRLF (segsLines segs) ++ str "\r\n") ++
        str "-" ++ [cbr]) ++ generateBlock5 =
      generateBlock1 S ++ (generateBlock2 t3 R ++ (generateBlock3 fields ++
        ((obr :: str "4:\r\n" ++ (joinCRLF (segsLines segs) ++ str "\r\n") ++
          str "-" ++ [cbr]) ++ generateBlock5))) := by
    simp [List.append_assoc]
  have htrim : jsTrim (generateBlock1 S ++ generateBlock2 t3 R ++
      generateBlock3 fields ++
      (obr :: str "4:\r\n" ++ (joinCRLF (segsLines segs) ++ str "\r\n") ++
        str "-" ++ [cbr]) ++ generateBlock5) =
      generateBlock1 S ++ generateBlock2 t3 R ++ generateBlock3 fields ++
      (obr :: str "4:\r\n" ++ (joinCRLF (segsLines segs) ++ str "\r\n") ++
        str "-" ++ [cbr]) ++ generateBlock5 := by
    apply jsTrim_eq_self
    · intro c hc
      rw [head?_concat5 _ _ _ _ _ (by simp [generateBlock1])] at hc
      have hco : obr = c := by
        simpa [generateBlock1] using hc
      rw [← hco]
      decide
    · intro c hc
      rw [getLast?_append_right _ _ (by simp [generateBlock5])] at hc
      have hgl : generateBlock5.getLast? = some cbr := by decide
      rw [hgl] at hc
      injection hc with hc
      rw [← hc]
      decide
  have hextract : extractBlocks (jsTrim (generateBlock1 S ++
      generateBlock2 t3 R ++ generateBlock3 fields ++
      (obr :: str "4:\r\n" ++ (joinCRLF (segsLines segs) ++ str "\r\n") ++
        str "-" ++ [cbr]) ++ generateBlock5)) =
      ((1, str "F01" ++ S ++ str "0000" ++ str "000000") ::
        (2, 'I' :: (t3 ++ (R ++ str "N"))) ::
        (bs3 ++ [(4, '\r' :: '\n' ::
          ((joinCRLF (segsLines segs) ++ str "\r\n") ++ str "-")),
          (5, [])])) := by
    rw [htrim, hmsg, extractBlocks]
    rw [scanBlocks_of_shape _ _ hshape _ (le_refl _)]
    simp
  constructor
  · rw [parseMtMessage_messageType, hextract]
    have hgb : getBlockT ((1, str "F01" ++ S ++ str "0000" ++ str "000000") ::
        (2, 'I' :: (t3 ++ (R ++ str "N"))) ::
        (bs3 ++ [(4, '\r' :: '\n' ::
          ((joinCRLF (segsLines segs) ++ str "\r\n") ++ str "-")),
          (5, [])])) 2 = some ('I' :: (t3 ++ (R ++ str "N"))) := by
      rw [getBlockT, getBlock_gen_two _ _ _ bs3 hbs3tags]
      simp
    rw [hgb]
    exact appHeader_I t3 (R ++ str "N") hlen
  · rw [parseMtMessage_textBlock, hextract]
    have hgb : getBlockT ((1, str "F01" ++ S ++ str "0000" ++ str "000000") ::
        (2, 'I' :: (t3 ++ (R ++ str "N"))) ::
        (bs3 ++ [(4, '\r' :: '\n' ::
          ((joinCRLF (segsLines segs) ++ str "\r\n") ++ str "-")),
          (5, [])])) 4 = some ('\r' :: '\n' ::
          ((joinCRLF (segsLines segs) ++ str "\r\n") ++ str "-")) := by
      rw [getBlockT, getBlock_gen_four _ _ _ bs3 hbs3tags]
      simp
    rw [hgb]
    exact parseTextBlock_generated segs hwf s₀ rest' hsegs

/-! ## Round-trip machinery: segment list structure per type -/

theorem mem_optSeg (fields : List (Str × Str)) (k : String) (tag : String)
    (s : GSeg) (h : s ∈ optSeg fields k tag) :
    ∃ v, gf fields k = some v ∧ s = ⟨str tag, v, []⟩ := by
  rcases hv : gf fields k with _ | v <;> simp [optSeg, hv] at h
  exact ⟨v, rfl, h⟩

theorem mem_reqSeg (tag v : Str) (s : GSeg) (h : s ∈ reqSeg tag v) :
    s = ⟨tag, v, []⟩ := by
  simpa [reqSeg] using h

theorem optSeg_tag_sublist (fields : List (Str × Str)) (k : String)
    (tag : String) :
    List.Sublist ((optSeg fields k tag).map GSeg.tag) [str tag] := by
  rcases hv : gf fields k with _ | v <;> simp [optSeg, hv]

theorem reqSeg_tag_sublist (tag v : Str) :
    List.Sublist ((reqSeg tag v).map GSeg.tag) [tag] := by
  simp [reqSeg]

theorem seg32A_tag_sublist (fields : List (Str × Str)) :
    List.Sublist ((seg32A fields).map GSeg.tag) [str "32A"] := by
  rcases hd : gf fields "valueDate" with _ | d <;>
    rcases hc : gf fields "currency" with _ | c <;>
      rcases ha : gf fields "amount" with _ | a <;>
        simp [seg32A, hd, hc, ha]

theorem seg33B_tag_sublist (fields : List (Str × Str)) :
    List.Sublist ((seg33B fields).map GSeg.tag) [str "33B"] := by
  rcases hc : gf fields "instructedCurrency" with _ | c <;>
    rcases ha : gf fields "instructedAmount" with _ | a <;>
      simp [seg33B, hc, ha]

theorem seg50K_tag_sublist (fields : List (Str × Str)) :
    List.Sublist ((seg50K fields).map GSeg.tag) [str "50K"] := by
  rcases ha : gf fields "orderingCustomerAccount" with _ | a <;>
    rcases hn : gf fields "orderingCustomerName" with _ | n <;>
      simp [seg50K, ha, hn]

theorem seg59_tag_sublist (fields : List (Str × Str)) :
    List.Sublist ((seg59 fields).map GSeg.tag) [str "59"] := by
  rcases ha : gf fields "beneficiaryAccount" with _ | a <;>
    rcases hn : gf fields "beneficiaryName" with _ | n <;>
      simp [seg59, ha, hn]

theorem seg61_tag_sublist (fields : List (Str × Str))
    (hsafe : ∀ v, gf fields "statementLines" = some v →
      ∀ c ∈ v, safeChar c = true) :
    List.Sublist ((seg61 fields).map GSeg.tag) [str "61"] := by
  rcases seg61_shape fields hsafe with h | ⟨v, _, h, _⟩ <;> rw [h] <;> simp

theorem segs103_tags_sublist (fields : List (Str × Str)) :
    List.Sublist ((segs103 fields).map GSeg.tag)
      [str "20", str "23B", str "32A", str "33B", str "50K", str "52A",
       str "53A", str "54A", str "56A", str "57A", str "59", str "70",
       str "71A", str "72"] := by
  rw [segs103]
  simp only [List.map_append, List.append_assoc]
  show List.Sublist _ ([str "20"] ++ ([str "23B"] ++ ([str "32A"] ++
    ([str "33B"] ++ ([str "50K"] ++ ([str "52A"] ++ ([str "53A"] ++
      ([str "54A"] ++ ([str "56A"] ++ ([str "57A"] ++ ([str "59"] ++
        ([str "70"] ++ ([str "71A"] ++ [str "72"])))))))))))))
  exact List.Sublist.append (optSeg_tag_sublist _ _ _)
    (List.Sublist.append (reqSeg_tag_sublist _ _)
      (List.Sublist.append (seg32A_tag_sublist _)
        (List.Sublist.append (seg33B_tag_sublist _)
          (List.Sublist.append (seg50K_tag_sublist _)
            (List.Sublist.append (optSeg_tag_sublist _ _ _)
              (List.Sublist.append (optSeg_tag_sublist _ _ _)
                (List.Sublist.append (optSeg_tag_sublist _ _ _)
                  (List.Sublist.append (optSeg_tag_sublist _ _ _)
                    (List.Sublist.append (optSeg_tag_sublist _ _ _)
                      (List.Sublist.append (seg59_tag_sublist _)
                        (List.Sublist.append (optSeg_tag_sublist _ _ _)
                          (List.Sublist.append (reqSeg_tag_sublist _ _)
                            (optSeg_tag_sublist _ _ _)))))))))))))

theorem segs103_map (fields : List (Str × Str)) :
    (segs103 fields).foldl (fun m s => setKey m s.tag (segVal s)) [] =
      (segs103 fields).map segEntry := by
  have h := foldl_setKey_eq (segs103 fields) [] (by simp)
    (List.Nodup.sublist (segs103_tags_sublist fields) (by decide))
  simpa using h

theorem segs202_tags_sublist (fields : List (Str × Str)) :
    List.Sublist ((segs202 fields).map GSeg.tag)
      [str "20", str "21", str "32A", str "52A", str "53A", str "54A",
       str "56A", str "57A", str "58A", str "72"] := by
  rw [segs202]
  simp only [List.map_append, List.append_assoc]
  show List.Sublist _ ([str "20"] ++ ([str "21"] ++ ([str "32A"] ++
    ([str "52A"] ++ ([str "53A"] ++ ([str "54A"] ++ ([str "56A"] ++
      ([str "57A"] ++ ([str "58A"] ++ [str "72"])))))))))
  exact List.Sublist.append (optSeg_tag_sublist _ _ _)
    (List.Sublist.append (optSeg_tag_sublist _ _ _)
      (List.Sublist.append (seg32A_tag_sublist _)
        (List.Sublist.append (optSeg_tag_sublist _ _ _)
          (List.Sublist.append (optSeg_tag_sublist _ _ _)
            (List.Sublist.append (optSeg_tag_sublist _ _ _)
              (List.Sublist.append (optSeg_tag_sublist _ _ _)
                (List.Sublist.append (optSeg_tag_sublist _ _ _)
                  (List.Sublist.append (optSeg_tag_sublist _ _ _)
                    (optSeg_tag_sublist _ _ _)))))))))

theorem segs202_map (fields : List (Str × Str)) :
    (segs202 fields).foldl (fun m s => setKey m s.tag (segVal s)) [] =
      (segs202 fields).map segEntry := by
  have h := foldl_setKey_eq (segs202 fields) [] (by simp)
    (List.Nodup.sublist (segs202_tags_sublist fields) (by decide))
  simpa using h

theorem segs940_tags_sublist (fields : List (Str × Str))
    (hsafe : ∀ v, gf fields "statementLines" = some v →
      ∀ c ∈ v, safeChar c = true) :
    List.Sublist ((segs940 fields).map GSeg.tag)
      [str "20", str "25", str "28C", str "60F", str "61", str "62F",
       str "64"] := by
  rw [segs940]
  simp only [List.map_append, List.append_assoc]
  show List.Sublist _ ([str "20"] ++ ([str "25"] ++ ([str "28C"] ++
    ([str "60F"] ++ ([str "61"] ++ ([str "62F"] ++ [str "64"]))))))
  exact List.Sublist.append (optSeg_tag_sublist _ _ _)
    (List.Sublist.append (optSeg_tag_sublist _ _ _)
      (List.Sublist.append (optSeg_tag_sublist _ _ _)
        (List.Sublist.append (optSeg_tag_sublist _ _ _)
          (List.Sublist.append (seg61_tag_sublist _ hsafe)
            (List.Sublist.append (optSeg_tag_sublist _ _ _)
              (optSeg_tag_sublist _ _ _))))))

theorem segs940_map (fields : List (Str × Str))
    (hsafe : ∀ v, gf fields "statementLines" = some v →
      ∀ c ∈ v, safeChar c = true) :
    (segs940 fields).foldl (fun m s => setKey m s.tag (segVal s)) [] =
      (segs940 fields).map segEntry := by
  have h := foldl_setKey_eq (segs940 fields) [] (by simp)
    (List.Nodup.sublist (segs940_tags_sublist fields hsafe) (by decide))
  simpa using h

theorem segs950_tags_sublist (fields : List (Str × Str))
    (hsafe : ∀ v, gf fields "statementLines" = some v →
      ∀ c ∈ v, safeChar c = true) :
    List.Sublist ((segs950 fields).map GSeg.tag)
      [str "20", str "25", str "28C", str "60F", str "61", str "62F"] := by
  rw [segs950]
  simp only [List.map_append, List.append_assoc]
  show List.Sublist _ ([str "20"] ++ ([str "25"] ++ ([str "28C"] ++
    ([str "60F"] ++ ([str "61"] ++ [str "62F"])))))
  exact List.Sublist.append (optSeg_tag_sublist _ _ _)
    (List.Sublist.append (optSeg_tag_sublist _ _ _)
      (List.Sublist.append (optSeg_tag_sublist _ _ _)
        (List.Sublist.append (optSeg_tag_sublist _ _ _)
          (List.Sublist.append (seg61_tag_sublist _ hsafe)
            (optSeg_tag_sublist _ _ _)))))

theorem segs950_map (fields : List (Str × Str))
    (hsafe : ∀ v, gf fields "statementLines" = some v →
      ∀ c ∈ v, safeChar c = true) :
    (segs950 fields).foldl (fun m s => setKey m s.tag (segVal s)) [] =
      (segs950 fields).map segEntry := by
  have h := foldl_setKey_eq (segs950 fields) [] (by simp)
    (List.Nodup.sublist (segs950_tags_sublist fields hsafe) (by decide))
  simpa using h

/-! ## Round-trip machinery: per-type segment well-formedness -/

theorem code_chars (v : Str) (hv : v ∈ bankOperationCodes) :
    ∀ c ∈ v, charOk c = true := by
  simp only [bankOperationCodes, List.mem_cons, List.mem_singleton] at hv
  rcases hv with rfl | rfl | rfl | rfl | (rfl | h)
  · decide
  · decide
  · decide
  · decide
  · decide
  · simp at h

theorem charge_chars (v : Str) (hv : v ∈ chargeCodes) :
    ∀ c ∈ v, charOk c = true := by
  simp only [chargeCodes, List.mem_cons, List.mem_singleton] at hv
  rcases hv with rfl | rfl | (rfl | h)
  · decide
  · decide
  · decide
  · simp at h

theorem code_noterm (v : Str) (hv : v ∈ bankOperationCodes) :
    ∀ c ∈ v, isTermC c = false := by
  simp only [bankOperationCodes, List.mem_cons, List.mem_singleton] at hv
  rcases hv with rfl | rfl | rfl | rfl | (rfl | h)
  · decide
  · decide
  · decide
  · decide
  · decide
  · simp at h

theorem charge_noterm (v : Str) (hv : v ∈ chargeCodes) :
    ∀ c ∈ v, isTermC c = false := by
  simp only [chargeCodes, List.mem_cons, List.mem_singleton] at hv
  rcases hv with rfl | rfl | (rfl | h)
  · decide
  · decide
  · decide
  · simp at h

theorem codes_ne_nil (v : Str) (hv : v ∈ bankOperationCodes) : v ≠ [] := by
  simp only [bankOperationCodes, List.mem_cons, List.mem_singleton] at hv
  rcases hv with rfl | rfl | rfl | rfl | (rfl | h) <;> first | decide | simp at h

theorem charges_ne_nil (v : Str) (hv : v ∈ chargeCodes) : v ≠ [] := by
  simp only [chargeCodes, List.mem_cons, List.mem_singleton] at hv
  rcases hv with rfl | rfl | (rfl | h) <;> first | decide | simp at h

theorem valid32A_concat2 (d c a : Str) (hd6 : d.length = 6)
    (hdd : ∀ x ∈ d, isDigitC x = true) (hc3 : c.length = 3)
    (hcu : ∀ x ∈ c, isUpperAZ x = true) (ha : a ≠ [])
    (had : ∀ x ∈ a, isDigitC x = true) :
    valid32A (d ++ (c ++ (a ++ str ",00"))) = true := by
  rw [← List.append_assoc]
  exact valid32A_concat d c a hd6 hdd hc3 hcu ha had

theorem wf_seg32A (fields : List (Str × Str))
    (hdt : ∀ v, gf fields "valueDate" = some v → ∀ c ∈ v, isDigitC c = true)
    (hcur : ∀ v, gf fields "currency" = some v → ∀ c ∈ v, isUpperAZ c = true)
    (hamt : ∀ v, gf fields "amount" = some v → canonicalIntStr v = true) :
    ∀ s ∈ seg32A fields, wfSeg s := by
  intro s hs
  rcases hd : gf fields "valueDate" with _ | d <;>
    rcases hc : gf fields "currency" with _ | c <;>
      rcases ha : gf fields "amount" with _ | a <;>
        simp [seg32A, hd, hc, ha] at hs
  subst hs
  have hsv : ∀ x ∈ d ++ (c ++ (a ++ str ",00")), safeChar x = true := by
    intro x hx
    simp only [List.mem_append] at hx
    rcases hx with hx | hx | hx | hx
    · exact digit_safe x (hdt d hd x hx)
    · exact upper_safe x (hcur c hc x hx)
    · exact digit_safe x ((canonical_facts a (hamt a ha)).2 x hx)
    · revert hx x
      decide
  exact wfSeg_mk _ _ _ (by decide)
    (tagSplit_three '3' '2' 'A' _ (by decide) (by decide) (by decide)
      (fun x hx => safeChar_not_term x (hsv x hx)))
    (by decide) (fun x hx => safeChar_charOk x (hsv x hx)) (by simp)

theorem wf_seg33B (fields : List (Str × Str))
    (hic : ∀ v, gf fields "instructedCurrency" = some v →
      ∀ c ∈ v, safeChar c = true)
    (hiamt : ∀ v, gf fields "instructedAmount" = some v →
      canonicalIntStr v = true) :
    ∀ s ∈ seg33B fields, wfSeg s := by
  intro s hs
  rcases hc : gf fields "instructedCurrency" with _ | c <;>
    rcases ha : gf fields "instructedAmount" with _ | a <;>
      simp [seg33B, hc, ha] at hs
  subst hs
  have hsv : ∀ x ∈ c ++ (a ++ str ",00"), safeChar x = true := by
    intro x hx
    simp only [List.mem_append] at hx
    rcases hx with hx | hx | hx
    · exact hic c hc x hx
    · exact digit_safe x ((canonical_facts a (hiamt a ha)).2 x hx)
    · revert hx x
      decide
  exact wfSeg_mk _ _ _ (by decide)
    (tagSplit_three '3' '3' 'B' _ (by decide) (by decide) (by decide)
      (fun x hx => safeChar_not_term x (hsv x hx)))
    (by decide) (fun x hx => safeChar_charOk x (hsv x hx)) (by simp)

theorem wf_segs103 (fields : List (Str × Str))
    (h20 : ∀ v, gf fields "senderReference" = some v →
      ∀ c ∈ v, safeChar c = true)
    (hop : (gf fields "bankOperationCode").getD (str "CRED") ∈
      bankOperationCodes)
    (hdt : ∀ v, gf fields "valueDate" = some v → ∀ c ∈ v, isDigitC c = true)
    (hcur : ∀ v, gf fields "currency" = some v → ∀ c ∈ v, isUpperAZ c = true)
    (hamt : ∀ v, gf fields "amount" = some v → canonicalIntStr v = true)
    (hic : ∀ v, gf fields "instructedCurrency" = some v →
      ∀ c ∈ v, safeChar c = true)
    (hiamt : ∀ v, gf fields "instructedAmount" = some v →
      canonicalIntStr v = true)
    (hoca : ∀ v, gf fields "orderingCustomerAccount" = some v →
      ∀ c ∈ v, safeChar c = true)
    (hocn : ∀ v, gf fields "orderingCustomerName" = some v →
      ∀ c ∈ v, safeChar c = true)
    (hoi : ∀ v, gf fields "orderingInstitution" = some v →
      ∀ c ∈ v, safeChar c = true)
    (hsc : ∀ v, gf fields "sendersCorrespondent" = some v →
      ∀ c ∈ v, safeChar c = true)
    (hrc : ∀ v, gf fields "receiversCorrespondent" = some v →
      ∀ c ∈ v, safeChar c = true)
    (hii : ∀ v, gf fields "intermediaryInstitution" = some v →
      ∀ c ∈ v, safeChar c = true)
    (hawi : ∀ v, gf fields "accountWithInstitution" = some v →
      ∀ c ∈ v, safeChar c = true)
    (hba : ∀ v, gf fields "beneficiaryAccount" = some v →
      ∀ c ∈ v, safeChar c = true)
    (hbn : ∀ v, gf fields "beneficiaryName" = some v →
      ∀ c ∈ v, safeChar c = true)
    (hrem : ∀ v, gf fields "remittanceInfo" = some v →
      ∀ c ∈ v, safeChar c = true)
    (hch : (gf fields "charges").getD (str "SHA") ∈ chargeCodes)
    (hs2r : ∀ v, gf fields "senderToReceiverInfo" = some v →
      ∀ c ∈ v, safeChar c = true) :
    ∀ s ∈ segs103 fields, wfSeg s := by
  intro s hs
  rw [segs103] at hs
  simp only [List.mem_append] at hs
  rcases hs with ((((((((((((hs | hs) | hs) | hs) | hs) | hs) | hs) | hs) |
    hs) | hs) | hs) | hs) | hs) | hs
  · exact wf_optSeg fields "senderReference" "20" (by decide)
      (fun v hv => tagSplit_two '2' '0' v (by decide) hv) (by decide) h20 s hs
  · rw [mem_reqSeg _ _ s hs]
    exact wfSeg_mk _ _ _ (by decide)
      (tagSplit_three '2' '3' 'B' _ (by decide) (by decide) (by decide)
        (code_noterm _ hop))
      (by decide) (code_chars _ hop) (by simp)
  · exact wf_seg32A fields hdt hcur hamt s hs
  · exact wf_seg33B fields hic hiamt s hs
  · exact wf_seg50K fields hoca hocn s hs
  · exact wf_optSeg fields "orderingInstitution" "52A" (by decide)
      (fun v hv => tagSplit_three '5' '2' 'A' v (by decide) (by decide)
        (by decide) hv) (by decide) hoi s hs
  · exact wf_optSeg fields "sendersCorrespondent" "53A" (by decide)
      (fun v hv => tagSplit_three '5' '3' 'A' v (by decide) (by decide)
        (by decide) hv) (by decide) hsc s hs
  · exact wf_optSeg fields "receiversCorrespondent" "54A" (by decide)
      (fun v hv => tagSplit_three '5' '4' 'A' v (by decide) (by decide)
        (by decide) hv) (by decide) hrc s hs
  · exact wf_optSeg fields "intermediaryInstitution" "56A" (by decide)
      (fun v hv => tagSplit_three '5' '6' 'A' v (by decide) (by decide)
        (by decide) hv) (by decide) hii s hs
  · exact wf_optSeg fields "accountWithInstitution" "57A" (by decide)
      (fun v hv => tagSplit_three '5' '7' 'A' v (by decide) (by decide)
        (by decide) hv) (by decide) hawi s hs
  · exact wf_seg59 fields hba hbn s hs
  · exact wf_optSeg fields "remittanceInfo" "70" (by decide)
      (fun v hv => tagSplit_two '7' '0' v (by decide) hv) (by decide) hrem s hs
  · rw [mem_reqSeg _ _ s hs]
    exact wfSeg_mk _ _ _ (by decide)
      (tagSplit_three '7' '1' 'A' _ (by decide) (by decide) (by decide)
        (charge_noterm _ hch))
      (by decide) (charge_chars _ hch) (by simp)
  · exact wf_optSeg fields "senderToReceiverInfo" "72" (by decide)
      (fun v hv => tagSplit_two '7' '2' v (by decide) hv) (by decide) hs2r s hs

theorem segs103_head (fields : List (Str × Str)) (ref : Str)
    (href : gf fields "senderReference" = some ref) :
    ∃ rest, segs103 fields = (⟨str "20", ref, []⟩ : GSeg) :: rest := by
  rw [segs103,
    show optSeg fields "senderReference" "20" =
      [(⟨str "20", ref, []⟩ : GSeg)] from by simp [optSeg, href]]
  exact ⟨_, rfl⟩

/-! ## Round-trip machinery: MT103 record lookups -/

theorem lookup_map_cons_hit (t : Str) (v : FieldVal)
    (B : List (Str × FieldVal)) :
    lookupKey ((t, v) :: B) t = some v := by
  simp [lookupKey]

theorem getD_op_ne_nil (fields : List (Str × Str)) :
    (gf fields "bankOperationCode").getD (str "CRED") ≠ [] := by
  rcases hgo : gf fields "bankOperationCode" with _ | v
  · decide
  · simpa using gf_ne_nil fields "bankOperationCode" v hgo

theorem getD_ch_ne_nil (fields : List (Str × Str)) :
    (gf fields "charges").getD (str "SHA") ≠ [] := by
  rcases hgo : gf fields "charges" with _ | v
  · decide
  · simpa using gf_ne_nil fields "charges" v hgo

theorem lookups103_20 (fields : List (Str × Str)) (ref : Str)
    (href : gf fields "senderReference" = some ref) :
    lookupKey ((segs103 fields).map segEntry) (str "20") =
      some (FieldVal.scalar ref) := by
  rw [segs103]
  simp only [List.map_append, List.append_assoc]
  rw [show optSeg fields "senderReference" "20" =
    [(⟨str "20", ref, []⟩ : GSeg)] from by simp [optSeg, href]]
  rw [show List.map segEntry [(⟨str "20", ref, []⟩ : GSeg)] =
    [(str "20", FieldVal.scalar ref)] from by
      simp [segEntry, segVal_single _ _
        (gf_ne_nil fields "senderReference" ref href)]]
  rw [List.singleton_append]
  exact lookup_map_cons_hit _ _ _

theorem lookups103_23B (fields : List (Str × Str)) :
    lookupKey ((segs103 fields).map segEntry) (str "23B") =
      some (FieldVal.scalar
        ((gf fields "bankOperationCode").getD (str "CRED"))) := by
  rw [segs103]
  simp only [List.map_append, List.append_assoc]
  rw [lookup_skip_chunk (optSeg fields "senderReference" "20") _ _
    (fun s hs => by rw [optSeg_tags fields "senderReference" "20" s hs]
                    decide)]
  rw [show List.map segEntry
      (reqSeg (str "23B") ((gf fields "bankOperationCode").getD (str "CRED"))) =
    [(str "23B", FieldVal.scalar
      ((gf fields "bankOperationCode").getD (str "CRED")))] from by
      simp [reqSeg, segEntry, segVal_single _ _ (getD_op_ne_nil fields)]]
  rw [List.singleton_append]
  exact lookup_map_cons_hit _ _ _

theorem lookups103_32A (fields : List (Str × Str)) (dt cur amt : Str)
    (hdt : gf fields "valueDate" = some dt)
    (hcur : gf fields "currency" = some cur)
    (hamt : gf fields "amount" = some amt) :
    lookupKey ((segs103 fields).map segEntry) (str "32A") =
      some (FieldVal.scalar (dt ++ (cur ++ (amt ++ str ",00")))) := by
  rw [segs103]
  simp only [List.map_append, List.append_assoc]
  rw [lookup_skip_chunk (optSeg fields "senderReference" "20") _ _
    (fun s hs => by rw [optSeg_tags fields "senderReference" "20" s hs]
                    decide)]
  rw [lookup_skip_chunk
    (reqSeg (str "23B") ((gf fields "bankOperationCode").getD (str "CRED")))
    _ _ (fun s hs => by rw [reqSeg_tags _ _ s hs]; decide)]
  rw [show seg32A fields =
    [(⟨str "32A", dt ++ (cur ++ (amt ++ str ",00")), []⟩ : GSeg)] from by
      simp [seg32A, hdt, hcur, hamt]]
  rw [show List.map segEntry
      [(⟨str "32A", dt ++ (cur ++ (amt ++ str ",00")), []⟩ : GSeg)] =
    [(str "32A", FieldVal.scalar (dt ++ (cur ++ (amt ++ str ",00"))))] from by
      simp [segEntry, segVal_single _ _
        (append_ne_nil_left _ _ (gf_ne_nil fields "valueDate" dt hdt))]]
  rw [List.singleton_append]
  exact lookup_map_cons_hit _ _ _

theorem lookups103_71A (fields : List (Str × Str)) :
    lookupKey ((segs103 fields).map segEntry) (str "71A") =
      some (FieldVal.scalar ((gf fields "charges").getD (str "SHA"))) := by
  rw [segs103]
  simp only [List.map_append, List.append_assoc]
  rw [lookup_skip_chunk (optSeg fields "senderReference" "20") _ _
    (fun s hs => by rw [optSeg_tags fields "senderReference" "20" s hs]
                    decide)]
  rw [lookup_skip_chunk
    (reqSeg (str "23B") ((gf fields "bankOperationCode").getD (str "CRED")))
    _ _ (fun s hs => by rw [reqSeg_tags _ _ s hs]; decide)]
  rw [lookup_skip_chunk (seg32A fields) _ _
    (fun s hs => by rw [seg32A_tags fields s hs]; decide)]
  rw [lookup_skip_chunk (seg33B fields) _ _
    (fun s hs => by rw [seg33B_tags fields s hs]; decide)]
  rw [lookup_skip_chunk (seg50K fields) _ _
    (fun s hs => by rw [seg50K_tags fields s hs]; decide)]
  rw [lookup_skip_chunk (optSeg fields "orderingInstitution" "52A") _ _
    (fun s hs => by rw [optSeg_tags fields "orderingInstitution" "52A" s hs]
                    decide)]
  rw [lookup_skip_chunk (optSeg fields "sendersCorrespondent" "53A") _ _
    (fun s hs => by rw [optSeg_tags fields "sendersCorrespondent" "53A" s hs]
                    decide)]
  rw [lookup_skip_chunk (optSeg fields "receiversCorrespondent" "54A") _ _
    (fun s hs => by
      rw [optSeg_tags fields "receiversCorrespondent" "54A" s hs]
      decide)]
  rw [lookup_skip_chunk (optSeg fields "intermediaryInstitution" "56A") _ _
    (fun s hs => by
      rw [optSeg_tags fields "intermediaryInstitution" "56A" s hs]
      decide)]
  rw [lookup_skip_chunk (optSeg fields "accountWithInstitution" "57A") _ _
    (fun s hs => by
      rw [optSeg_tags fields "accountWithInstitution" "57A" s hs]
      decide)]
  rw [lookup_skip_chunk (seg59 fields) _ _
    (fun s hs => by rw [seg59_tags fields s hs]; decide)]
  rw [lookup_skip_chunk (optSeg fields "remittanceInfo" "70") _ _
    (fun s hs => by rw [optSeg_tags fields "remittanceInfo" "70" s hs]
                    decide)]
  rw [show List.map segEntry
      (reqSeg (str "71A") ((gf fields "charges").getD (str "SHA"))) =
    [(str "71A", FieldVal.scalar
      ((gf fields "charges").getD (str "SHA")))] from by
      simp [reqSeg, segEntry, segVal_single _ _ (getD_ch_ne_nil fields)]]
  rw [List.singleton_append]
  exact lookup_map_cons_hit _ _ _

theorem lookups103_59 (fields : List (Str × Str))
    (hben : ((gf fields "beneficiaryAccount").isSome ||
      (gf fields "beneficiaryName").isSome) = true) :
    ∃ v59, lookupKey ((segs103 fields).map segEntry) (str "59") =
      some v59 ∧ truthy (some v59) = true ∧
      isMissing (some v59) = false := by
  rw [segs103]
  simp only [List.map_append, List.append_assoc]
  rw [lookup_skip_chunk (optSeg fields "senderReference" "20") _ _
    (fun s hs => by rw [optSeg_tags fields "senderReference" "20" s hs]
                    decide)]
  rw [lookup_skip_chunk
    (reqSeg (str "23B") ((gf fields "bankOperationCode").getD (str "CRED")))
    _ _ (fun s hs => by rw [reqSeg_tags _ _ s hs]; decide)]
  rw [lookup_skip_chunk (seg32A fields) _ _
    (fun s hs => by rw [seg32A_tags fields s hs]; decide)]
  rw [lookup_skip_chunk (seg33B fields) _ _
    (fun s hs => by rw [seg33B_tags fields s hs]; decide)]
  rw [lookup_skip_chunk (seg50K fields) _ _
    (fun s hs => by rw [seg50K_tags fields s hs]; decide)]
  rw [lookup_skip_chunk (optSeg fields "orderingInstitution" "52A") _ _
    (fun s hs => by rw [optSeg_tags fields "orderingInstitution" "52A" s hs]
                    decide)]
  rw [lookup_skip_chunk (optSeg fields "sendersCorrespondent" "53A") _ _
    (fun s hs => by rw [optSeg_tags fields "sendersCorrespondent" "53A" s hs]
                    decide)]
  rw [lookup_skip_chunk (optSeg fields "receiversCorrespondent" "54A") _ _
    (fun s hs => by
      rw [optSeg_tags fields "receiversCorrespondent" "54A" s hs]
      decide)]
  rw [lookup_skip_chunk (optSeg fields "intermediaryInstitution" "56A") _ _
    (fun s hs => by
      rw [optSeg_tags fields "intermediaryInstitution" "56A" s hs]
      decide)]
  rw [lookup_skip_chunk (optSeg fields "accountWithInstitution" "57A") _ _
    (fun s hs => by
      rw [optSeg_tags fields "accountWithInstitution" "57A" s hs]
      decide)]
  rcases ha : gf fields "beneficiaryAccount" with _ | a
  · rcases hn : gf fields "beneficiaryName" with _ | n
    · rw [ha, hn] at hben
      simp at hben
    · rw [show seg59 fields = [(⟨str "59", n, []⟩ : GSeg)] from by
        simp [seg59, ha, hn]]
      have hne := gf_ne_nil fields "beneficiaryName" n hn
      rw [show List.map segEntry [(⟨str "59", n, []⟩ : GSeg)] =
        [(str "59", FieldVal.scalar n)] from by
          simp [segEntry, segVal_single _ _ hne]]
      rw [List.singleton_append]
      rw [lookup_map_cons_hit]
      exact ⟨_, rfl, truthy_scalar n hne, isMissing_scalar n hne⟩
  · rcases hn : gf fields "beneficiaryName" with _ | n
    · rw [show seg59 fields = [(⟨str "59", '/' :: a, [[]]⟩ : GSeg)] from by
        simp [seg59, ha, hn]]
      rw [show List.map segEntry [(⟨str "59", '/' :: a, [[]]⟩ : GSeg)] =
        [(str "59", FieldVal.seq ['/' :: a, []])] from by
          simp [segEntry, segVal_two (str "59") ('/' :: a) [] (by simp)]]
      rw [List.singleton_append]
      rw [lookup_map_cons_hit]
      exact ⟨_, rfl, truthy_seq _, isMissing_seq _ (by simp)⟩
    · rw [show seg59 fields = [(⟨str "59", '/' :: a, [n]⟩ : GSeg)] from by
        simp [seg59, ha, hn]]
      rw [show List.map segEntry [(⟨str "59", '/' :: a, [n]⟩ : GSeg)] =
        [(str "59", FieldVal.seq ['/' :: a, n])] from by
          simp [segEntry, segVal_two (str "59") ('/' :: a) n (by simp)]]
      rw [List.singleton_append]
      rw [lookup_map_cons_hit]
      exact ⟨_, rfl, truthy_seq _, isMissing_seq _ (by simp)⟩

/-! ## Round-trip machinery: MT103 validation components -/

theorem fmtOk_of_none (sf : List MtFieldSpec) (tv : Str × FieldVal)
    (f : MtFieldSpec) (h : findFieldSpec sf tv.1 = some f)
    (hml : f.maxLength = none) : fmtOk sf tv := by
  simp [fmtOk, h, hml]

theorem fmtOk_of_le (sf : List MtFieldSpec) (tv : Str × FieldVal)
    (f : MtFieldSpec) (m : Nat) (h : findFieldSpec sf tv.1 = some f)
    (hml : f.maxLength = some m) (hle : (joinVal tv.2).length ≤ m) :
    fmtOk sf tv := by
  simp only [fmtOk, h, hml]
  rintro ⟨h1, h2⟩
  omega

theorem mand103_nil (fields : List (Str × Str)) (ref dt cur amt : Str)
    (href : gf fields "senderReference" = some ref)
    (hdt : gf fields "valueDate" = some dt)
    (hcur : gf fields "currency" = some cur)
    (hamt : gf fields "amount" = some amt)
    (hben : ((gf fields "beneficiaryAccount").isSome ||
      (gf fields "beneficiaryName").isSome) = true) :
    mandatoryErrors mt103Spec.fields ((segs103 fields).map segEntry) = [] := by
  apply mandatoryErrors_nil_of
  intro f hf hfm
  simp only [mt103Spec, mkFS, mkFSA] at hf
  fin_cases hf <;> first | exact absurd hfm (by decide) | skip
  · show isMissing (lookupKey ((segs103 fields).map segEntry)
      (str "20")) = false
    rw [lookups103_20 fields ref href]
    exact isMissing_scalar ref (gf_ne_nil _ _ _ href)
  · show isMissing (lookupKey ((segs103 fields).map segEntry)
      (str "23B")) = false
    rw [lookups103_23B fields]
    exact isMissing_scalar _ (getD_op_ne_nil fields)
  · show isMissing (lookupKey ((segs103 fields).map segEntry)
      (str "32A")) = false
    rw [lookups103_32A fields dt cur amt hdt hcur hamt]
    exact isMissing_scalar _
      (append_ne_nil_left _ _ (gf_ne_nil _ _ _ hdt))
  · show isMissing (lookupKey ((segs103 fields).map segEntry)
      (str "59")) = false
    obtain ⟨v59, hl, _, hm59⟩ := lookups103_59 fields hben
    rw [hl]
    exact hm59
  · show isMissing (lookupKey ((segs103 fields).map segEntry)
      (str "71A")) = false
    rw [lookups103_71A fields]
    exact isMissing_scalar _ (getD_ch_ne_nil fields)

theorem fmt103_nil (fields : List (Str × Str))
    (h20b : ∀ v, gf fields "senderReference" = some v → v.length ≤ 16)
    (hremb : ∀ v, gf fields "remittanceInfo" = some v → v.length ≤ 140)
    (hs2rb : ∀ v, gf fields "senderToReceiverInfo" = some v →
      v.length ≤ 210) :
    (formatChecks mt103Spec.fields ((segs103 fields).map segEntry)).1 =
      [] := by
  apply formatChecks_fst_nil
  intro tv htv
  obtain ⟨s, hsm, rfl⟩ := List.mem_map.mp htv
  rw [segs103] at hsm
  simp only [List.mem_append] at hsm
  rcases hsm with ((((((((((((h | h) | h) | h) | h) | h) | h) | h) |
    h) | h) | h) | h) | h) | h
  · obtain ⟨v, hv, rfl⟩ := mem_optSeg _ _ _ s h
    refine fmtOk_of_le mt103Spec.fields _
      (mkFSA "20" "Sender" "s Reference" true (some 16)) 16
      (by rw [show (segEntry (⟨str "20", v, []⟩ : GSeg)).1 = str "20"
            from rfl]
          decide) rfl ?_
    rw [show (segEntry (⟨str "20", v, []⟩ : GSeg)).2 =
      segVal ⟨str "20", v, []⟩ from rfl,
      segVal_single _ _ (gf_ne_nil _ _ _ hv)]
    exact h20b v hv
  · rw [mem_reqSeg _ _ s h]
    exact fmtOk_of_none _ _
      (mkFS "23B" "Bank Operation Code" true none)
      (by rw [show (segEntry (⟨str "23B",
            (gf fields "bankOperationCode").getD (str "CRED"), []⟩ :
            GSeg)).1 = str "23B" from rfl]
          decide) rfl
  · exact fmtOk_of_none _ _
      (mkFS "32A" "Value Date/Currency/Amount" true none)
      (by rw [show (segEntry s).1 = s.tag from rfl, seg32A_tags fields s h]
          decide) rfl
  · exact fmtOk_of_none _ _
      (mkFS "33B" "Currency/Instructed Amount" false none)
      (by rw [show (segEntry s).1 = s.tag from rfl, seg33B_tags fields s h]
          decide) rfl
  · exact fmtOk_of_none _ _
      (mkFS "50K" "Ordering Customer (Name/Address)" false none)
      (by rw [show (segEntry s).1 = s.tag from rfl, seg50K_tags fields s h]
          decide) rfl
  · obtain ⟨v, hv, rfl⟩ := mem_optSeg _ _ _ s h
    exact fmtOk_of_none _ _
      (mkFS "52A" "Ordering Institution (BIC)" false none)
      (by rw [show (segEntry (⟨str "52A", v, []⟩ : GSeg)).1 = str "52A"
            from rfl]
          decide) rfl
  · obtain ⟨v, hv, rfl⟩ := mem_optSeg _ _ _ s h
    exact fmtOk_of_none _ _
      (mkFSA "53A" "Sender" "s Correspondent (BIC)" false none)
      (by rw [show (segEntry (⟨str "53A", v, []⟩ : GSeg)).1 = str "53A"
            from rfl]
          decide) rfl
  · obtain ⟨v, hv, rfl⟩ := mem_optSeg _ _ _ s h
    exact fmtOk_of_none _ _
      (mkFSA "54A" "Receiver" "s Correspondent (BIC)" false none)
      (by rw [show (segEntry (⟨str "54A", v, []⟩ : GSeg)).1 = str "54A"
            from rfl]
          decide) rfl
  · obtain ⟨v, hv, rfl⟩ := mem_optSeg _ _ _ s h
    exact fmtOk_of_none _ _
      (mkFS "56A" "Intermediary Institution (BIC)" false none)
      (by rw [show (segEntry (⟨str "56A", v, []⟩ : GSeg)).1 = str "56A"
            from rfl]
          decide) rfl
  · obtain ⟨v, hv, rfl⟩ := mem_optSeg _ _ _ s h
    exact fmtOk_of_none _ _
      (mkFS "57A" "Account With Institution (BIC)" false none)
      (by rw [show (segEntry (⟨str "57A", v, []⟩ : GSeg)).1 = str "57A"
            from rfl]
          decide) rfl
  · exact fmtOk_of_none _ _
      (mkFS "59" "Beneficiary Customer (Account)" true none)
      (by rw [show (segEntry s).1 = s.tag from rfl, seg59_tags fields s h]
          decide) rfl
  · obtain ⟨v, hv, rfl⟩ := mem_optSeg _ _ _ s h
    refine fmtOk_of_le mt103Spec.fields _
      (mkFS "70" "Remittance Information" false (some 140)) 140
      (by rw [show (segEntry (⟨str "70", v, []⟩ : GSeg)).1 = str "70"
            from rfl]
          decide) rfl ?_
    rw [show (segEntry (⟨str "70", v, []⟩ : GSeg)).2 =
      segVal ⟨str "70", v, []⟩ from rfl,
      segVal_single _ _ (gf_ne_nil _ _ _ hv)]
    exact hremb v hv
  · rw [mem_reqSeg _ _ s h]
    exact fmtOk_of_none _ _
      (mkFS "71A" "Details of Charges" true none)
      (by rw [show (segEntry (⟨str "71A",
            (gf fields "charges").getD (str "SHA"), []⟩ : GSeg)).1 =
            str "71A" from rfl]
          decide) rfl
  · obtain ⟨v, hv, rfl⟩ := mem_optSeg _ _ _ s h
    refine fmtOk_of_le mt103Spec.fields _
      (mkFS "72" "Sender to Receiver Information" false (some 210)) 210
      (by rw [show (segEntry (⟨str "72", v, []⟩ : GSeg)).1 = str "72"
            from rfl]
          decide) rfl ?_
    rw [show (segEntry (⟨str "72", v, []⟩ : GSeg)).2 =
      segVal ⟨str "72", v, []⟩ from rfl,
      segVal_single _ _ (gf_ne_nil _ _ _ hv)]
    exact hs2rb v hv

theorem spec103_ok (fields : List (Str × Str)) (dt cur amt : Str)
    (hdt : gf fields "valueDate" = some dt)
    (hdtd : ∀ c ∈ dt, isDigitC c = true) (hdt6 : dt.length = 6)
    (hcur : gf fields "currency" = some cur)
    (hcuru : ∀ c ∈ cur, isUpperAZ c = true) (hcur3 : cur.length = 3)
    (hamt : gf fields "amount" = some amt)
    (hamtc : canonicalIntStr amt = true)
    (hch : (gf fields "charges").getD (str "SHA") ∈ chargeCodes)
    (hben : ((gf fields "beneficiaryAccount").isSome ||
      (gf fields "beneficiaryName").isSome) = true) :
    validateMt103Specifics ((segs103 fields).map segEntry) =
      Except.ok ([], checkOrdering ((segs103 fields).map segEntry)) := by
  have hs32ne : dt ++ (cur ++ (amt ++ str ",00")) ≠ [] :=
    append_ne_nil_left _ _ (gf_ne_nil _ _ _ hdt)
  have h32 : check32A ((segs103 fields).map segEntry) = Except.ok [] := by
    simp only [check32A, lookups103_32A fields dt cur amt hdt hcur hamt]
    rw [truthy_scalar _ hs32ne]
    have hws : stripJsWs (dt ++ (cur ++ (amt ++ str ",00"))) =
        dt ++ (cur ++ (amt ++ str ",00")) := by
      apply stripJsWs_eq_self
      intro c hc
      simp only [List.mem_append] at hc
      rcases hc with hc | hc | hc | hc
      · exact not_ws_of_32a_char c (by rw [hdtd c hc]; rfl)
      · exact not_ws_of_32a_char c (by rw [hcuru c hc]; simp)
      · exact not_ws_of_32a_char c
          (by rw [(canonical_facts amt hamtc).2 c hc]; rfl)
      · revert hc c
        decide
    simp only [headOfField, if_true]
    rw [hws, valid32A_concat2 dt cur amt hdt6 hdtd hcur3 hcuru
      (canonical_facts amt hamtc).1 (canonical_facts amt hamtc).2]
    simp
  have h71 : check71A ((segs103 fields).map segEntry) = [] := by
    simp only [check71A, lookups103_71A fields]
    rw [truthy_scalar _ (getD_ch_ne_nil fields)]
    have hcm : chargeMember (headOfField (some (FieldVal.scalar
        ((gf fields "charges").getD (str "SHA"))))) = true := by
      simp [headOfField, chargeMember, hch]
    simp [hcm]
  have h59 : checkBeneficiary ((segs103 fields).map segEntry) = [] := by
    obtain ⟨v59, hl, ht59, _⟩ := lookups103_59 fields hben
    simp [checkBeneficiary, hl, ht59]
  rw [mt103Specifics_build _ [] h32, h71, h59]
  simp

/-! ## Round-trip: MT103 -/

/-- A well-formed MT103 generation input: valid BICs, all mandatory values
supplied (sender reference within its length cap, six-digit date,
three-letter currency, canonical integer amount, at least one beneficiary
part), optional values made of safe characters and within their length
caps, enumerated codes drawn from their tables, and brace-free block-3
fields. -/
def good103 (input : MtMessageInput) : Bool :=
  decide (input.messageType = str "MT103") &&
  (validateBic input.senderBic).valid &&
  (validateBic input.receiverBic).valid &&
  reqLeB input.fields "senderReference" 16 &&
  memOptB input.fields "bankOperationCode" bankOperationCodes &&
  dateReqB input.fields && curReqB input.fields && amtReqB input.fields &&
  goodOptB input.fields "instructedCurrency" &&
  amtOptB input.fields "instructedAmount" &&
  goodOptB input.fields "orderingCustomerAccount" &&
  goodOptB input.fields "orderingCustomerName" &&
  goodOptB input.fields "orderingInstitution" &&
  goodOptB input.fields "sendersCorrespondent" &&
  goodOptB input.fields "receiversCorrespondent" &&
  goodOptB input.fields "intermediaryInstitution" &&
  goodOptB input.fields "accountWithInstitution" &&
  goodOptB input.fields "beneficiaryAccount" &&
  goodOptB input.fields "beneficiaryName" &&
  ((gf input.fields "beneficiaryAccount").isSome ||
    (gf input.fields "beneficiaryName").isSome) &&
  goodOptLeB input.fields "remittanceInfo" 140 &&
  memOptB input.fields "charges" chargeCodes &&
  goodOptLeB input.fields "senderToReceiverInfo" 210 &&
  noBraceB input.fields "uetr" && noBraceB input.fields "mur"

theorem validate103_of_parse (p : ParsedMtMessage)
    (fields : List (Str × Str)) (ref dt cur amt : Str)
    (hpmt : p.messageType = str "MT" ++ str "103")
    (hptb : p.textBlock = (segs103 fields).map segEntry)
    (href : gf fields "senderReference" = some ref)
    (hdt : gf fields "valueDate" = some dt)
    (hdtd : ∀ c ∈ dt, isDigitC c = true) (hdt6 : dt.length = 6)
    (hcur : gf fields "currency" = some cur)
    (hcuru : ∀ c ∈ cur, isUpperAZ c = true) (hcur3 : cur.length = 3)
    (hamt : gf fields "amount" = some amt)
    (hamtc : canonicalIntStr amt = true)
    (hch : (gf fields "charges").getD (str "SHA") ∈ chargeCodes)
    (hben : ((gf fields "beneficiaryAccount").isSome ||
      (gf fields "beneficiaryName").isSome) = true)
    (h20b : ∀ v, gf fields "senderReference" = some v → v.length ≤ 16)
    (hremb : ∀ v, gf fields "remittanceInfo" = some v → v.length ≤ 140)
    (hs2rb : ∀ v, gf fields "senderToReceiverInfo" = some v →
      v.length ≤ 210) :
    ∃ r, validateCore p = Except.ok r ∧ r.valid = true := by
  have hspec : specFor (str "MT" ++ stripFirstMT p.messageType) =
      some mt103Spec := by
    rw [hpmt]
    rfl
  have hsp : specificsFor (stripFirstMT p.messageType) p.textBlock =
      Except.ok ([], checkOrdering ((segs103 fields).map segEntry)) := by
    rw [hpmt, hptb,
      show stripFirstMT (str "MT" ++ str "103") = str "103" from rfl,
      specificsFor, if_pos rfl]
    exact spec103_ok fields dt cur amt hdt hdtd hdt6 hcur hcuru hcur3
      hamt hamtc hch hben
  have hval := validateCore_build p mt103Spec _ hspec hsp
  have hallE : allErrors mt103Spec p.textBlock
      ([], checkOrdering ((segs103 fields).map segEntry)) = [] := by
    rw [allErrors, hptb,
      mand103_nil fields ref dt cur amt href hdt hcur hamt hben,
      fmt103_nil fields h20b hremb hs2rb]
    rfl
  rw [hallE] at hval
  exact ⟨_, hval, rfl⟩

theorem mt103_roundtrip (input : MtMessageInput)
    (hg : good103 input = true) :
    ∃ out r, generateMtMessage input = Except.ok out ∧
      validateMtMessage (Sum.inl out) = Except.ok r ∧ r.valid = true := by
  simp only [good103, Bool.and_eq_true] at hg
  obtain ⟨⟨⟨⟨⟨⟨⟨⟨⟨⟨⟨⟨⟨⟨⟨⟨⟨⟨⟨⟨⟨⟨⟨⟨hmt, hsv⟩, hrv⟩, h20⟩, hbo⟩, hdtB⟩,
    hcurB⟩, hamtB⟩, hicB⟩, hiaB⟩, hocaB⟩, hocnB⟩, hoiB⟩, hscB⟩, hrcB⟩,
    hiiB⟩, hawiB⟩, hbaB⟩, hbnB⟩, hben⟩, hremB⟩, hchgB⟩, hs2rB⟩, huB⟩,
    hmB⟩ := hg
  rw [decide_eq_true_eq] at hmt
  obtain ⟨ref, href, hrefS, hreflen⟩ := reqLeB_elim _ _ _ h20
  have hopm := memOptB_elim _ _ _ (str "CRED") (by decide) hbo
  obtain ⟨dt, hdt, hdtd, hdt6⟩ := dateReqB_elim _ hdtB
  obtain ⟨cur, hcur, hcuru, hcur3⟩ := curReqB_elim _ hcurB
  obtain ⟨amt, hamt, hamtc⟩ := amtReqB_elim _ hamtB
  have hchm := memOptB_elim _ _ _ (str "SHA") (by decide) hchgB
  have hamtA : ∀ a, gf input.fields "amount" = some a →
      canonicalIntStr a = true := by
    intro a ha
    rw [hamt] at ha
    injection ha with ha
    rw [← ha]
    exact hamtc
  have hdtA : ∀ v, gf input.fields "valueDate" = some v →
      ∀ c ∈ v, isDigitC c = true := by
    intro v hv
    rw [hdt] at hv
    injection hv with hv
    rw [← hv]
    exact hdtd
  have hcurA : ∀ v, gf input.fields "currency" = some v →
      ∀ c ∈ v, isUpperAZ c = true := by
    intro v hv
    rw [hcur] at hv
    injection hv with hv
    rw [← hv]
    exact hcuru
  have h20A : ∀ v, gf input.fields "senderReference" = some v →
      ∀ c ∈ v, safeChar c = true := by
    intro v hv
    rw [href] at hv
    injection hv with hv
    rw [← hv]
    exact hrefS
  have h20b : ∀ v, gf input.fields "senderReference" = some v →
      v.length ≤ 16 := by
    intro v hv
    rw [href] at hv
    injection hv with hv
    rw [← hv]
    exact hreflen
  have hicS := goodOptB_elim _ _ hicB
  have hiaA := amtOptB_elim _ _ hiaB
  have hocaS := goodOptB_elim _ _ hocaB
  have hocnS := goodOptB_elim _ _ hocnB
  have hoiS := goodOptB_elim _ _ hoiB
  have hscS := goodOptB_elim _ _ hscB
  have hrcS := goodOptB_elim _ _ hrcB
  have hiiS := goodOptB_elim _ _ hiiB
  have hawiS := goodOptB_elim _ _ hawiB
  have hbaS := goodOptB_elim _ _ hbaB
  have hbnS := goodOptB_elim _ _ hbnB
  have hremE := goodOptLeB_elim _ _ _ hremB
  have hs2rE := goodOptLeB_elim _ _ _ hs2rB
  have huE := noBraceB_elim _ _ huB
  have hmE := noBraceB_elim _ _ hmB
  have hwf := wf_segs103 input.fields h20A hopm hdtA hcurA hamtA hicS hiaA
    hocaS hocnS hoiS hscS hrcS hiiS hawiS hbaS hbnS
    (fun v hv => (hremE v hv).1) hchm (fun v hv => (hs2rE v hv).1)
  obtain ⟨segrest, hhead⟩ := segs103_head input.fields ref href
  have hcontent := generateMT103Content_eq input.fields hopm hchm hamtA hiaA
  have hb4 : generateBlock4 (stripFirstMT input.messageType) input.fields =
      Except.ok (obr :: str "4:\r\n" ++
        (joinCRLF (segsLines (segs103 input.fields)) ++ str "\r\n") ++
        str "-" ++ [cbr]) := by
    rw [hmt, stripFirstMT_MT103, generateBlock4, if_pos rfl, hcontent]
    rfl
  have hout := generateMtMessage_ok input _ hsv hrv hb4
  rw [hmt, stripFirstMT_MT103] at hout
  obtain ⟨hdmt, hdtb⟩ := parse_generated_msg
    (normalizeBicTo12 (validateBic input.senderBic).normalized)
    (normalizeBicTo12 (validateBic input.receiverBic).normalized)
    (str "103") input.fields (segs103 input.fields)
    (bic_chars_of_valid input.senderBic hsv)
    (bic_chars_of_valid input.receiverBic hrv)
    (by decide) (by decide) hwf _ segrest hhead huE hmE
  rw [segs103_map] at hdtb
  obtain ⟨r, hr, hrv'⟩ := validate103_of_parse _ input.fields ref dt cur amt
    hdmt hdtb href hdt hdtd hdt6 hcur hcuru hcur3 hamt hamtc hchm hben
    h20b (fun v hv => (hremE v hv).2) (fun v hv => (hs2rE v hv).2)
  exact ⟨_, r, hout, hr, hrv'⟩

/-! ## Round-trip machinery: MT202 -/

theorem wf_segs202 (fields : List (Str × Str))
    (h20 : ∀ v, gf fields "transactionReference" = some v →
      ∀ c ∈ v, safeChar c = true)
    (h21 : ∀ v, gf fields "relatedReference" = some v →
      ∀ c ∈ v, safeChar c = true)
    (hdt : ∀ v, gf fields "valueDate" = some v → ∀ c ∈ v, isDigitC c = true)
    (hcur : ∀ v, gf fields "currency" = some v → ∀ c ∈ v, isUpperAZ c = true)
    (hamt : ∀ v, gf fields "amount" = some v → canonicalIntStr v = true)
    (hoi : ∀ v, gf fields "orderingInstitution" = some v →
      ∀ c ∈ v, safeChar c = true)
    (hsc : ∀ v, gf fields "sendersCorrespondent" = some v →
      ∀ c ∈ v, safeChar c = true)
    (hrc : ∀ v, gf fields "receiversCorrespondent" = some v →
      ∀ c ∈ v, safeChar c = true)
    (hin : ∀ v, gf fields "intermediary" = some v →
      ∀ c ∈ v, safeChar c = true)
    (hawi : ∀ v, gf fields "accountWithInstitution" = some v →
      ∀ c ∈ v, safeChar c = true)
    (hbi : ∀ v, gf fields "beneficiaryInstitution" = some v →
      ∀ c ∈ v, safeChar c = true)
    (hs2r : ∀ v, gf fields "senderToReceiverInfo" = some v →
      ∀ c ∈ v, safeChar c = true) :
    ∀ s ∈ segs202 fields, wfSeg s := by
  intro s hs
  rw [segs202] at hs
  simp only [List.mem_append] at hs
  rcases hs with ((((((((hs | hs) | hs) | hs) | hs) | hs) | hs) | hs) |
    hs) | hs
  · exact wf_optSeg fields "transactionReference" "20" (by decide)
      (fun v hv => tagSplit_two '2' '0' v (by decide) hv) (by decide) h20 s hs
  · exact wf_optSeg fields "relatedReference" "21" (by decide)
      (fun v hv => tagSplit_two '2' '1' v (by decide) hv) (by decide) h21 s hs
  · exact wf_seg32A fields hdt hcur hamt s hs
  · exact wf_optSeg fields "orderingInstitution" "52A" (by decide)
      (fun v hv => tagSplit_three '5' '2' 'A' v (by decide) (by decide)
        (by decide) hv) (by decide) hoi s hs
  · exact wf_optSeg fields "sendersCorrespondent" "53A" (by decide)
      (fun v hv => tagSplit_three '5' '3' 'A' v (by decide) (by decide)
        (by decide) hv) (by decide) hsc s hs
  · exact wf_optSeg fields "receiversCorrespondent" "54A" (by decide)
      (fun v hv => tagSplit_three '5' '4' 'A' v (by decide) (by decide)
        (by decide) hv) (by decide) hrc s hs
  · exact wf_optSeg fields "intermediary" "56A" (by decide)
      (fun v hv => tagSplit_three '5' '6' 'A' v (by decide) (by decide)
        (by decide) hv) (by decide) hin s hs
  · exact wf_optSeg fields "accountWithInstitution" "57A" (by decide)
      (fun v hv => tagSplit_three '5' '7' 'A' v (by decide) (by decide)
        (by decide) hv) (by decide) hawi s hs
  · exact wf_optSeg fields "beneficiaryInstitution" "58A" (by decide)
      (fun v hv => tagSplit_three '5' '8' 'A' v (by decide) (by decide)
        (by decide) hv) (by decide) hbi s hs
  · exact wf_optSeg fields "senderToReceiverInfo" "72" (by decide)
      (fun v hv => tagSplit_two '7' '2' v (by decide) hv) (by decide) hs2r s hs

theorem segs202_head (fields : List (Str × Str)) (ref : Str)
    (href : gf fields "transactionReference" = some ref) :
    ∃ rest, segs202 fields = (⟨str "20", ref, []⟩ : GSeg) :: rest := by
  rw [segs202,
    show optSeg fields "transactionReference" "20" =
      [(⟨str "20", ref, []⟩ : GSeg)] from by simp [optSeg, href]]
  exact ⟨_, rfl⟩

theorem lookups202_20 (fields : List (Str × Str)) (ref : Str)
    (href : gf fields "transactionReference" = some ref) :
    lookupKey ((segs202 fields).map segEntry) (str "20") =
      some (FieldVal.scalar ref) := by
  rw [segs202]
  simp only [List.map_append, List.append_assoc]
  rw [show optSeg fields "transactionReference" "20" =
    [(⟨str "20", ref, []⟩ : GSeg)] from by simp [optSeg, href]]
  rw [show List.map segEntry [(⟨str "20", ref, []⟩ : GSeg)] =
    [(str "20", FieldVal.scalar ref)] from by
      simp [segEntry, segVal_single _ _
        (gf_ne_nil fields "transactionReference" ref href)]]
  rw [List.singleton_append]
  exact lookup_map_cons_hit _ _ _

theorem lookups202_21 (fields : List (Str × Str)) (rel : Str)
    (hrel : gf fields "relatedReference" = some rel) :
    lookupKey ((segs202 fields).map segEntry) (str "21") =
      some (FieldVal.scalar rel) := by
  rw [segs202]
  simp only [List.map_append, List.append_assoc]
  rw [lookup_skip_chunk (optSeg fields "transactionReference" "20") _ _
    (fun s hs => by
      rw [optSeg_tags fields "transactionReference" "20" s hs]
      decide)]
  rw [show optSeg fields "relatedReference" "21" =
    [(⟨str "21", rel, []⟩ : GSeg)] from by simp [optSeg, hrel]]
  rw [show List.map segEntry [(⟨str "21", rel, []⟩ : GSeg)] =
    [(str "21", FieldVal.scalar rel)] from by
      simp [segEntry, segVal_single _ _
        (gf_ne_nil fields "relatedReference" rel hrel)]]
  rw [List.singleton_append]
  exact lookup_map_cons_hit _ _ _

theorem lookups202_32A (fields : List (Str × Str)) (dt cur amt : Str)
    (hdt : gf fields "valueDate" = some dt)
    (hcur : gf fields "currency" = some cur)
    (hamt : gf fields "amount" = some amt) :
    lookupKey ((segs202 fields).map segEntry) (str "32A") =
      some (FieldVal.scalar (dt ++ (cur ++ (amt ++ str ",00")))) := by
  rw [segs202]
  simp only [List.map_append, List.append_assoc]
  rw [lookup_skip_chunk (optSeg fields "transactionReference" "20") _ _
    (fun s hs => by
      rw [optSeg_tags fields "transactionReference" "20" s hs]
      decide)]
  rw [lookup_skip_chunk (optSeg fields "relatedReference" "21") _ _
    (fun s hs => by
      rw [optSeg_tags fields "relatedReference" "21" s hs]
      decide)]
  rw [show seg32A fields =
    [(⟨str "32A", dt ++ (cur ++ (amt ++ str ",00")), []⟩ : GSeg)] from by
      simp [seg32A, hdt, hcur, hamt]]
  rw [show List.map segEntry
      [(⟨str "32A", dt ++ (cur ++ (amt ++ str ",00")), []⟩ : GSeg)] =
    [(str "32A", FieldVal.scalar (dt ++ (cur ++ (amt ++ str ",00"))))] from by
      simp [segEntry, segVal_single _ _
        (append_ne_nil_left _ _ (gf_ne_nil fields "valueDate" dt hdt))]]
  rw [List.singleton_append]
  exact lookup_map_cons_hit _ _ _

theorem lookups202_58A (fields : List (Str × Str)) (bi : Str)
    (hbi : gf fields "beneficiaryInstitution" = some bi) :
    lookupKey ((segs202 fields).map segEntry) (str "58A") =
      some (FieldVal.scalar bi) := by
  rw [segs202]
  simp only [List.map_append, List.append_assoc]
  rw [lookup_skip_chunk (optSeg fields "transactionReference" "20") _ _
    (fun s hs => by
      rw [optSeg_tags fields "transactionReference" "20" s hs]
      decide)]
  rw [lookup_skip_chunk (optSeg fields "relatedReference" "21") _ _
    (fun s hs => by
      rw [optSeg_tags fields "relatedReference" "21" s hs]
      decide)]
  rw [lookup_skip_chunk (seg32A fields) _ _
    (fun s hs => by rw [seg32A_tags fields s hs]; decide)]
  rw [lookup_skip_chunk (optSeg fields "orderingInstitution" "52A") _ _
    (fun s hs => by rw [optSeg_tags fields "orderingInstitution" "52A" s hs]
                    decide)]
  rw [lookup_skip_chunk (optSeg fields "sendersCorrespondent" "53A") _ _
    (fun s hs => by rw [optSeg_tags fields "sendersCorrespondent" "53A" s hs]
                    decide)]
  rw [lookup_skip_chunk (optSeg fields "receiversCorrespondent" "54A") _ _
    (fun s hs => by
      rw [optSeg_tags fields "receiversCorrespondent" "54A" s hs]
      decide)]
  rw [lookup_skip_chunk (optSeg fields "intermediary" "56A") _ _
    (fun s hs => by rw [optSeg_tags fields "intermediary" "56A" s hs]
                    decide)]
  rw [lookup_skip_chunk (optSeg fields "accountWithInstitution" "57A") _ _
    (fun s hs => by
      rw [optSeg_tags fields "accountWithInstitution" "57A" s hs]
      decide)]
  rw [show optSeg fields "beneficiaryInstitution" "58A" =
    [(⟨str "58A", bi, []⟩ : GSeg)] from by simp [optSeg, hbi]]
  rw [show List.map segEntry [(⟨str "58A", bi, []⟩ : GSeg)] =
    [(str "58A", FieldVal.scalar bi)] from by
      simp [segEntry, segVal_single _ _
        (gf_ne_nil fields "beneficiaryInstitution" bi hbi)]]
  rw [List.singleton_append]
  exact lookup_map_cons_hit _ _ _

theorem mand202_nil (fields : List (Str × Str)) (ref rel dt cur amt bi : Str)
    (href : gf fields "transactionReference" = some ref)
    (hrel : gf fields "relatedReference" = some rel)
    (hdt : gf fields "valueDate" = some dt)
    (hcur : gf fields "currency" = some cur)
    (hamt : gf fields "amount" = some amt)
    (hbi : gf fields "beneficiaryInstitution" = some bi) :
    mandatoryErrors mt202Spec.fields ((segs202 fields).map segEntry) = [] := by
  apply mandatoryErrors_nil_of
  intro f hf hfm
  simp only [mt202Spec, mkFS, mkFSA] at hf
  fin_cases hf <;> first | exact absurd hfm (by decide) | skip
  · show isMissing (lookupKey ((segs202 fields).map segEntry)
      (str "20")) = false
    rw [lookups202_20 fields ref href]
    exact isMissing_scalar ref (gf_ne_nil _ _ _ href)
  · show isMissing (lookupKey ((segs202 fields).map segEntry)
      (str "21")) = false
    rw [lookups202_21 fields rel hrel]
    exact isMissing_scalar rel (gf_ne_nil _ _ _ hrel)
  · show isMissing (lookupKey ((segs202 fields).map segEntry)
      (str "32A")) = false
    rw [lookups202_32A fields dt cur amt hdt hcur hamt]
    exact isMissing_scalar _
      (append_ne_nil_left _ _ (gf_ne_nil _ _ _ hdt))
  · show isMissing (lookupKey ((segs202 fields).map segEntry)
      (str "58A")) = false
    rw [lookups202_58A fields bi hbi]
    exact isMissing_scalar bi (gf_ne_nil _ _ _ hbi)

theorem fmt202_nil (fields : List (Str × Str))
    (h20b : ∀ v, gf fields "transactionReference" = some v → v.length ≤ 16)
    (h21b : ∀ v, gf fields "relatedReference" = some v → v.length ≤ 16)
    (hs2rb : ∀ v, gf fields "senderToReceiverInfo" = some v →
      v.length ≤ 210) :
    (formatChecks mt202Spec.fields ((segs202 fields).map segEntry)).1 =
      [] := by
  apply formatChecks_fst_nil
  intro tv htv
  obtain ⟨s, hsm, rfl⟩ := List.mem_map.mp htv
  rw [segs202] at hsm
  simp only [List.mem_append] at hsm
  rcases hsm with ((((((((h | h) | h) | h) | h) | h) | h) | h) | h) | h
  · obtain ⟨v, hv, rfl⟩ := mem_optSeg _ _ _ s h
    refine fmtOk_of_le mt202Spec.fields _
      (mkFS "20" "Transaction Reference Number" true (some 16)) 16
      (by rw [show (segEntry (⟨str "20", v, []⟩ : GSeg)).1 = str "20"
            from rfl]
          decide) rfl ?_
    rw [show (segEntry (⟨str "20", v, []⟩ : GSeg)).2 =
      segVal ⟨str "20", v, []⟩ from rfl,
      segVal_single _ _ (gf_ne_nil _ _ _ hv)]
    exact h20b v hv
  · obtain ⟨v, hv, rfl⟩ := mem_optSeg _ _ _ s h
    refine fmtOk_of_le mt202Spec.fields _
      (mkFS "21" "Related Reference" true (some 16)) 16
      (by rw [show (segEntry (⟨str "21", v, []⟩ : GSeg)).1 = str "21"
            from rfl]
          decide) rfl ?_
    rw [show (segEntry (⟨str "21", v, []⟩ : GSeg)).2 =
      segVal ⟨str "21", v, []⟩ from rfl,
      segVal_single _ _ (gf_ne_nil _ _ _ hv)]
    exact h21b v hv
  · exact fmtOk_of_none _ _
      (mkFS "32A" "Value Date/Currency/Amount" true none)
      (by rw [show (segEntry s).1 = s.tag from rfl, seg32A_tags fields s h]
          decide) rfl
  · obtain ⟨v, hv, rfl⟩ := mem_optSeg _ _ _ s h
    exact fmtOk_of_none _ _
      (mkFS "52A" "Ordering Institution (BIC)" false none)
      (by rw [show (segEntry (⟨str "52A", v, []⟩ : GSeg)).1 = str "52A"
            from rfl]
          decide) rfl
  · obtain ⟨v, hv, rfl⟩ := mem_optSeg _ _ _ s h
    exact fmtOk_of_none _ _
      (mkFSA "53A" "Sender" "s Correspondent (BIC)" false none)
      (by rw [show (segEntry (⟨str "53A", v, []⟩ : GSeg)).1 = str "53A"
            from rfl]
          decide) rfl
  · obtain ⟨v, hv, rfl⟩ := mem_optSeg _ _ _ s h
    exact fmtOk_of_none _ _
      (mkFSA "54A" "Receiver" "s Correspondent (BIC)" false none)
      (by rw [show (segEntry (⟨str "54A", v, []⟩ : GSeg)).1 = str "54A"
            from rfl]
          decide) rfl
  · obtain ⟨v, hv, rfl⟩ := mem_optSeg _ _ _ s h
    exact fmtOk_of_none _ _
      (mkFS "56A" "Intermediary (BIC)" false none)
      (by rw [show (segEntry (⟨str "56A", v, []⟩ : GSeg)).1 = str "56A"
            from rfl]
          decide) rfl
  · obtain ⟨v, hv, rfl⟩ := mem_optSeg _ _ _ s h
    exact fmtOk_of_none _ _
      (mkFS "57A" "Account With Institution (BIC)" false none)
      (by rw [show (segEntry (⟨str "57A", v, []⟩ : GSeg)).1 = str "57A"
            from rfl]
          decide) rfl
  · obtain ⟨v, hv, rfl⟩ := mem_optSeg _ _ _ s h
    exact fmtOk_of_none _ _
      (mkFS "58A" "Beneficiary Institution (BIC)" true none)
      (by rw [show (segEntry (⟨str "58A", v, []⟩ : GSeg)).1 = str "58A"
            from rfl]
          decide) rfl
  · obtain ⟨v, hv, rfl⟩ := mem_optSeg _ _ _ s h
    refine fmtOk_of_le mt202Spec.fields _
      (mkFS "72" "Sender to Receiver Information" false (some 210)) 210
      (by rw [show (segEntry (⟨str "72", v, []⟩ : GSeg)).1 = str "72"
            from rfl]
          decide) rfl ?_
    rw [show (segEntry (⟨str "72", v, []⟩ : GSeg)).2 =
      segVal ⟨str "72", v, []⟩ from rfl,
      segVal_single _ _ (gf_ne_nil _ _ _ hv)]
    exact hs2rb v hv

theorem validate202_of_parse (p : ParsedMtMessage)
    (fields : List (Str × Str)) (ref rel dt cur amt bi : Str)
    (hpmt : p.messageType = str "MT" ++ str "202")
    (hptb : p.textBlock = (segs202 fields).map segEntry)
    (href : gf fields "transactionReference" = some ref)
    (hrel : gf fields "relatedReference" = some rel)
    (hdt : gf fields "valueDate" = some dt)
    (hcur : gf fields "currency" = some cur)
    (hamt : gf fields "amount" = some amt)
    (hbi : gf fields "beneficiaryInstitution" = some bi)
    (h20b : ∀ v, gf fields "transactionReference" = some v →
      v.length ≤ 16)
    (h21b : ∀ v, gf fields "relatedReference" = some v → v.length ≤ 16)
    (hs2rb : ∀ v, gf fields "senderToReceiverInfo" = some v →
      v.length ≤ 210) :
    ∃ r, validateCore p = Except.ok r ∧ r.valid = true := by
  have hspec : specFor (str "MT" ++ stripFirstMT p.messageType) =
      some mt202Spec := by
    rw [hpmt]
    rfl
  have hsp : specificsFor (stripFirstMT p.messageType) p.textBlock =
      Except.ok ([], []) := by
    rw [hpmt]
    rfl
  have hval := validateCore_build p mt202Spec _ hspec hsp
  have hallE : allErrors mt202Spec p.textBlock ([], []) = [] := by
    rw [allErrors, hptb,
      mand202_nil fields ref rel dt cur amt bi href hrel hdt hcur hamt hbi,
      fmt202_nil fields h20b h21b hs2rb]
    rfl
  rw [hallE] at hval
  exact ⟨_, hval, rfl⟩

/-- A well-formed MT202 generation input: valid BICs, both references and
the 32A components and the beneficiary institution supplied with safe
characters and within bounds, optional institution fields safe, and
brace-free block-3 fields. -/
def good202 (input : MtMessageInput) : Bool :=
  decide (input.messageType = str "MT202") &&
  (validateBic input.senderBic).valid &&
  (validateBic input.receiverBic).valid &&
  reqLeB input.fields "transactionReference" 16 &&
  reqLeB input.fields "relatedReference" 16 &&
  dateReqB input.fields && curReqB input.fields && amtReqB input.fields &&
  goodOptB input.fields "orderingInstitution" &&
  goodOptB input.fields "sendersCorrespondent" &&
  goodOptB input.fields "receiversCorrespondent" &&
  goodOptB input.fields "intermediary" &&
  goodOptB input.fields "accountWithInstitution" &&
  reqB input.fields "beneficiaryInstitution" &&
  goodOptLeB input.fields "senderToReceiverInfo" 210 &&
  noBraceB input.fields "uetr" && noBraceB input.fields "mur"

theorem mt202_roundtrip (input : MtMessageInput)
    (hg : good202 input = true) :
    ∃ out r, generateMtMessage input = Except.ok out ∧
      validateMtMessage (Sum.inl out) = Except.ok r ∧ r.valid = true := by
  simp only [good202, Bool.and_eq_true] at hg
  obtain ⟨⟨⟨⟨⟨⟨⟨⟨⟨⟨⟨⟨⟨⟨⟨⟨hmt, hsv⟩, hrv⟩, h20⟩, h21⟩, hdtB⟩, hcurB⟩,
    hamtB⟩, hoiB⟩, hscB⟩, hrcB⟩, hinB⟩, hawiB⟩, hbiB⟩, hs2rB⟩, huB⟩,
    hmB⟩ := hg
  rw [decide_eq_true_eq] at hmt
  obtain ⟨ref, href, hrefS, hreflen⟩ := reqLeB_elim _ _ _ h20
  obtain ⟨rel, hrel, hrelS, hrellen⟩ := reqLeB_elim _ _ _ h21
  obtain ⟨dt, hdt, hdtd, hdt6⟩ := dateReqB_elim _ hdtB
  obtain ⟨cur, hcur, hcuru, hcur3⟩ := curReqB_elim _ hcurB
  obtain ⟨amt, hamt, hamtc⟩ := amtReqB_elim _ hamtB
  obtain ⟨bi, hbi, hbiS⟩ := reqB_elim _ _ hbiB
  have hamtA : ∀ a, gf input.fields "amount" = some a →
      canonicalIntStr a = true := by
    intro a ha
    rw [hamt] at ha
    injection ha with ha
    rw [← ha]
    exact hamtc
  have hdtA : ∀ v, gf input.fields "valueDate" = some v →
      ∀ c ∈ v, isDigitC c = true := by
    intro v hv
    rw [hdt] at hv
    injection hv with hv
    rw [← hv]
    exact hdtd
  have hcurA : ∀ v, gf input.fields "currency" = some v →
      ∀ c ∈ v, isUpperAZ c = true := by
    intro v hv
    rw [hcur] at hv
    injection hv with hv
    rw [← hv]
    exact hcuru
  have h20A : ∀ v, gf input.fields "transactionReference" = some v →
      ∀ c ∈ v, safeChar c = true := by
    intro v hv
    rw [href] at hv
    injection hv with hv
    rw [← hv]
    exact hrefS
  have h20b : ∀ v, gf input.fields "transactionReference" = some v →
      v.length ≤ 16 := by
    intro v hv
    rw [href] at hv
    injection hv with hv
    rw [← hv]
    exact hreflen
  have h21A : ∀ v, gf input.fields "relatedReference" = some v →
      ∀ c ∈ v, safeChar c = true := by
    intro v hv
    rw [hrel] at hv
    injection hv with hv
    rw [← hv]
    exact hrelS
  have h21b : ∀ v, gf input.fields "relatedReference" = some v →
      v.length ≤ 16 := by
    intro v hv
    rw [hrel] at hv
    injection hv with hv
    rw [← hv]
    exact hrellen
  have hbiA : ∀ v, gf input.fields "beneficiaryInstitution" = some v →
      ∀ c ∈ v, safeChar c = true := by
    intro v hv
    rw [hbi] at hv
    injection hv with hv
    rw [← hv]
    exact hbiS
  have hoiS := goodOptB_elim _ _ hoiB
  have hscS := goodOptB_elim _ _ hscB
  have hrcS := goodOptB_elim _ _ hrcB
  have hinS := goodOptB_elim _ _ hinB
  have hawiS := goodOptB_elim _ _ hawiB
  have hs2rE := goodOptLeB_elim _ _ _ hs2rB
  have huE := noBraceB_elim _ _ huB
  have hmE := noBraceB_elim _ _ hmB
  have hwf := wf_segs202 input.fields h20A h21A hdtA hcurA hamtA hoiS hscS
    hrcS hinS hawiS hbiA (fun v hv => (hs2rE v hv).1)
  obtain ⟨segrest, hhead⟩ := segs202_head input.fields ref href
  have hcontent := generateMT202Content_eq input.fields hamtA
  have hb4 : generateBlock4 (stripFirstMT input.messageType) input.fields =
      Except.ok (obr :: str "4:\r\n" ++
        (joinCRLF (segsLines (segs202 input.fields)) ++ str "\r\n") ++
        str "-" ++ [cbr]) := by
    rw [hmt, show stripFirstMT (str "MT202") = str "202" from rfl,
      generateBlock4, if_neg (by decide), if_pos rfl, hcontent]
    rfl
  have hout := generateMtMessage_ok input _ hsv hrv hb4
  rw [hmt, show stripFirstMT (str "MT202") = str "202" from rfl] at hout
  obtain ⟨hdmt, hdtb⟩ := parse_generated_msg
    (normalizeBicTo12 (validateBic input.senderBic).normalized)
    (normalizeBicTo12 (validateBic input.receiverBic).normalized)
    (str "202") input.fields (segs202 input.fields)
    (bic_chars_of_valid input.senderBic hsv)
    (bic_chars_of_valid input.receiverBic hrv)
    (by decide) (by decide) hwf _ segrest hhead huE hmE
  rw [segs202_map] at hdtb
  obtain ⟨r, hr, hrv'⟩ := validate202_of_parse _ input.fields ref rel dt cur
    amt bi hdmt hdtb href hrel hdt hcur hamt hbi h20b h21b
    (fun v hv => (hs2rE v hv).2)
  exact ⟨_, r, hout, hr, hrv'⟩

/-! ## Round-trip machinery: MT940 -/

theorem lookup_map_segs_none (segs : List GSeg) (t : Str)
    (h : ∀ s ∈ segs, s.tag ≠ t) :
    lookupKey (segs.map segEntry) t = none := by
  induction segs with
  | nil => rfl
  | cons s rest ih =>
    rw [List.map_cons, show segEntry s = (s.tag, segVal s) from rfl]
    simp only [lookupKey]
    rw [if_neg (h s (by simp)), ih (fun x hx => h x (by simp [hx]))]

theorem segs940_tag_mem (fields : List (Str × Str)) :
    ∀ s ∈ segs940 fields, s.tag ∈
      [str "20", str "25", str "28C", str "60F", str "61", str "62F",
       str "64"] := by
  intro s hs
  rw [segs940] at hs
  simp only [List.mem_append] at hs
  rcases hs with (((((hs | hs) | hs) | hs) | hs) | hs) | hs
  · rw [optSeg_tags fields "transactionReference" "20" s hs]; simp
  · rw [optSeg_tags fields "accountId" "25" s hs]; simp
  · rw [optSeg_tags fields "statementNumber" "28C" s hs]; simp
  · rw [optSeg_tags fields "openingBalance" "60F" s hs]; simp
  · rw [seg61_tags fields s hs]; simp
  · rw [optSeg_tags fields "closingBalance" "62F" s hs]; simp
  · rw [optSeg_tags fields "closingAvailableBalance" "64" s hs]; simp

theorem lookups940_none (fields : List (Str × Str)) (t : Str)
    (ht : ∀ u ∈ [str "20", str "25", str "28C", str "60F", str "61",
      str "62F", str "64"], u ≠ t) :
    lookupKey ((segs940 fields).map segEntry) t = none :=
  lookup_map_segs_none _ _
    (fun s hs => ht _ (segs940_tag_mem fields s hs))

theorem wf_segs940 (fields : List (Str × Str))
    (h20 : ∀ v, gf fields "transactionReference" = some v →
      ∀ c ∈ v, safeChar c = true)
    (h25 : ∀ v, gf fields "accountId" = some v →
      ∀ c ∈ v, safeChar c = true)
    (h28 : ∀ v, gf fields "statementNumber" = some v →
      ∀ c ∈ v, safeChar c = true)
    (h60 : ∀ v, gf fields "openingBalance" = some v →
      ∀ c ∈ v, safeChar c = true)
    (hst : ∀ v, gf fields "statementLines" = some v →
      ∀ c ∈ v, safeChar c = true)
    (h62 : ∀ v, gf fields "closingBalance" = some v →
      ∀ c ∈ v, safeChar c = true)
    (h64 : ∀ v, gf fields "closingAvailableBalance" = some v →
      ∀ c ∈ v, safeChar c = true) :
    ∀ s ∈ segs940 fields, wfSeg s := by
  intro s hs
  rw [segs940] at hs
  simp only [List.mem_append] at hs
  rcases hs with (((((hs | hs) | hs) | hs) | hs) | hs) | hs
  · exact wf_optSeg fields "transactionReference" "20" (by decide)
      (fun v hv => tagSplit_two '2' '0' v (by decide) hv) (by decide) h20 s hs
  · exact wf_optSeg fields "accountId" "25" (by decide)
      (fun v hv => tagSplit_two '2' '5' v (by decide) hv) (by decide) h25 s hs
  · exact wf_optSeg fields "statementNumber" "28C" (by decide)
      (fun v hv => tagSplit_three '2' '8' 'C' v (by decide) (by decide)
        (by decide) hv) (by decide) h28 s hs
  · exact wf_optSeg fields "openingBalance" "60F" (by decide)
      (fun v hv => tagSplit_three '6' '0' 'F' v (by decide) (by decide)
        (by decide) hv) (by decide) h60 s hs
  · exact wf_seg61 fields hst s hs
  · exact wf_optSeg fields "closingBalance" "62F" (by decide)
      (fun v hv => tagSplit_three '6' '2' 'F' v (by decide) (by decide)
        (by decide) hv) (by decide) h62 s hs
  · exact wf_optSeg fields "closingAvailableBalance" "64" (by decide)
      (fun v hv => tagSplit_two '6' '4' v (by decide) hv) (by decide) h64 s hs

theorem segs940_head (fields : List (Str × Str)) (ref : Str)
    (href : gf fields "transactionReference" = some ref) :
    ∃ rest, segs940 fields = (⟨str "20", ref, []⟩ : GSeg) :: rest := by
  rw [segs940,
    show optSeg fields "transactionReference" "20" =
      [(⟨str "20", ref, []⟩ : GSeg)] from by simp [optSeg, href]]
  exact ⟨_, rfl⟩

theorem lookups940_20 (fields : List (Str × Str)) (ref : Str)
    (href : gf fields "transactionReference" = some ref) :
    lookupKey ((segs940 fields).map segEntry) (str "20") =
      some (FieldVal.scalar ref) := by
  rw [segs940]
  simp only [List.map_append, List.append_assoc]
  rw [show optSeg fields "transactionReference" "20" =
    [(⟨str "20", ref, []⟩ : GSeg)] from by simp [optSeg, href]]
  rw [show List.map segEntry [(⟨str "20", ref, []⟩ : GSeg)] =
    [(str "20", FieldVal.scalar ref)] from by
      simp [segEntry, segVal_single _ _
        (gf_ne_nil fields "transactionReference" ref href)]]
  rw [List.singleton_append]
  exact lookup_map_cons_hit _ _ _

theorem lookups940_25 (fields : List (Str × Str)) (acct : Str)
    (hacct : gf fields "accountId" = some acct) :
    lookupKey ((segs940 fields).map segEntry) (str "25") =
      some (FieldVal.scalar acct) := by
  rw [segs940]
  simp only [List.map_append, List.append_assoc]
  rw [lookup_skip_chunk (optSeg fields "transactionReference" "20") _ _
    (fun s hs => by
      rw [optSeg_tags fields "transactionReference" "20" s hs]
      decide)]
  rw [show optSeg fields "accountId" "25" =
    [(⟨str "25", acct, []⟩ : GSeg)] from by simp [optSeg, hacct]]
  rw [show List.map segEntry [(⟨str "25", acct, []⟩ : GSeg)] =
    [(str "25", FieldVal.scalar acct)] from by
      simp [segEntry, segVal_single _ _
        (gf_ne_nil fields "accountId" acct hacct)]]
  rw [List.singleton_append]
  exact lookup_map_cons_hit _ _ _

theorem lookups940_28C (fields : List (Str × Str)) (sn : Str)
    (hsn : gf fields "statementNumber" = some sn) :
    lookupKey ((segs940 fields).map segEntry) (str "28C") =
      some (FieldVal.scalar sn) := by
  rw [segs940]
  simp only [List.map_append, List.append_assoc]
  rw [lookup_skip_chunk (optSeg fields "transactionReference" "20") _ _
    (fun s hs => by
      rw [optSeg_tags fields "transactionReference" "20" s hs]
      decide)]
  rw [lookup_skip_chunk (optSeg fields "accountId" "25") _ _
    (fun s hs => by rw [optSeg_tags fields "accountId" "25" s hs]
                    decide)]
  rw [show optSeg fields "statementNumber" "28C" =
    [(⟨str "28C", sn, []⟩ : GSeg)] from by simp [optSeg, hsn]]
  rw [show List.map segEntry [(⟨str "28C", sn, []⟩ : GSeg)] =
    [(str "28C", FieldVal.scalar sn)] from by
      simp [segEntry, segVal_single _ _
        (gf_ne_nil fields "statementNumber" sn hsn)]]
  rw [List.singleton_append]
  exact lookup_map_cons_hit _ _ _

theorem lookups940_60F (fields : List (Str × Str)) (ob : Str)
    (hob : gf fields "openingBalance" = some ob) :
    lookupKey ((segs940 fields).map segEntry) (str "60F") =
      some (FieldVal.scalar ob) := by
  rw [segs940]
  simp only [List.map_append, List.append_assoc]
  rw [lookup_skip_chunk (optSeg fields "transactionReference" "20") _ _
    (fun s hs => by
      rw [optSeg_tags fields "transactionReference" "20" s hs]
      decide)]
  rw [lookup_skip_chunk (optSeg fields "accountId" "25") _ _
    (fun s hs => by rw [optSeg_tags fields "accountId" "25" s hs]
                    decide)]
  rw [lookup_skip_chunk (optSeg fields "statementNumber" "28C") _ _
    (fun s hs => by rw [optSeg_tags fields "statementNumber" "28C" s hs]
                    decide)]
  rw [show optSeg fields "openingBalance" "60F" =
    [(⟨str "60F", ob, []⟩ : GSeg)] from by simp [optSeg, hob]]
  rw [show List.map segEntry [(⟨str "60F", ob, []⟩ : GSeg)] =
    [(str "60F", FieldVal.scalar ob)] from by
      simp [segEntry, segVal_single _ _
        (gf_ne_nil fields "openingBalance" ob hob)]]
  rw [List.singleton_append]
  exact lookup_map_cons_hit _ _ _

theorem lookups940_62F (fields : List (Str × Str)) (cb : Str)
    (hcb : gf fields "closingBalance" = some cb) :
    lookupKey ((segs940 fields).map segEntry) (str "62F") =
      some (FieldVal.scalar cb) := by
  rw [segs940]
  simp only [List.map_append, List.append_assoc]
  rw [lookup_skip_chunk (optSeg fields "transactionReference" "20") _ _
    (fun s hs => by
      rw [optSeg_tags fields "transactionReference" "20" s hs]
      decide)]
  rw [lookup_skip_chunk (optSeg fields "accountId" "25") _ _
    (fun s hs => by rw [optSeg_tags fields "accountId" "25" s hs]
                    decide)]
  rw [lookup_skip_chunk (optSeg fields "statementNumber" "28C") _ _
    (fun s hs => by rw [optSeg_tags fields "statementNumber" "28C" s hs]
                    decide)]
  rw [lookup_skip_chunk (optSeg fields "openingBalance" "60F") _ _
    (fun s hs => by rw [optSeg_tags fields "openingBalance" "60F" s hs]
                    decide)]
  rw [lookup_skip_chunk (seg61 fields) _ _
    (fun s hs => by rw [seg61_tags fields s hs]; decide)]
  rw [show optSeg fields "closingBalance" "62F" =
    [(⟨str "62F", cb, []⟩ : GSeg)] from by simp [optSeg, hcb]]
  rw [show List.map segEntry [(⟨str "62F", cb, []⟩ : GSeg)] =
    [(str "62F", FieldVal.scalar cb)] from by
      simp [segEntry, segVal_single _ _
        (gf_ne_nil fields "closingBalance" cb hcb)]]
  rw [List.singleton_append]
  exact lookup_map_cons_hit _ _ _

theorem lookups940_64 (fields : List (Str × Str)) :
    lookupKey ((segs940 fields).map segEntry) (str "64") = none ∨
    ∃ v, lookupKey ((segs940 fields).map segEntry) (str "64") =
      some (FieldVal.scalar v) ∧
      gf fields "closingAvailableBalance" = some v := by
  rw [segs940]
  simp only [List.map_append, List.append_assoc]
  rw [lookup_skip_chunk (optSeg fields "transactionReference" "20") _ _
    (fun s hs => by
      rw [optSeg_tags fields "transactionReference" "20" s hs]
      decide)]
  rw [lookup_skip_chunk (optSeg fields "accountId" "25") _ _
    (fun s hs => by rw [optSeg_tags fields "accountId" "25" s hs]
                    decide)]
  rw [lookup_skip_chunk (optSeg fields "statementNumber" "28C") _ _
    (fun s hs => by rw [optSeg_tags fields "statementNumber" "28C" s hs]
                    decide)]
  rw [lookup_skip_chunk (optSeg fields "openingBalance" "60F") _ _
    (fun s hs => by rw [optSeg_tags fields "openingBalance" "60F" s hs]
                    decide)]
  rw [lookup_skip_chunk (seg61 fields) _ _
    (fun s hs => by rw [seg61_tags fields s hs]; decide)]
  rw [lookup_skip_chunk (optSeg fields "closingBalance" "62F") _ _
    (fun s hs => by rw [optSeg_tags fields "closingBalance" "62F" s hs]
                    decide)]
  rcases hca : gf fields "closingAvailableBalance" with _ | v
  · left
    rw [show optSeg fields "closingAvailableBalance" "64" = [] from by
      simp [optSeg, hca]]
    rfl
  · right
    refine ⟨v, ?_, rfl⟩
    rw [show optSeg fields "closingAvailableBalance" "64" =
      [(⟨str "64", v, []⟩ : GSeg)] from by simp [optSeg, hca]]
    rw [show List.map segEntry [(⟨str "64", v, []⟩ : GSeg)] =
      [(str "64", FieldVal.scalar v)] from by
        simp [segEntry, segVal_single _ _
          (gf_ne_nil fields "closingAvailableBalance" v hca)]]
    exact lookup_map_cons_hit _ _ _

theorem mand940_nil (fields : List (Str × Str)) (ref acct sn ob cb : Str)
    (href : gf fields "transactionReference" = some ref)
    (hacct : gf fields "accountId" = some acct)
    (hsn : gf fields "statementNumber" = some sn)
    (hob : gf fields "openingBalance" = some ob)
    (hcb : gf fields "closingBalance" = some cb) :
    mandatoryErrors mt940Spec.fields ((segs940 fields).map segEntry) = [] := by
  apply mandatoryErrors_nil_of
  intro f hf hfm
  simp only [mt940Spec, mkFS, mkFSA] at hf
  fin_cases hf <;> first | exact absurd hfm (by decide) | skip
  · show isMissing (lookupKey ((segs940 fields).map segEntry)
      (str "20")) = false
    rw [lookups940_20 fields ref href]
    exact isMissing_scalar ref (gf_ne_nil _ _ _ href)
  · show isMissing (lookupKey ((segs940 fields).map segEntry)
      (str "25")) = false
    rw [lookups940_25 fields acct hacct]
    exact isMissing_scalar acct (gf_ne_nil _ _ _ hacct)
  · show isMissing (lookupKey ((segs940 fields).map segEntry)
      (str "28C")) = false
    rw [lookups940_28C fields sn hsn]
    exact isMissing_scalar sn (gf_ne_nil _ _ _ hsn)
  · show isMissing (lookupKey ((segs940 fields).map segEntry)
      (str "60F")) = false
    rw [lookups940_60F fields ob hob]
    exact isMissing_scalar ob (gf_ne_nil _ _ _ hob)
  · show isMissing (lookupKey ((segs940 fields).map segEntry)
      (str "62F")) = false
    rw [lookups940_62F fields cb hcb]
    exact isMissing_scalar cb (gf_ne_nil _ _ _ hcb)

theorem fmt940_nil (fields : List (Str × Str))
    (h20b : ∀ v, gf fields "transactionReference" = some v → v.length ≤ 16)
    (h25b : ∀ v, gf fields "accountId" = some v → v.length ≤ 35) :
    (formatChecks mt940Spec.fields ((segs940 fields).map segEntry)).1 =
      [] := by
  apply formatChecks_fst_nil
  intro tv htv
  obtain ⟨s, hsm, rfl⟩ := List.mem_map.mp htv
  rw [segs940] at hsm
  simp only [List.mem_append] at hsm
  rcases hsm with (((((h | h) | h) | h) | h) | h) | h
  · obtain ⟨v, hv, rfl⟩ := mem_optSeg _ _ _ s h
    refine fmtOk_of_le mt940Spec.fields _
      (mkFS "20" "Transaction Reference Number" true (some 16)) 16
      (by rw [show (segEntry (⟨str "20", v, []⟩ : GSeg)).1 = str "20"
            from rfl]
          decide) rfl ?_
    rw [show (segEntry (⟨str "20", v, []⟩ : GSeg)).2 =
      segVal ⟨str "20", v, []⟩ from rfl,
      segVal_single _ _ (gf_ne_nil _ _ _ hv)]
    exact h20b v hv
  · obtain ⟨v, hv, rfl⟩ := mem_optSeg _ _ _ s h
    refine fmtOk_of_le mt940Spec.fields _
      (mkFS "25" "Account Identification" true (some 35)) 35
      (by rw [show (segEntry (⟨str "25", v, []⟩ : GSeg)).1 = str "25"
            from rfl]
          decide) rfl ?_
    rw [show (segEntry (⟨str "25", v, []⟩ : GSeg)).2 =
      segVal ⟨str "25", v, []⟩ from rfl,
      segVal_single _ _ (gf_ne_nil _ _ _ hv)]
    exact h25b v hv
  · obtain ⟨v, hv, rfl⟩ := mem_optSeg _ _ _ s h
    exact fmtOk_of_none _ _
      (mkFS "28C" "Statement Number/Sequence Number" true none)
      (by rw [show (segEntry (⟨str "28C", v, []⟩ : GSeg)).1 = str "28C"
            from rfl]
          decide) rfl
  · obtain ⟨v, hv, rfl⟩ := mem_optSeg _ _ _ s h
    exact fmtOk_of_none _ _
      (mkFS "60F" "Opening Balance (First)" true none)
      (by rw [show (segEntry (⟨str "60F", v, []⟩ : GSeg)).1 = str "60F"
            from rfl]
          decide) rfl
  · exact fmtOk_of_none _ _
      (mkFS "61" "Statement Line" false none)
      (by rw [show (segEntry s).1 = s.tag from rfl, seg61_tags fields s h]
          decide) rfl
  · obtain ⟨v, hv, rfl⟩ := mem_optSeg _ _ _ s h
    exact fmtOk_of_none _ _
      (mkFS "62F" "Closing Balance (Final)" true none)
      (by rw [show (segEntry (⟨str "62F", v, []⟩ : GSeg)).1 = str "62F"
            from rfl]
          decide) rfl
  · obtain ⟨v, hv, rfl⟩ := mem_optSeg _ _ _ s h
    exact fmtOk_of_none _ _
      (mkFS "64" "Closing Available Balance" false none)
      (by rw [show (segEntry (⟨str "64", v, []⟩ : GSeg)).1 = str "64"
            from rfl]
          decide) rfl

theorem spec940_ok (fields : List (Str × Str)) (ob cb : Str)
    (hob : gf fields "openingBalance" = some ob)
    (hcb : gf fields "closingBalance" = some cb) :
    ∃ ws, validateStatementSpecifics ((segs940 fields).map segEntry) =
      Except.ok ([], ws) := by
  have h60 := lookups940_60F fields ob hob
  have h62 := lookups940_62F fields cb hcb
  have hne60 : ob ≠ [] := gf_ne_nil _ _ _ hob
  have hne62 : cb ≠ [] := gf_ne_nil _ _ _ hcb
  have hbal : ∀ t ∈ balanceTags,
      ∃ w, checkBalanceTag ((segs940 fields).map segEntry) t =
        Except.ok w := by
    intro t ht
    simp only [balanceTags, List.mem_cons, List.mem_singleton] at ht
    rcases ht with rfl | rfl | rfl | rfl | rfl | (rfl | hx)
    · exact checkBalanceTag_of_scalar _ _ ob h60
    · exact ⟨[], checkBalanceTag_of_none _ _
        (lookups940_none fields _ (by decide))⟩
    · exact checkBalanceTag_of_scalar _ _ cb h62
    · exact ⟨[], checkBalanceTag_of_none _ _
        (lookups940_none fields _ (by decide))⟩
    · rcases lookups940_64 fields with hn | ⟨v, hv, _⟩
      · exact ⟨[], checkBalanceTag_of_none _ _ hn⟩
      · exact checkBalanceTag_of_scalar _ _ v hv
    · exact ⟨[], checkBalanceTag_of_none _ _
        (lookups940_none fields _ (by decide))⟩
    · simp at hx
  obtain ⟨ws, hws⟩ := checkBalances_ok_of _ balanceTags hbal
  refine ⟨ws, ?_⟩
  simp only [validateStatementSpecifics, hws, Except.map, h60, h62,
    truthy_scalar _ hne60, truthy_scalar _ hne62, Bool.not_true,
    Bool.false_and, if_false]
  rfl

theorem validate940_of_parse (p : ParsedMtMessage)
    (fields : List (Str × Str)) (ref acct sn ob cb : Str)
    (hpmt : p.messageType = str "MT" ++ str "940")
    (hptb : p.textBlock = (segs940 fields).map segEntry)
    (href : gf fields "transactionReference" = some ref)
    (hacct : gf fields "accountId" = some acct)
    (hsn : gf fields "statementNumber" = some sn)
    (hob : gf fields "openingBalance" = some ob)
    (hcb : gf fields "closingBalance" = some cb)
    (h20b : ∀ v, gf fields "transactionReference" = some v →
      v.length ≤ 16)
    (h25b : ∀ v, gf fields "accountId" = some v → v.length ≤ 35) :
    ∃ r, validateCore p = Except.ok r ∧ r.valid = true := by
  obtain ⟨ws, hws⟩ := spec940_ok fields ob cb hob hcb
  have hspec : specFor (str "MT" ++ stripFirstMT p.messageType) =
      some mt940Spec := by
    rw [hpmt]
    rfl
  have hsp : specificsFor (stripFirstMT p.messageType) p.textBlock =
      Except.ok ([], ws) := by
    rw [hpmt, hptb]
    exact hws
  have hval := validateCore_build p mt940Spec _ hspec hsp
  have hallE : allErrors mt940Spec p.textBlock ([], ws) = [] := by
    rw [allErrors, hptb,
      mand940_nil fields ref acct sn ob cb href hacct hsn hob hcb,
      fmt940_nil fields h20b h25b]
    rfl
  rw [hallE] at hval
  exact ⟨_, hval, rfl⟩

/-- A well-formed MT940 generation input: valid BICs, all mandatory
statement values supplied with safe characters and within bounds, optional
statement lines and available balance safe, and brace-free block-3
fields. -/
def good940 (input : MtMessageInput) : Bool :=
  decide (input.messageType = str "MT940") &&
  (validateBic input.senderBic).valid &&
  (validateBic input.receiverBic).valid &&
  reqLeB input.fields "transactionReference" 16 &&
  reqLeB input.fields "accountId" 35 &&
  reqB input.fields "statementNumber" &&
  reqB input.fields "openingBalance" &&
  goodOptB input.fields "statementLines" &&
  reqB input.fields "closingBalance" &&
  goodOptB input.fields "closingAvailableBalance" &&
  noBraceB input.fields "uetr" && noBraceB input.fields "mur"

theorem mt940_roundtrip (input : MtMessageInput)
    (hg : good940 input = true) :
    ∃ out r, generateMtMessage input = Except.ok out ∧
      validateMtMessage (Sum.inl out) = Except.ok r ∧ r.valid = true := by
  simp only [good940, Bool.and_eq_true] at hg
  obtain ⟨⟨⟨⟨⟨⟨⟨⟨⟨⟨⟨hmt, hsv⟩, hrv⟩, h20⟩, h25⟩, h28B⟩, h60B⟩, hstB⟩,
    h62B⟩, h64B⟩, huB⟩, hmB⟩ := hg
  rw [decide_eq_true_eq] at hmt
  obtain ⟨ref, href, hrefS, hreflen⟩ := reqLeB_elim _ _ _ h20
  obtain ⟨acct, hacct, hacctS, hacctlen⟩ := reqLeB_elim _ _ _ h25
  obtain ⟨sn, hsn, hsnS⟩ := reqB_elim _ _ h28B
  obtain ⟨ob, hob, hobS⟩ := reqB_elim _ _ h60B
  obtain ⟨cb, hcb, hcbS⟩ := reqB_elim _ _ h62B
  have h20A : ∀ v, gf input.fields "transactionReference" = some v →
      ∀ c ∈ v, safeChar c = true := by
    intro v hv
    rw [href] at hv
    injection hv with hv
    rw [← hv]
    exact hrefS
  have h20b : ∀ v, gf input.fields "transactionReference" = some v →
      v.length ≤ 16 := by
    intro v hv
    rw [href] at hv
    injection hv with hv
    rw [← hv]
    exact hreflen
  have h25A : ∀ v, gf input.fields "accountId" = some v →
      ∀ c ∈ v, safeChar c = true := by
    intro v hv
    rw [hacct] at hv
    injection hv with hv
    rw [← hv]
    exact hacctS
  have h25b : ∀ v, gf input.fields "accountId" = some v →
      v.length ≤ 35 := by
    intro v hv
    rw [hacct] at hv
    injection hv with hv
    rw [← hv]
    exact hacctlen
  have h28A : ∀ v, gf input.fields "statementNumber" = some v →
      ∀ c ∈ v, safeChar c = true := by
    intro v hv
    rw [hsn] at hv
    injection hv with hv
    rw [← hv]
    exact hsnS
  have h60A : ∀ v, gf input.fields "openingBalance" = some v →
      ∀ c ∈ v, safeChar c = true := by
    intro v hv
    rw [hob] at hv
    injection hv with hv
    rw [← hv]
    exact hobS
  have h62A : ∀ v, gf input.fields "closingBalance" = some v →
      ∀ c ∈ v, safeChar c = true := by
    intro v hv
    rw [hcb] at hv
    injection hv with hv
    rw [← hv]
    exact hcbS
  have hstS := goodOptB_elim _ _ hstB
  have h64S := goodOptB_elim _ _ h64B
  have huE := noBraceB_elim _ _ huB
  have hmE := noBraceB_elim _ _ hmB
  have hwf := wf_segs940 input.fields h20A h25A h28A h60A hstS h62A h64S
  obtain ⟨segrest, hhead⟩ := segs940_head input.fields ref href
  have hcontent := generateMT940Content_eq input.fields
  have hb4 : generateBlock4 (stripFirstMT input.messageType) input.fields =
      Except.ok (obr :: str "4:\r\n" ++
        (joinCRLF (segsLines (segs940 input.fields)) ++ str "\r\n") ++
        str "-" ++ [cbr]) := by
    rw [hmt, show stripFirstMT (str "MT940") = str "940" from rfl,
      generateBlock4, if_neg (by decide), if_neg (by decide), if_pos rfl,
      hcontent]
    rfl
  have hout := generateMtMessage_ok input _ hsv hrv hb4
  rw [hmt, show stripFirstMT (str "MT940") = str "940" from rfl] at hout
  obtain ⟨hdmt, hdtb⟩ := parse_generated_msg
    (normalizeBicTo12 (validateBic input.senderBic).normalized)
    (normalizeBicTo12 (validateBic input.receiverBic).normalized)
    (str "940") input.fields (segs940 input.fields)
    (bic_chars_of_valid input.senderBic hsv)
    (bic_chars_of_valid input.receiverBic hrv)
    (by decide) (by decide) hwf _ segrest hhead huE hmE
  rw [segs940_map input.fields hstS] at hdtb
  obtain ⟨r, hr, hrv'⟩ := validate940_of_parse _ input.fields ref acct sn
    ob cb hdmt hdtb href hacct hsn hob hcb h20b h25b
  exact ⟨_, r, hout, hr, hrv'⟩

/-! ## Round-trip machinery: MT950 -/

theorem segs950_tag_mem (fields : List (Str × Str)) :
    ∀ s ∈ segs950 fields, s.tag ∈
      [str "20", str "25", str "28C", str "60F", str "61", str "62F"] := by
  intro s hs
  rw [segs950] at hs
  simp only [List.mem_append] at hs
  rcases hs with ((((hs | hs) | hs) | hs) | hs) | hs
  · rw [optSeg_tags fields "transactionReference" "20" s hs]; simp
  · rw [optSeg_tags fields "accountId" "25" s hs]; simp
  · rw [optSeg_tags fields "statementNumber" "28C" s hs]; simp
  · rw [optSeg_tags fields "openingBalance" "60F" s hs]; simp
  · rw [seg61_tags fields s hs]; simp
  · rw [optSeg_tags fields "closingBalance" "62F" s hs]; simp

theorem lookups950_none (fields : List (Str × Str)) (t : Str)
    (ht : ∀ u ∈ [str "20", str "25", str "28C", str "60F", str "61",
      str "62F"], u ≠ t) :
    lookupKey ((segs950 fields).map segEntry) t = none :=
  lookup_map_segs_none _ _
    (fun s hs => ht _ (segs950_tag_mem fields s hs))

theorem wf_segs950 (fields : List (Str × Str))
    (h20 : ∀ v, gf fields "transactionReference" = some v →
      ∀ c ∈ v, safeChar c = true)
    (h25 : ∀ v, gf fields "accountId" = some v →
      ∀ c ∈ v, safeChar c = true)
    (h28 : ∀ v, gf fields "statementNumber" = some v →
      ∀ c ∈ v, safeChar c = true)
    (h60 : ∀ v, gf fields "openingBalance" = some v →
      ∀ c ∈ v, safeChar c = true)
    (hst : ∀ v, gf fields "statementLines" = some v →
      ∀ c ∈ v, safeChar c = true)
    (h62 : ∀ v, gf fields "closingBalance" = some v →
      ∀ c ∈ v, safeChar c = true) :
    ∀ s ∈ segs950 fields, wfSeg s := by
  intro s hs
  rw [segs950] at hs
  simp only [List.mem_append] at hs
  rcases hs with ((((hs | hs) | hs) | hs) | hs) | hs
  · exact wf_optSeg fields "transactionReference" "20" (by decide)
      (fun v hv => tagSplit_two '2' '0' v (by decide) hv) (by decide) h20 s hs
  · exact wf_optSeg fields "accountId" "25" (by decide)
      (fun v hv => tagSplit_two '2' '5' v (by decide) hv) (by decide) h25 s hs
  · exact wf_optSeg fields "statementNumber" "28C" (by decide)
      (fun v hv => tagSplit_three '2' '8' 'C' v (by decide) (by decide)
        (by decide) hv) (by decide) h28 s hs
  · exact wf_optSeg fields "openingBalance" "60F" (by decide)
      (fun v hv => tagSplit_three '6' '0' 'F' v (by decide) (by decide)
        (by decide) hv) (by decide) h60 s hs
  · exact wf_seg61 fields hst s hs
  · exact wf_optSeg fields "closingBalance" "62F" (by decide)
      (fun v hv => tagSplit_three '6' '2' 'F' v (by decide) (by decide)
        (by decide) hv) (by decide) h62 s hs

theorem segs950_head (fields : List (Str × Str)) (ref : Str)
    (href : gf fields "transactionReference" = some ref) :
    ∃ rest, segs950 fields = (⟨str "20", ref, []⟩ : GSeg) :: rest := by
  rw [segs950,
    show optSeg fields "transactionReference" "20" =
      [(⟨str "20", ref, []⟩ : GSeg)] from by simp [optSeg, href]]
  exact ⟨_, rfl⟩

theorem lookups950_20 (fields : List (Str × Str)) (ref : Str)
    (href : gf fields "transactionReference" = some ref) :
    lookupKey ((segs950 fields).map segEntry) (str "20") =
      some (FieldVal.scalar ref) := by
  rw [segs950]
  simp only [List.map_append, List.append_assoc]
  rw [show optSeg fields "transactionReference" "20" =
    [(⟨str "20", ref, []⟩ : GSeg)] from by simp [optSeg, href]]
  rw [show List.map segEntry [(⟨str "20", ref, []⟩ : GSeg)] =
    [(str "20", FieldVal.scalar ref)] from by
      simp [segEntry, segVal_single _ _
        (gf_ne_nil fields "transactionReference" ref href)]]
  rw [List.singleton_append]
  exact lookup_map_cons_hit _ _ _

theorem lookups950_25 (fields : List (Str × Str)) (acct : Str)
    (hacct : gf fields "accountId" = some acct) :
    lookupKey ((segs950 fields).map segEntry) (str "25") =
      some (FieldVal.scalar acct) := by
  rw [segs950]
  simp only [List.map_append, List.append_assoc]
  rw [lookup_skip_chunk (optSeg fields "transactionReference" "20") _ _
    (fun s hs => by
      rw [optSeg_tags fields "transactionReference" "20" s hs]
      decide)]
  rw [show optSeg fields "accountId" "25" =
    [(⟨str "25", acct, []⟩ : GSeg)] from by simp [optSeg, hacct]]
  rw [show List.map segEntry [(⟨str "25", acct, []⟩ : GSeg)] =
    [(str "25", FieldVal.scalar acct)] from by
      simp [segEntry, segVal_single _ _
        (gf_ne_nil fields "accountId" acct hacct)]]
  rw [List.singleton_append]
  exact lookup_map_cons_hit _ _ _

theorem lookups950_28C (fields : List (Str × Str)) (sn : Str)
    (hsn : gf fields "statementNumber" = some sn) :
    lookupKey ((segs950 fields).map segEntry) (str "28C") =
      some (FieldVal.scalar sn) := by
  rw [segs950]
  simp only [List.map_append, List.append_assoc]
  rw [lookup_skip_chunk (optSeg fields "transactionReference" "20") _ _
    (fun s hs => by
      rw [optSeg_tags fields "transactionReference" "20" s hs]
      decide)]
  rw [lookup_skip_chunk (optSeg fields "accountId" "25") _ _
    (fun s hs => by rw [optSeg_tags fields "accountId" "25" s hs]
                    decide)]
  rw [show optSeg fields "statementNumber" "28C" =
    [(⟨str "28C", sn, []⟩ : GSeg)] from by simp [optSeg, hsn]]
  rw [show List.map segEntry [(⟨str "28C", sn, []⟩ : GSeg)] =
    [(str "28C", FieldVal.scalar sn)] from by
      simp [segEntry, segVal_single _ _
        (gf_ne_nil fields "statementNumber" sn hsn)]]
  rw [List.singleton_append]
  exact lookup_map_cons_hit _ _ _

theorem lookups950_60F (fields : List (Str × Str)) (ob : Str)
    (hob : gf fields "openingBalance" = some ob) :
    lookupKey ((segs950 fields).map segEntry) (str "60F") =
      some (FieldVal.scalar ob) := by
  rw [segs950]
  simp only [List.map_append, List.append_assoc]
  rw [lookup_skip_chunk (optSeg fields "transactionReference" "20") _ _
    (fun s hs => by
      rw [optSeg_tags fields "transactionReference" "20" s hs]
      decide)]
  rw [lookup_skip_chunk (optSeg fields "accountId" "25") _ _
    (fun s hs => by rw [optSeg_tags fields "accountId" "25" s hs]
                    decide)]
  rw [lookup_skip_chunk (optSeg fields "statementNumber" "28C") _ _
    (fun s hs => by rw [optSeg_tags fields "statementNumber" "28C" s hs]
                    decide)]
  rw [show optSeg fields "openingBalance" "60F" =
    [(⟨str "60F", ob, []⟩ : GSeg)] from by simp [optSeg, hob]]
  rw [show List.map segEntry [(⟨str "60F", ob, []⟩ : GSeg)] =
    [(str "60F", FieldVal.scalar ob)] from by
      simp [segEntry, segVal_single _ _
        (gf_ne_nil fields "openingBalance" ob hob)]]
  rw [List.singleton_append]
  exact lookup_map_cons_hit _ _ _

theorem lookups950_62F (fields : List (Str × Str)) (cb : Str)
    (hcb : gf fields "closingBalance" = some cb) :
    lookupKey ((segs950 fields).map segEntry) (str "62F") =
      some (FieldVal.scalar cb) := by
  rw [segs950]
  simp only [List.map_append, List.append_assoc]
  rw [lookup_skip_chunk (optSeg fields "transactionReference" "20") _ _
    (fun s hs => by
      rw [optSeg_tags fields "transactionReference" "20" s hs]
      decide)]
  rw [lookup_skip_chunk (optSeg fields "accountId" "25") _ _
    (fun s hs => by rw [optSeg_tags fields "accountId" "25" s hs]
                    decide)]
  rw [lookup_skip_chunk (optSeg fields "statementNumber" "28C") _ _
    (fun s hs => by rw [optSeg_tags fields "statementNumber" "28C" s hs]
                    decide)]
  rw [lookup_skip_chunk (optSeg fields "openingBalance" "60F") _ _
    (fun s hs => by rw [optSeg_tags fields "openingBalance" "60F" s hs]
                    decide)]
  rw [lookup_skip_chunk (seg61 fields) _ _
    (fun s hs => by rw [seg61_tags fields s hs]; decide)]
  rw [show optSeg fields "closingBalance" "62F" =
    [(⟨str "62F", cb, []⟩ : GSeg)] from by simp [optSeg, hcb]]
  rw [show List.map segEntry [(⟨str "62F", cb, []⟩ : GSeg)] =
    [(str "62F", FieldVal.scalar cb)] from by
      simp [segEntry, segVal_single _ _
        (gf_ne_nil fields "closingBalance" cb hcb)]]
  exact lookup_map_cons_hit _ _ _

theorem mand950_nil (fields : List (Str × Str)) (ref acct sn ob cb : Str)
    (href : gf fields "transactionReference" = some ref)
    (hacct : gf fields "accountId" = some acct)
    (hsn : gf fields "statementNumber" = some sn)
    (hob : gf fields "openingBalance" = some ob)
    (hcb : gf fields "closingBalance" = some cb) :
    mandatoryErrors mt950Spec.fields ((segs950 fields).map segEntry) = [] := by
  apply mandatoryErrors_nil_of
  intro f hf hfm
  simp only [mt950Spec, mkFS, mkFSA] at hf
  fin_cases hf <;> first | exact absurd hfm (by decide) | skip
  · show isMissing (lookupKey ((segs950 fields).map segEntry)
      (str "20")) = false
    rw [lookups950_20 fields ref href]
    exact isMissing_scalar ref (gf_ne_nil _ _ _ href)
  · show isMissing (lookupKey ((segs950 fields).map segEntry)
      (str "25")) = false
    rw [lookups950_25 fields acct hacct]
    exact isMissing_scalar acct (gf_ne_nil _ _ _ hacct)
  · show isMissing (lookupKey ((segs950 fields).map segEntry)
      (str "28C")) = false
    rw [lookups950_28C fields sn hsn]
    exact isMissing_scalar sn (gf_ne_nil _ _ _ hsn)
  · show isMissing (lookupKey ((segs950 fields).map segEntry)
      (str "60F")) = false
    rw [lookups950_60F fields ob hob]
    exact isMissing_scalar ob (gf_ne_nil _ _ _ hob)
  · show isMissing (lookupKey ((segs950 fields).map segEntry)
      (str "62F")) = false
    rw [lookups950_62F fields cb hcb]
    exact isMissing_scalar cb (gf_ne_nil _ _ _ hcb)

theorem fmt950_nil (fields : List (Str × Str))
    (h20b : ∀ v, gf fields "transactionReference" = some v → v.length ≤ 16)
    (h25b : ∀ v, gf fields "accountId" = some v → v.length ≤ 35) :
    (formatChecks mt950Spec.fields ((segs950 fields).map segEntry)).1 =
      [] := by
  apply formatChecks_fst_nil
  intro tv htv
  obtain ⟨s, hsm, rfl⟩ := List.mem_map.mp htv
  rw [segs950] at hsm
  simp only [List.mem_append] at hsm
  rcases hsm with ((((h | h) | h) | h) | h) | h
  · obtain ⟨v, hv, rfl⟩ := mem_optSeg _ _ _ s h
    refine fmtOk_of_le mt950Spec.fields _
      (mkFS "20" "Transaction Reference Number" true (some 16)) 16
      (by rw [show (segEntry (⟨str "20", v, []⟩ : GSeg)).1 = str "20"
            from rfl]
          decide) rfl ?_
    rw [show (segEntry (⟨str "20", v, []⟩ : GSeg)).2 =
      segVal ⟨str "20", v, []⟩ from rfl,
      segVal_single _ _ (gf_ne_nil _ _ _ hv)]
    exact h20b v hv
  · obtain ⟨v, hv, rfl⟩ := mem_optSeg _ _ _ s h
    refine fmtOk_of_le mt950Spec.fields _
      (mkFS "25" "Account Identification" true (some 35)) 35
      (by rw [show (segEntry (⟨str "25", v, []⟩ : GSeg)).1 = str "25"
            from rfl]
          decide) rfl ?_
    rw [show (segEntry (⟨str "25", v, []⟩ : GSeg)).2 =
      segVal ⟨str "25", v, []⟩ from rfl,
      segVal_single _ _ (gf_ne_nil _ _ _ hv)]
    exact h25b v hv
  · obtain ⟨v, hv, rfl⟩ := mem_optSeg _ _ _ s h
    exact fmtOk_of_none _ _
      (mkFS "28C" "Statement Number/Sequence Number" true none)
      (by rw [show (segEntry (⟨str "28C", v, []⟩ : GSeg)).1 = str "28C"
            from rfl]
          decide) rfl
  · obtain ⟨v, hv, rfl⟩ := mem_optSeg _ _ _ s h
    exact fmtOk_of_none _ _
      (mkFS "60F" "Opening Balance (First)" true none)
      (by rw [show (segEntry (⟨str "60F", v, []⟩ : GSeg)).1 = str "60F"
            from rfl]
          decide) rfl
  · exact fmtOk_of_none _ _
      (mkFS "61" "Statement Line" false none)
      (by rw [show (segEntry s).1 = s.tag from rfl, seg61_tags fields s h]
          decide) rfl
  · obtain ⟨v, hv, rfl⟩ := mem_optSeg _ _ _ s h
    exact fmtOk_of_none _ _
      (mkFS "62F" "Closing Balance (Final)" true none)
      (by rw [show (segEntry (⟨str "62F", v, []⟩ : GSeg)).1 = str "62F"
            from rfl]
          decide) rfl

theorem spec950_ok (fields : List (Str × Str)) (ob cb : Str)
    (hob : gf fields "openingBalance" = some ob)
    (hcb : gf fields "closingBalance" = some cb) :
    ∃ ws, validateStatementSpecifics ((segs950 fields).map segEntry) =
      Except.ok ([], ws) := by
  have h60 := lookups950_60F fields ob hob
  have h62 := lookups950_62F fields cb hcb
  have hne60 : ob ≠ [] := gf_ne_nil _ _ _ hob
  have hne62 : cb ≠ [] := gf_ne_nil _ _ _ hcb
  have hbal : ∀ t ∈ balanceTags,
      ∃ w, checkBalanceTag ((segs950 fields).map segEntry) t =
        Except.ok w := by
    intro t ht
    simp only [balanceTags, List.mem_cons, List.mem_singleton] at ht
    rcases ht with rfl | rfl | rfl | rfl | rfl | (rfl | hx)
    · exact checkBalanceTag_of_scalar _ _ ob h60
    · exact ⟨[], checkBalanceTag_of_none _ _
        (lookups950_none fields _ (by decide))⟩
    · exact checkBalanceTag_of_scalar _ _ cb h62
    · exact ⟨[], checkBalanceTag_of_none _ _
        (lookups950_none fields _ (by decide))⟩
    · exact ⟨[], checkBalanceTag_of_none _ _
        (lookups950_none fields _ (by decide))⟩
    · exact ⟨[], checkBalanceTag_of_none _ _
        (lookups950_none fields _ (by decide))⟩
    · simp at hx
  obtain ⟨ws, hws⟩ := checkBalances_ok_of _ balanceTags hbal
  refine ⟨ws, ?_⟩
  simp only [validateStatementSpecifics, hws, Except.map, h60, h62,
    truthy_scalar _ hne60, truthy_scalar _ hne62, Bool.not_true,
    Bool.false_and, if_false]
  rfl

theorem validate950_of_parse (p : ParsedMtMessage)
    (fields : List (Str × Str)) (ref acct sn ob cb : Str)
    (hpmt : p.messageType = str "MT" ++ str "950")
    (hptb : p.textBlock = (segs950 fields).map segEntry)
    (href : gf fields "transactionReference" = some ref)
    (hacct : gf fields "accountId" = some acct)
    (hsn : gf fields "statementNumber" = some sn)
    (hob : gf fields "openingBalance" = some ob)
    (hcb : gf fields "closingBalance" = some cb)
    (h20b : ∀ v, gf fields "transactionReference" = some v →
      v.length ≤ 16)
    (h25b : ∀ v, gf fields "accountId" = some v → v.length ≤ 35) :
    ∃ r, validateCore p = Except.ok r ∧ r.valid = true := by
  obtain ⟨ws, hws⟩ := spec950_ok fields ob cb hob hcb
  have hspec : specFor (str "MT" ++ stripFirstMT p.messageType) =
      some mt950Spec := by
    rw [hpmt]
    rfl
  have hsp : specificsFor (stripFirstMT p.messageType) p.textBlock =
      Except.ok ([], ws) := by
    rw [hpmt, hptb]
    exact hws
  have hval := validateCore_build p mt950Spec _ hspec hsp
  have hallE : allErrors mt950Spec p.textBlock ([], ws) = [] := by
    rw [allErrors, hptb,
      mand950_nil fields ref acct sn ob cb href hacct hsn hob hcb,
      fmt950_nil fields h20b h25b]
    rfl
  rw [hallE] at hval
  exact ⟨_, hval, rfl⟩

/-- A well-formed MT950 generation input: valid BICs, all mandatory
statement values supplied with safe characters and within bounds, optional
statement lines safe, and brace-free block-3 fields. -/
def good950 (input : MtMessageInput) : Bool :=
  decide (input.messageType = str "MT950") &&
  (validateBic input.senderBic).valid &&
  (validateBic input.receiverBic).valid &&
  reqLeB input.fields "transactionReference" 16 &&
  reqLeB input.fields "accountId" 35 &&
  reqB input.fields "statementNumber" &&
  reqB input.fields "openingBalance" &&
  goodOptB input.fields "statementLines" &&
  reqB input.fields "closingBalance" &&
  noBraceB input.fields "uetr" && noBraceB input.fields "mur"

theorem mt950_roundtrip (input : MtMessageInput)
    (hg : good950 input = true) :
    ∃ out r, generateMtMessage input = Except.ok out ∧
      validateMtMessage (Sum.inl out) = Except.ok r ∧ r.valid = true := by
  simp only [good950, Bool.and_eq_true] at hg
  obtain ⟨⟨⟨⟨⟨⟨⟨⟨⟨⟨hmt, hsv⟩, hrv⟩, h20⟩, h25⟩, h28B⟩, h60B⟩, hstB⟩,
    h62B⟩, huB⟩, hmB⟩ := hg
  rw [decide_eq_true_eq] at hmt
  obtain ⟨ref, href, hrefS, hreflen⟩ := reqLeB_elim _ _ _ h20
  obtain ⟨acct, hacct, hacctS, hacctlen⟩ := reqLeB_elim _ _ _ h25
  obtain ⟨sn, hsn, hsnS⟩ := reqB_elim _ _ h28B
  obtain ⟨ob, hob, hobS⟩ := reqB_elim _ _ h60B
  obtain ⟨cb, hcb, hcbS⟩ := reqB_elim _ _ h62B
  have h20A : ∀ v, gf input.fields "transactionReference" = some v →
      ∀ c ∈ v, safeChar c = true := by
    intro v hv
    rw [href] at hv
    injection hv with hv
    rw [← hv]
    exact hrefS
  have h20b : ∀ v, gf input.fields "transactionReference" = some v →
      v.length ≤ 16 := by
    intro v hv
    rw [href] at hv
    injection hv with hv
    rw [← hv]
    exact hreflen
  have h25A : ∀ v, gf input.fields "accountId" = some v →
      ∀ c ∈ v, safeChar c = true := by
    intro v hv
    rw [hacct] at hv
    injection hv with hv
    rw [← hv]
    exact hacctS
  have h25b : ∀ v, gf input.fields "accountId" = some v →
      v.length ≤ 35 := by
    intro v hv
    rw [hacct] at hv
    injection hv with hv
    rw [← hv]
    exact hacctlen
  have h28A : ∀ v, gf input.fields "statementNumber" = some v →
      ∀ c ∈ v, safeChar c = true := by
    intro v hv
    rw [hsn] at hv
    injection hv with hv
    rw [← hv]
    exact hsnS
  have h60A : ∀ v, gf input.fields "openingBalance" = some v →
      ∀ c ∈ v, safeChar c = true := by
    intro v hv
    rw [hob] at hv
    injection hv with hv
    rw [← hv]
    exact hobS
  have h62A : ∀ v, gf input.fields "closingBalance" = some v →
      ∀ c ∈ v, safeChar c = true := by
    intro v hv
    rw [hcb] at hv
    injection hv with hv
    rw [← hv]
    exact hcbS
  have hstS := goodOptB_elim _ _ hstB
  have huE := noBraceB_elim _ _ huB
  have hmE := noBraceB_elim _ _ hmB
  have hwf := wf_segs950 input.fields h20A h25A h28A h60A hstS h62A
  obtain ⟨segrest, hhead⟩ := segs950_head input.fields ref href
  have hcontent := generateMT950Content_eq input.fields
  have hb4 : generateBlock4 (stripFirstMT input.messageType) input.fields =
      Except.ok (obr :: str "4:\r\n" ++
        (joinCRLF (segsLines (segs950 input.fields)) ++ str "\r\n") ++
        str "-" ++ [cbr]) := by
    rw [hmt, show stripFirstMT (str "MT950") = str "950" from rfl,
      generateBlock4, if_neg (by decide), if_neg (by decide),
      if_neg (by decide), if_pos rfl, hcontent]
    rfl
  have hout := generateMtMessage_ok input _ hsv hrv hb4
  rw [hmt, show stripFirstMT (str "MT950") = str "950" from rfl] at hout
  obtain ⟨hdmt, hdtb⟩ := parse_generated_msg
    (normalizeBicTo12 (validateBic input.senderBic).normalized)
    (normalizeBicTo12 (validateBic input.receiverBic).normalized)
    (str "950") input.fields (segs950 input.fields)
    (bic_chars_of_valid input.senderBic hsv)
    (bic_chars_of_valid input.receiverBic hrv)
    (by decide) (by decide) hwf _ segrest hhead huE hmE
  rw [segs950_map input.fields hstS] at hdtb
  obtain ⟨r, hr, hrv'⟩ := validate950_of_parse _ input.fields ref acct sn
    ob cb hdmt hdtb href hacct hsn hob hcb h20b h25b
  exact ⟨_, r, hout, hr, hrv'⟩

/-! ## Claims C1 and C2 -/

def c1CexInput : MtMessageInput :=
  ⟨str "MT103", str "DEUTDEFF", str "CHASUS33",
   [(str "senderReference", str "AAAAAAAAAAAAAAAAA"),
    (str "valueDate", str "240101"),
    (str "currency", str "USD"),
    (str "amount", str "100"),
    (str "beneficiaryName", str "JANE SMITH")]⟩

def c1WitInput : MtMessageInput :=
  ⟨str "MT103", str "DEUTDEFF", str "CHASUS33",
   [(str "senderReference", str "REF123"),
    (str "valueDate", str "240101"),
    (str "currency", str "USD"),
    (str "amount", str "100"),
    (str "beneficiaryName", str "JANE SMITH")]⟩

/-- C1 (amended): for each of the four supported message types, a
generation input with valid sender and receiver BICs whose supplied field
values are well-formed — mandatory values present, SWIFT-safe characters,
within the specification maximum lengths, a six-digit value date, a
three-letter currency, canonical integer amounts, enumerated codes drawn
from their tables, brace-free block-3 fields — produces a message that
`validateMtMessage` accepts with `valid = true`. The unrestricted original
claim (any input supplying at least the mandatory values round-trips to
`valid = true`) is refuted by `c1_counterexample`. -/
theorem c1_roundtrip_amended (input : MtMessageInput)
    (hg : good103 input = true ∨ good202 input = true ∨
      good940 input = true ∨ good950 input = true) :
    ∃ out r, generateMtMessage input = Except.ok out ∧
      validateMtMessage (Sum.inl out) = Except.ok r ∧ r.valid = true := by
  rcases hg with h | h | h | h
  · exact mt103_roundtrip input h
  · exact mt202_roundtrip input h
  · exact mt940_roundtrip input h
  · exact mt950_roundtrip input h

set_option maxRecDepth 200000 in
/-- A mandatory value that exceeds its specification maximum (a
17-character sender reference) is supplied together with valid BICs and
all other mandatory values; generation succeeds but re-validation reports
`valid = false`, refuting the original C1. -/
theorem c1_counterexample :
    ∃ out r, generateMtMessage c1CexInput = Except.ok out ∧
      validateMtMessage (Sum.inl out) = Except.ok r ∧
      r.valid = false := by
  refine ⟨(generateMtMessage c1CexInput).toOption.getD [],
    (validateMtMessage (Sum.inl
      ((generateMtMessage c1CexInput).toOption.getD []))).toOption.getD
      ⟨false, [], [], [], []⟩, ?_, ?_, ?_⟩
  · decide
  · decide
  · decide

/-- The amended C1 at a concrete mandatory-only MT103 input. -/
theorem c1_witness :
    ∃ out r, generateMtMessage c1WitInput = Except.ok out ∧
      validateMtMessage (Sum.inl out) = Except.ok r ∧ r.valid = true :=
  c1_roundtrip_amended c1WitInput (Or.inl (by decide))

def c2CexInput : MtMessageInput :=
  ⟨str "MT103", str "DEUTDEFF", str "CHASUS33",
   [(str "valueDate", str "240101"),
    (str "currency", str "USD"),
    (str "amount", str "100"),
    (str "beneficiaryName", str "JANE SMITH")]⟩

def c2WitInput : MtMessageInput :=
  ⟨str "MT103", str "DEUTDEFF", str "CHASUS33", []⟩

/-- C2 (amended): `generateMtMessage` raises a blocking failure only for
an invalid BIC, an invalid enumerated code, a malformed amount, or an
unsupported message type. For an input of any of the four supported types
with valid BICs, valid enumerated codes, and well-formed amounts, it
succeeds no matter which mandatory values are missing — a missing
mandatory value never blocks generation — and for any other message type
it fails with exactly the unsupported-type error. The original C2 (a
missing mandatory value aborts generation) is refuted by
`c2_counterexample`. -/
theorem c2_generator_failures (input : MtMessageInput)
    (hsv : (validateBic input.senderBic).valid = true)
    (hrv : (validateBic input.receiverBic).valid = true)
    (hop : memOptB input.fields "bankOperationCode" bankOperationCodes =
      true)
    (hch : memOptB input.fields "charges" chargeCodes = true)
    (hamt : amtOptB input.fields "amount" = true)
    (hiamt : amtOptB input.fields "instructedAmount" = true) :
    (stripFirstMT input.messageType = str "103" ∨
     stripFirstMT input.messageType = str "202" ∨
     stripFirstMT input.messageType = str "940" ∨
     stripFirstMT input.messageType = str "950" →
      ∃ out, generateMtMessage input = Except.ok out) ∧
    (stripFirstMT input.messageType ≠ str "103" →
     stripFirstMT input.messageType ≠ str "202" →
     stripFirstMT input.messageType ≠ str "940" →
     stripFirstMT input.messageType ≠ str "950" →
      generateMtMessage input = Except.error
        (str "Unsupported message type: MT" ++
          stripFirstMT input.messageType)) := by
  have hamtA := amtOptB_elim _ _ hamt
  constructor
  · intro hmt
    have hopm := memOptB_elim _ _ _ (str "CRED") (by decide) hop
    have hchm := memOptB_elim _ _ _ (str "SHA") (by decide) hch
    have hiamtA := amtOptB_elim _ _ hiamt
    rcases hmt with hmt | hmt | hmt | hmt
    · have hcontent := generateMT103Content_eq input.fields hopm hchm
        hamtA hiamtA
      have hb4 : generateBlock4 (stripFirstMT input.messageType)
          input.fields = Except.ok (obr :: str "4:\r\n" ++
            (joinCRLF (segsLines (segs103 input.fields)) ++ str "\r\n") ++
            str "-" ++ [cbr]) := by
        rw [hmt, generateBlock4, if_pos rfl, hcontent]
        rfl
      exact ⟨_, generateMtMessage_ok input _ hsv hrv hb4⟩
    · have hcontent := generateMT202Content_eq input.fields hamtA
      have hb4 : generateBlock4 (stripFirstMT input.messageType)
          input.fields = Except.ok (obr :: str "4:\r\n" ++
            (joinCRLF (segsLines (segs202 input.fields)) ++ str "\r\n") ++
            str "-" ++ [cbr]) := by
        rw [hmt, generateBlock4, if_neg (by decide), if_pos rfl, hcontent]
        rfl
      exact ⟨_, generateMtMessage_ok input _ hsv hrv hb4⟩
    · have hcontent := generateMT940Content_eq input.fields
      have hb4 : generateBlock4 (stripFirstMT input.messageType)
          input.fields = Except.ok (obr :: str "4:\r\n" ++
            (joinCRLF (segsLines (segs940 input.fields)) ++ str "\r\n") ++
            str "-" ++ [cbr]) := by
        rw [hmt, generateBlock4, if_neg (by decide), if_neg (by decide),
          if_pos rfl, hcontent]
        rfl
      exact ⟨_, generateMtMessage_ok input _ hsv hrv hb4⟩
    · have hcontent := generateMT950Content_eq input.fields
      have hb4 : generateBlock4 (stripFirstMT input.messageType)
          input.fields = Except.ok (obr :: str "4:\r\n" ++
            (joinCRLF (segsLines (segs950 input.fields)) ++ str "\r\n") ++
            str "-" ++ [cbr]) := by
        rw [hmt, generateBlock4, if_neg (by decide), if_neg (by decide),
          if_neg (by decide), if_pos rfl, hcontent]
        rfl
      exact ⟨_, generateMtMessage_ok input _ hsv hrv hb4⟩
  · intro h1 h2 h3 h4
    rw [generateMtMessage, if_neg (by rw [hsv]; decide),
      if_neg (by rw [hrv]; decide), generateBlock4,
      if_neg h1, if_neg h2, if_neg h3, if_neg h4]
    rfl

set_option maxRecDepth 200000 in
/-- An MT103 input with valid BICs but no sender reference: generation
succeeds, the wire message's text block has no tag 20 at all, and only the
separate validation pass reports the missing mandatory field — refuting
the original C2. -/
theorem c2_counterexample :
    gf c2CexInput.fields "senderReference" = none ∧
    ∃ out, generateMtMessage c2CexInput = Except.ok out ∧
      lookupKey (parseMtMessage out).textBlock (str "20") = none ∧
      ∃ r, validateMtMessage (Sum.inl out) = Except.ok r ∧
        r.valid = false ∧
        missingFieldError (mkFSA "20" "Sender" "s Reference" true (some 16))
          ∈ r.errors := by
  refine ⟨by decide, (generateMtMessage c2CexInput).toOption.getD [], ?_,
    ?_, (validateMtMessage (Sum.inl
      ((generateMtMessage c2CexInput).toOption.getD []))).toOption.getD
      ⟨false, [], [], [], []⟩, ?_, ?_, ?_⟩
  · decide
  · decide
  · decide
  · decide
  · decide

def c2BadInput : MtMessageInput :=
  ⟨str "MT999", str "DEUTDEFF", str "CHASUS33", []⟩

/-- The amended C2 at concrete inputs: an MT103 input with an empty field
record (no mandatory value supplied) generates successfully, and an MT999
input fails with the unsupported-type error. -/
theorem c2_witness :
    (∃ out, generateMtMessage c2WitInput = Except.ok out) ∧
    generateMtMessage c2BadInput =
      Except.error (str "Unsupported message type: MT" ++ str "999") :=
  ⟨(c2_generator_failures c2WitInput (by decide) (by decide) (by decide)
      (by decide) (by decide) (by decide)).1 (Or.inl (by decide)),
   (c2_generator_failures c2BadInput (by decide) (by decide) (by decide)
      (by decide) (by decide) (by decide)).2 (by decide) (by decide)
      (by decide) (by decide)⟩
